import Mathlib

/-!
# VkPlayground: resource wrappers, handle counters, context creation and the memory allocator

A shallow embedding of `VulkanBuffer` (vulkan_buffer.hpp / vulkan_buffer.cpp),
`VulkanFence`, `VulkanCommandBuffer`, `VulkanContext` and the frame loop of main.cpp, and a
model of `MemoryChunk`, `VulkanMemoryAllocator` and the buffer storage of `VulkanDevice`, whose
members are those of the headers and whose method bodies follow the specification.

Conventions of the embedding

* Driver handles and host pointers are natural numbers; `VK_NULL_HANDLE` and
  `nullptr` are `0`.
* A C++ method becomes a function from the object (and the environment it
  reaches through `m_device`) to an `Outcome`: the object after the call, the
  calls issued to the driver and to the memory allocator in program order, and
  either the returned value or the message of the `std::runtime_error` thrown.
  Mutations and calls made before a `throw` are kept, as in C++.
* `vulkan_memory.cpp` and `vulkan_device.cpp` are not part of the sources at
  hand.  What the allocator answers to a call is therefore an argument of the
  method that calls it (every theorem quantifies over it), and
  `VulkanDevice::getMemoryHandle` is a field of the environment.
* `Logger` calls have no effect on the modelled state and are left out.
-/

namespace VkPlayground

/-! ## Data model -/

/-- The struct `MemoryChunk::MemoryBlock` of vulkan_memory.hpp, with its default member values. -/
structure MemoryBlock where
  size : Nat := 0
  offset : Nat := 0
  chunk : Nat := 0
deriving DecidableEq, Repr

/-- The fields of `VkMemoryRequirements` read by the wrappers. -/
structure VkMemoryRequirements where
  size : Nat
  alignment : Nat
  memoryTypeBits : Nat
deriving DecidableEq, Repr

/-- The struct `VulkanMemoryAllocator::MemoryPropertyPreferences`. -/
structure MemoryPropertyPreferences where
  desiredProperties : Nat
  undesiredProperties : Nat
  allowUndesired : Bool
deriving DecidableEq, Repr

/-- The null driver handle. -/
def VK_NULL_HANDLE : Nat := 0

/-- The null host pointer. -/
def nullptr : Nat := 0

/-- Width of `VkDeviceSize`. -/
def deviceSizeModulus : Nat := 2 ^ 64

/-- Width of the `uint32_t` ID counters. -/
def idModulus : Nat := 2 ^ 32

/-- Width of `uint64_t`: `UINT64_MAX` is one less. -/
def UINT64_MAX : Nat := 2 ^ 64 - 1

/-- The driver's success code `VK_SUCCESS`. -/
def VK_SUCCESS : Int := 0

/-- The driver's `VK_TRUE`. -/
def VK_TRUE : Nat := 1

/-- The driver's `VK_SUBPASS_CONTENTS_INLINE`. -/
def VK_SUBPASS_CONTENTS_INLINE : Nat := 0

/-- The driver's `VK_DEVICE_QUEUE_CREATE_PROTECTED_BIT`. -/
def VK_DEVICE_QUEUE_CREATE_PROTECTED_BIT : Nat := 1

/-- The driver macro `VK_MAKE_VERSION(major, minor, patch)`. -/
def VK_MAKE_VERSION (major minor patch : Nat) : Nat :=
  (major <<< 22) ||| (minor <<< 12) ||| patch

/-- A `static_cast<uint32_t>` of a container size. -/
def castU32 (n : Nat) : Nat := n % idModulus

/-- The struct `VkBufferCopy`. -/
structure VkBufferCopy where
  srcOffset : Nat
  dstOffset : Nat
  size : Nat
deriving DecidableEq, Repr

/-- The struct `VkExtent2D`. -/
structure VkExtent2D where
  width : Nat := 0
  height : Nat := 0
deriving DecidableEq, Repr

/-- The struct `VkOffset2D`. -/
structure VkOffset2D where
  x : Int := 0
  y : Int := 0
deriving DecidableEq, Repr

/-- The struct `VkRect2D`. -/
structure VkRect2D where
  offset : VkOffset2D := {}
  extent : VkExtent2D := {}
deriving DecidableEq, Repr

/-- The fields of `VkCommandBufferBeginInfo` set by `beginRecording` (`sType` is fixed). -/
structure VkCommandBufferBeginInfo where
  flags : Nat := 0
deriving DecidableEq, Repr

/-- The fields of `VkRenderPassBeginInfo` set by `cmdBeginRenderPass` (`sType` is fixed).
Clear values are passed through untouched and stand as opaque numbers. -/
structure VkRenderPassBeginInfo where
  renderPass : Nat := 0
  framebuffer : Nat := 0
  renderArea : VkRect2D := {}
  clearValueCount : Nat := 0
  pClearValues : List Nat := []
deriving DecidableEq, Repr

/-- The fields of `VkSubmitInfo` set by `submit` (`sType` is fixed). -/
structure VkSubmitInfo where
  commandBufferCount : Nat := 0
  pCommandBuffers : List Nat := []
  waitSemaphoreCount : Nat := 0
  pWaitSemaphores : List Nat := []
  pWaitDstStageMask : List Nat := []
  signalSemaphoreCount : Nat := 0
  pSignalSemaphores : List Nat := []
deriving DecidableEq, Repr

/-- The struct `VkApplicationInfo` as filled by the `VulkanContext` constructor. -/
structure VkApplicationInfo where
  pApplicationName : String := ""
  applicationVersion : Nat := 0
  pEngineName : String := ""
  engineVersion : Nat := 0
  apiVersion : Nat := 0
deriving DecidableEq, Repr

/-- The struct `VkInstanceCreateInfo` as filled by the `VulkanContext` constructor. -/
structure VkInstanceCreateInfo where
  pApplicationInfo : VkApplicationInfo := {}
  enabledLayerCount : Nat := 0
  ppEnabledLayerNames : List String := []
  enabledExtensionCount : Nat := 0
  ppEnabledExtensionNames : List String := []
deriving DecidableEq, Repr

/-- The struct `VkDeviceQueueCreateInfo` as filled by `createDevice`; priorities are floats in
the source, passed through untouched, and stand as opaque numbers. -/
structure VkDeviceQueueCreateInfo where
  flags : Nat := 0
  queueFamilyIndex : Nat := 0
  queueCount : Nat := 0
  pQueuePriorities : List Nat := []
deriving DecidableEq, Repr

/-- The struct `VkDeviceCreateInfo` as filled by `createDevice`; the feature struct is passed
through untouched and stands as an opaque number. -/
structure VkDeviceCreateInfo where
  enabledLayerCount : Nat := 0
  ppEnabledLayerNames : List String := []
  enabledExtensionCount : Nat := 0
  ppEnabledExtensionNames : List String := []
  queueCreateInfoCount : Nat := 0
  pQueueCreateInfos : List VkDeviceQueueCreateInfo := []
  pEnabledFeatures : Nat := 0
deriving DecidableEq, Repr

/-- The members of `VulkanDevice` (vulkan_device.hpp) that the modelled code reads or writes. -/
structure VulkanDevice where
  m_vkHandle : Nat := 0
  m_physicalDevice : Nat := 0
deriving DecidableEq, Repr

/-- What a `VulkanBuffer` reaches through `m_device`: the device, the device's
`getMemoryHandle(chunk)` and the requirements the driver reports for a buffer handle. -/
structure Env where
  device : VulkanDevice
  getMemoryHandle : Nat → Nat
  memoryRequirements : Nat → VkMemoryRequirements

/-- A call that leaves the wrapper: to the driver (`vk*`) or to `m_device->m_memoryAllocator`.
The two allocating calls also record the block the allocator handed back, if any, and
`deallocate` whether it returned normally. -/
inductive Call where
  | vkGetBufferMemoryRequirements (device buffer : Nat)
  | allocate (size alignment memoryType : Nat) (returned : Option MemoryBlock)
  | searchAndAllocate (size alignment : Nat) (properties : MemoryPropertyPreferences)
      (typeFilter : Nat) (includeHidden : Bool) (returned : Option MemoryBlock)
  | deallocate (block : MemoryBlock) (completed : Bool)
  | vkBindBufferMemory (device buffer memory offset : Nat)
  | vkMapMemory (device memory offset size flags : Nat)
  | vkUnmapMemory (device memory : Nat)
  | vkDestroyBuffer (device buffer : Nat)
  | vkResetFences (device fenceCount fence : Nat)
  | vkWaitForFences (device fenceCount fence waitAll timeout : Nat)
  | vkDestroyFence (device fence : Nat)
  | vkBeginCommandBuffer (commandBuffer : Nat) (beginInfo : VkCommandBufferBeginInfo)
  | vkEndCommandBuffer (commandBuffer : Nat)
  | vkCmdCopyBuffer (commandBuffer srcBuffer dstBuffer regionCount : Nat)
      (pRegions : List VkBufferCopy)
  | vkCmdPushConstants (commandBuffer layout stageFlags offset size pValues : Nat)
  | vkQueueSubmit (queue submitCount : Nat) (pSubmits : VkSubmitInfo) (fence : Nat)
  | vkResetCommandBuffer (commandBuffer flags : Nat)
  | vkCmdBeginRenderPass (commandBuffer : Nat) (beginInfo : VkRenderPassBeginInfo)
      (contents : Nat)
  | vkCmdEndRenderPass (commandBuffer : Nat)
  | vkCmdBindPipeline (commandBuffer bindPoint pipeline : Nat)
  | vkCmdNextSubpass (commandBuffer contents : Nat)
  | vkCmdPipelineBarrier (commandBuffer srcStageMask dstStageMask dependencyFlags : Nat)
      (memoryBarrierCount : Nat) (pMemoryBarriers : List Nat)
      (bufferMemoryBarrierCount : Nat) (pBufferMemoryBarriers : List Nat)
      (imageMemoryBarrierCount : Nat) (pImageMemoryBarriers : List Nat)
  | vkCmdBindVertexBuffers (commandBuffer firstBinding bindingCount : Nat)
      (pBuffers : List Nat) (pOffsets : List Nat)
  | vkCmdBindIndexBuffer (commandBuffer buffer offset indexType : Nat)
  | vkCmdSetViewport (commandBuffer firstViewport viewportCount viewport : Nat)
  | vkCmdSetScissor (commandBuffer firstScissor scissorCount : Nat) (scissor : VkRect2D)
  | vkCmdDraw (commandBuffer vertexCount instanceCount firstVertex firstInstance : Nat)
  | vkCmdDrawIndexed (commandBuffer indexCount instanceCount firstIndex : Nat)
      (vertexOffset : Int) (firstInstance : Nat)
  | vkCreateInstance (createInfo : VkInstanceCreateInfo)
  | vkCreateDevice (physicalDevice : Nat) (createInfo : VkDeviceCreateInfo)
deriving DecidableEq, Repr

/-- The data members of `VulkanBuffer` (vulkan_buffer.hpp), with their default member values;
`m_device` is the `Env` passed to each method. -/
structure VulkanBuffer where
  m_id : Nat := 0
  m_memoryRegion : MemoryBlock := {}
  m_size : Nat := 0
  m_vkHandle : Nat := VK_NULL_HANDLE
  m_mappedData : Nat := nullptr
deriving DecidableEq, Repr

/-- The effect of one method call: the object afterwards, the calls issued in order, and the
value returned or the message of the exception thrown. -/
structure Outcome (σ α : Type) where
  self : σ
  trace : List Call
  result : Except String α

/-- The message thrown by `VulkanBuffer::setBoundMemory`. -/
def alreadyBoundMessage : String := "Buffer already has memory bound to it!"

/-- Whether the call returned normally. -/
def Outcome.returned {σ α : Type} (o : Outcome σ α) : Bool :=
  match o.result with
  | .ok _ => true
  | .error _ => false

/-- The message of the exception thrown, if any. -/
def Outcome.thrown {σ α : Type} (o : Outcome σ α) : Option String :=
  match o.result with
  | .ok _ => none
  | .error e => some e

/-- Whether a call is the driver's bind primitive. -/
def Call.isBind : Call → Bool
  | .vkBindBufferMemory _ _ _ _ => true
  | _ => false

/-- Whether a call is the allocator's `deallocate`. -/
def Call.isDeallocate : Call → Bool
  | .deallocate _ _ => true
  | _ => false

/-- Whether a call is the driver's map primitive. -/
def Call.isMap : Call → Bool
  | .vkMapMemory _ _ _ _ _ => true
  | _ => false

/-! ## VulkanBuffer (vulkan_buffer.cpp) -/

namespace VulkanBuffer

/-- `VulkanBuffer::getMemoryRequirements`: one driver query, whose answer is returned. -/
def getMemoryRequirements (env : Env) (b : VulkanBuffer) : VkMemoryRequirements × List Call :=
  (env.memoryRequirements b.m_vkHandle,
    [Call.vkGetBufferMemoryRequirements env.device.m_vkHandle b.m_vkHandle])

/-- `VulkanBuffer::setBoundMemory`. -/
def setBoundMemory (env : Env) (b : VulkanBuffer) (memoryRegion : MemoryBlock) :
    Outcome VulkanBuffer Unit :=
  if b.m_memoryRegion.size > 0 then
    { self := b, trace := [], result := .error alreadyBoundMessage }
  else
    let b1 : VulkanBuffer := { b with m_memoryRegion := memoryRegion }
    { self := b1
      trace := [Call.vkBindBufferMemory env.device.m_vkHandle b1.m_vkHandle
                  (env.getMemoryHandle b1.m_memoryRegion.chunk) b1.m_memoryRegion.offset]
      result := .ok () }

/-- `VulkanBuffer::allocateFromIndex`.  `allocated` is what
`m_memoryAllocator.allocate(requirements.size, requirements.alignment, memoryIndex)` does:
it returns a block or throws.  The argument is evaluated before `setBoundMemory` is entered. -/
def allocateFromIndex (env : Env) (b : VulkanBuffer) (memoryIndex : Nat)
    (allocated : Except String MemoryBlock) : Outcome VulkanBuffer Unit :=
  let requirements := (getMemoryRequirements env b).1
  let asked : List Call := (getMemoryRequirements env b).2 ++
    [Call.allocate requirements.size requirements.alignment memoryIndex allocated.toOption]
  match allocated with
  | .error e => { self := b, trace := asked, result := .error e }
  | .ok block =>
    let bound := setBoundMemory env b block
    { self := bound.self, trace := asked ++ bound.trace, result := bound.result }

/-- `VulkanBuffer::allocateFromFlags`.  `allocated` is what `m_memoryAllocator.searchAndAllocate(
requirements.size, requirements.alignment, memoryProperties, requirements.memoryTypeBits)` does;
the fifth parameter `includeHidden` takes its default `false`. -/
def allocateFromFlags (env : Env) (b : VulkanBuffer) (memoryProperties : MemoryPropertyPreferences)
    (allocated : Except String MemoryBlock) : Outcome VulkanBuffer Unit :=
  let requirements := (getMemoryRequirements env b).1
  let asked : List Call := (getMemoryRequirements env b).2 ++
    [Call.searchAndAllocate requirements.size requirements.alignment memoryProperties
      requirements.memoryTypeBits false allocated.toOption]
  match allocated with
  | .error e => { self := b, trace := asked, result := .error e }
  | .ok block =>
    let bound := setBoundMemory env b block
    { self := bound.self, trace := asked ++ bound.trace, result := bound.result }

/-- `VulkanBuffer::isMemoryMapped`. -/
def isMemoryMapped (b : VulkanBuffer) : Bool :=
  b.m_mappedData != nullptr

/-- `VulkanBuffer::getMappedData`. -/
def getMappedData (b : VulkanBuffer) : Nat :=
  b.m_mappedData

/-- `VulkanBuffer::getID`. -/
def getID (b : VulkanBuffer) : Nat :=
  b.m_id

/-- `VulkanBuffer::getSize`. -/
def getSize (b : VulkanBuffer) : Nat :=
  b.m_size

/-- `VulkanBuffer::map`.  `data` is the value of the local `void* data` after `vkMapMemory`;
the `VkResult` of the driver call is discarded by the source. -/
def map (env : Env) (b : VulkanBuffer) (size offset : Nat) (data : Nat) :
    Outcome VulkanBuffer Nat :=
  { self := { b with m_mappedData := data }
    trace := [Call.vkMapMemory env.device.m_vkHandle (env.getMemoryHandle b.m_memoryRegion.chunk)
                ((b.m_memoryRegion.offset + offset) % deviceSizeModulus) size 0]
    result := .ok data }

/-- `VulkanBuffer::unmap`. -/
def unmap (env : Env) (b : VulkanBuffer) : Outcome VulkanBuffer Unit :=
  { self := { b with m_mappedData := nullptr }
    trace := [Call.vkUnmapMemory env.device.m_vkHandle (env.getMemoryHandle b.m_memoryRegion.chunk)]
    result := .ok () }

/-- `VulkanBuffer::VulkanBuffer(device, vkHandle, size)`: takes the static `s_idCounter`, returns
the new object and the counter after `s_idCounter++` (a `uint32_t`). -/
def new (s_idCounter : Nat) (vkHandle size : Nat) : VulkanBuffer × Nat :=
  ({ m_id := s_idCounter, m_size := size, m_vkHandle := vkHandle }, (s_idCounter + 1) % idModulus)

/-- `VulkanBuffer::free`.  `deallocated` is what `m_memoryAllocator.deallocate(m_memoryRegion)`
does when it is reached: it returns or throws. -/
def free (env : Env) (b : VulkanBuffer) (deallocated : Except String Unit) :
    Outcome VulkanBuffer Unit :=
  let destroy : List Call := [Call.vkDestroyBuffer env.device.m_vkHandle b.m_vkHandle]
  let b1 : VulkanBuffer := { b with m_vkHandle := VK_NULL_HANDLE }
  if b1.m_memoryRegion.size > 0 then
    match deallocated with
    | .error e =>
      { self := b1, trace := destroy ++ [Call.deallocate b1.m_memoryRegion false]
        result := .error e }
    | .ok _ =>
      { self := { b1 with m_memoryRegion := {} }
        trace := destroy ++ [Call.deallocate b1.m_memoryRegion true], result := .ok () }
  else
    { self := b1, trace := destroy, result := .ok () }

end VulkanBuffer

/-- One of the two public binding calls of `VulkanBuffer`, with its argument. -/
inductive AllocCall where
  | fromIndex (memoryIndex : Nat)
  | fromFlags (memoryProperties : MemoryPropertyPreferences)
deriving DecidableEq, Repr

/-- Dispatch of an `AllocCall` to `allocateFromIndex` / `allocateFromFlags`. -/
def VulkanBuffer.allocateWith (env : Env) (b : VulkanBuffer) (c : AllocCall)
    (allocated : Except String MemoryBlock) : Outcome VulkanBuffer Unit :=
  match c with
  | .fromIndex memoryIndex => VulkanBuffer.allocateFromIndex env b memoryIndex allocated
  | .fromFlags memoryProperties => VulkanBuffer.allocateFromFlags env b memoryProperties allocated

/-- A fixed environment used at concrete inputs: device handle 1, chunk `c` backed by memory
handle `100 + c`, every buffer requiring 64 bytes aligned to 16 in any of the first four types. -/
def sampleEnv : Env :=
  { device := { m_vkHandle := 1, m_physicalDevice := 1 }
    getMemoryHandle := fun c => 100 + c
    memoryRequirements := fun _ => { size := 64, alignment := 16, memoryTypeBits := 15 } }

/-! ## VulkanFence (vulkan_fence.cpp) -/

/-- The data members of `VulkanFence` (vulkan_fence.hpp), with their default member values. -/
structure VulkanFence where
  m_id : Nat := 0
  m_isSignaled : Bool := false
  m_vkHandle : Nat := VK_NULL_HANDLE
deriving DecidableEq, Repr

namespace VulkanFence

/-- `VulkanFence::reset`. -/
def reset (device : VulkanDevice) (f : VulkanFence) : Outcome VulkanFence Unit :=
  { self := { f with m_isSignaled := false }
    trace := [Call.vkResetFences device.m_vkHandle 1 f.m_vkHandle]
    result := .ok () }

/-- `VulkanFence::wait`. -/
def wait (device : VulkanDevice) (f : VulkanFence) : Outcome VulkanFence Unit :=
  { self := { f with m_isSignaled := true }
    trace := [Call.vkWaitForFences device.m_vkHandle 1 f.m_vkHandle VK_TRUE UINT64_MAX]
    result := .ok () }

/-- `VulkanFence::free`. -/
def free (device : VulkanDevice) (f : VulkanFence) : Outcome VulkanFence Unit :=
  { self := { f with m_vkHandle := VK_NULL_HANDLE }
    trace := [Call.vkDestroyFence device.m_vkHandle f.m_vkHandle]
    result := .ok () }

/-- `VulkanFence::getID`. -/
def getID (f : VulkanFence) : Nat :=
  f.m_id

/-- `VulkanFence::isSignaled`. -/
def isSignaled (f : VulkanFence) : Bool :=
  f.m_isSignaled

/-- `VulkanFence::VulkanFence(device, fence, isSignaled)`: takes the static `s_idCounter`,
returns the new object and the counter after `s_idCounter++` (a `uint32_t`). -/
def new (s_idCounter : Nat) (fence : Nat) (isSignaled : Bool) : VulkanFence × Nat :=
  ({ m_id := s_idCounter, m_isSignaled := isSignaled, m_vkHandle := fence },
    (s_idCounter + 1) % idModulus)

end VulkanFence

/-! ## VulkanCommandBuffer (vulkan_command_buffer.cpp) -/

/-- The member of `VulkanRenderPass` (vulkan_render_pass.hpp) read by the command buffer. -/
structure VulkanRenderPass where
  m_vkHandle : Nat := VK_NULL_HANDLE
  m_id : Nat := 0
deriving DecidableEq, Repr

/-- The member of `VulkanQueue` read by `submit`. -/
structure VulkanQueue where
  m_vkHandle : Nat := VK_NULL_HANDLE
deriving DecidableEq, Repr

/-- The data members of `VulkanCommandBuffer` (vulkan_command_buffer.hpp), with their default
member values. -/
structure VulkanCommandBuffer where
  m_vkHandle : Nat := VK_NULL_HANDLE
  m_id : Nat := 0
  m_isRecording : Bool := false
  m_isSecondary : Bool := false
  m_familyIndex : Nat := 0
  m_threadID : Nat := 0
deriving DecidableEq, Repr

/-- The message thrown by the recording guard. -/
def notRecordingMessage : String := "Command buffer is not recording"

/-- The message thrown by `beginRecording` on a recording buffer. -/
def alreadyRecordingMessage : String := "Command buffer is already recording"

/-- The message thrown by `submit` and `reset` on a recording buffer. -/
def stillRecordingMessage : String := "Command buffer is still recording"

namespace VulkanCommandBuffer

/-- The guard `if (!m_isRecording) throw ...; <one driver call>` shared by the guarded `cmd*`
methods. -/
def whenRecording (c : VulkanCommandBuffer) (call : Call) : Outcome VulkanCommandBuffer Unit :=
  if !c.m_isRecording then
    { self := c, trace := [], result := .error notRecordingMessage }
  else
    { self := c, trace := [call], result := .ok () }

/-- `VulkanCommandBuffer::beginRecording`. -/
def beginRecording (c : VulkanCommandBuffer) (flags : Nat) : Outcome VulkanCommandBuffer Unit :=
  if c.m_isRecording then
    { self := c, trace := [], result := .error alreadyRecordingMessage }
  else
    { self := { c with m_isRecording := true }
      trace := [Call.vkBeginCommandBuffer c.m_vkHandle { flags := flags }]
      result := .ok () }

/-- `VulkanCommandBuffer::endRecording`. -/
def endRecording (c : VulkanCommandBuffer) : Outcome VulkanCommandBuffer Unit :=
  if !c.m_isRecording then
    { self := c, trace := [], result := .error notRecordingMessage }
  else
    { self := { c with m_isRecording := false }
      trace := [Call.vkEndCommandBuffer c.m_vkHandle]
      result := .ok () }

/-- `VulkanCommandBuffer::cmdCopyBuffer`. -/
def cmdCopyBuffer (c : VulkanCommandBuffer) (source destination : VulkanBuffer)
    (copyRegions : List VkBufferCopy) : Outcome VulkanCommandBuffer Unit :=
  whenRecording c (Call.vkCmdCopyBuffer c.m_vkHandle source.m_vkHandle destination.m_vkHandle
    (castU32 copyRegions.length) copyRegions)

/-- `VulkanCommandBuffer::cmdPushConstant`. -/
def cmdPushConstant (c : VulkanCommandBuffer) (layout stageFlags offset size pValues : Nat) :
    Outcome VulkanCommandBuffer Unit :=
  whenRecording c (Call.vkCmdPushConstants c.m_vkHandle layout stageFlags offset size pValues)

/-- The loop of `submit` that splits `waitSemaphoreData` into two vectors of its size: entry
`i` of each is written from entry `i` of the pairs. -/
def splitWaitData (waitSemaphoreData : List (Nat × Nat)) : List Nat × List Nat :=
  ((List.range waitSemaphoreData.length).map (fun i => (waitSemaphoreData.getD i (0, 0)).1),
   (List.range waitSemaphoreData.length).map (fun i => (waitSemaphoreData.getD i (0, 0)).2))

/-- `VulkanCommandBuffer::submit`; `fence` is `none` for a null `VulkanFence*`. -/
def submit (c : VulkanCommandBuffer) (queue : VulkanQueue) (waitSemaphoreData : List (Nat × Nat))
    (signalSemaphores : List Nat) (fence : Option VulkanFence) :
    Outcome VulkanCommandBuffer Unit :=
  if c.m_isRecording then
    { self := c, trace := [], result := .error stillRecordingMessage }
  else
    let waitSemaphores := (splitWaitData waitSemaphoreData).1
    let waitStages := (splitWaitData waitSemaphoreData).2
    let submitInfo : VkSubmitInfo :=
      { commandBufferCount := 1
        pCommandBuffers := [c.m_vkHandle]
        waitSemaphoreCount := castU32 waitSemaphores.length
        pWaitSemaphores := waitSemaphores
        pWaitDstStageMask := waitStages
        signalSemaphoreCount := castU32 signalSemaphores.length
        pSignalSemaphores := signalSemaphores }
    { self := c
      trace := [Call.vkQueueSubmit queue.m_vkHandle 1 submitInfo
        (match fence with
         | some f => f.m_vkHandle
         | none => VK_NULL_HANDLE)]
      result := .ok () }

/-- `VulkanCommandBuffer::reset`. -/
def reset (c : VulkanCommandBuffer) : Outcome VulkanCommandBuffer Unit :=
  if c.m_isRecording then
    { self := c, trace := [], result := .error stillRecordingMessage }
  else
    { self := c, trace := [Call.vkResetCommandBuffer c.m_vkHandle 0], result := .ok () }

/-- `VulkanCommandBuffer::cmdBeginRenderPass`: the body has no recording guard. -/
def cmdBeginRenderPass (c : VulkanCommandBuffer) (renderPass : VulkanRenderPass)
    (frameBuffer : Nat) (extent : VkExtent2D) (clearValues : List Nat) :
    Outcome VulkanCommandBuffer Unit :=
  let beginInfo : VkRenderPassBeginInfo :=
    { renderPass := renderPass.m_vkHandle
      framebuffer := frameBuffer
      renderArea := { offset := { x := 0, y := 0 }, extent := extent }
      clearValueCount := castU32 clearValues.length
      pClearValues := clearValues }
  { self := c
    trace := [Call.vkCmdBeginRenderPass c.m_vkHandle beginInfo VK_SUBPASS_CONTENTS_INLINE]
    result := .ok () }

/-- `VulkanCommandBuffer::cmdEndRenderPass`: the body has no recording guard. -/
def cmdEndRenderPass (c : VulkanCommandBuffer) : Outcome VulkanCommandBuffer Unit :=
  { self := c, trace := [Call.vkCmdEndRenderPass c.m_vkHandle], result := .ok () }

/-- `VulkanCommandBuffer::cmdBindPipeline`. -/
def cmdBindPipeline (c : VulkanCommandBuffer) (bindPoint pipeline : Nat) :
    Outcome VulkanCommandBuffer Unit :=
  whenRecording c (Call.vkCmdBindPipeline c.m_vkHandle bindPoint pipeline)

/-- `VulkanCommandBuffer::cmdNextSubpass`. -/
def cmdNextSubpass (c : VulkanCommandBuffer) : Outcome VulkanCommandBuffer Unit :=
  whenRecording c (Call.vkCmdNextSubpass c.m_vkHandle VK_SUBPASS_CONTENTS_INLINE)

/-- `VulkanCommandBuffer::cmdPipelineBarrier`; barriers are passed through untouched and stand
as opaque numbers. -/
def cmdPipelineBarrier (c : VulkanCommandBuffer) (srcStageMask dstStageMask dependencyFlags : Nat)
    (memoryBarriers bufferMemoryBarriers imageMemoryBarriers : List Nat) :
    Outcome VulkanCommandBuffer Unit :=
  whenRecording c (Call.vkCmdPipelineBarrier c.m_vkHandle srcStageMask dstStageMask
    dependencyFlags (castU32 memoryBarriers.length) memoryBarriers
    (castU32 bufferMemoryBarriers.length) bufferMemoryBarriers
    (castU32 imageMemoryBarriers.length) imageMemoryBarriers)

/-- `VulkanCommandBuffer::cmdBindVertexBuffer`. -/
def cmdBindVertexBuffer (c : VulkanCommandBuffer) (buffer : VulkanBuffer) (offset : Nat) :
    Outcome VulkanCommandBuffer Unit :=
  whenRecording c (Call.vkCmdBindVertexBuffers c.m_vkHandle 0 1 [buffer.m_vkHandle] [offset])

/-- `VulkanCommandBuffer::cmdBindVertexBuffers`. -/
def cmdBindVertexBuffers (c : VulkanCommandBuffer) (buffers : List VulkanBuffer)
    (offsets : List Nat) : Outcome VulkanCommandBuffer Unit :=
  let vkBuffers := buffers.map (fun buffer => buffer.m_vkHandle)
  whenRecording c
    (Call.vkCmdBindVertexBuffers c.m_vkHandle 0 (castU32 vkBuffers.length) vkBuffers offsets)

/-- `VulkanCommandBuffer::cmdBindIndexBuffer`. -/
def cmdBindIndexBuffer (c : VulkanCommandBuffer) (buffer : VulkanBuffer) (offset indexType : Nat) :
    Outcome VulkanCommandBuffer Unit :=
  whenRecording c (Call.vkCmdBindIndexBuffer c.m_vkHandle buffer.m_vkHandle offset indexType)

/-- `VulkanCommandBuffer::cmdSetViewport`; the viewport is passed through untouched and stands
as an opaque number. -/
def cmdSetViewport (c : VulkanCommandBuffer) (viewport : Nat) : Outcome VulkanCommandBuffer Unit :=
  whenRecording c (Call.vkCmdSetViewport c.m_vkHandle 0 1 viewport)

/-- `VulkanCommandBuffer::cmdSetScissor`. -/
def cmdSetScissor (c : VulkanCommandBuffer) (scissor : VkRect2D) :
    Outcome VulkanCommandBuffer Unit :=
  whenRecording c (Call.vkCmdSetScissor c.m_vkHandle 0 1 scissor)

/-- `VulkanCommandBuffer::cmdDraw`. -/
def cmdDraw (c : VulkanCommandBuffer) (vertexCount firstVertex : Nat) :
    Outcome VulkanCommandBuffer Unit :=
  whenRecording c (Call.vkCmdDraw c.m_vkHandle vertexCount 1 firstVertex 0)

/-- `VulkanCommandBuffer::cmdDrawIndexed`. -/
def cmdDrawIndexed (c : VulkanCommandBuffer) (indexCount firstIndex : Nat) (vertexOffset : Int) :
    Outcome VulkanCommandBuffer Unit :=
  whenRecording c (Call.vkCmdDrawIndexed c.m_vkHandle indexCount 1 firstIndex vertexOffset 0)

/-- `VulkanCommandBuffer::getID`. -/
def getID (c : VulkanCommandBuffer) : Nat :=
  c.m_id

/-- `VulkanCommandBuffer::VulkanCommandBuffer(device, commandBuffer, isSecondary, familyIndex,
threadID)`: takes the static `s_idCounter`, returns the new object and the counter after
`s_idCounter++` (a `uint32_t`). -/
def new (s_idCounter : Nat) (commandBuffer : Nat) (isSecondary : Bool)
    (familyIndex threadID : Nat) : VulkanCommandBuffer × Nat :=
  ({ m_vkHandle := commandBuffer, m_id := s_idCounter, m_isSecondary := isSecondary,
     m_familyIndex := familyIndex, m_threadID := threadID }, (s_idCounter + 1) % idModulus)

end VulkanCommandBuffer

/-- A call to one of the fourteen command-recording methods, with its arguments. -/
inductive CmdMethod where
  | cmdBeginRenderPass (renderPass : VulkanRenderPass) (frameBuffer : Nat) (extent : VkExtent2D)
      (clearValues : List Nat)
  | cmdEndRenderPass
  | cmdBindPipeline (bindPoint pipeline : Nat)
  | cmdNextSubpass
  | cmdPipelineBarrier (srcStageMask dstStageMask dependencyFlags : Nat)
      (memoryBarriers bufferMemoryBarriers imageMemoryBarriers : List Nat)
  | cmdBindVertexBuffer (buffer : VulkanBuffer) (offset : Nat)
  | cmdBindVertexBuffers (buffers : List VulkanBuffer) (offsets : List Nat)
  | cmdBindIndexBuffer (buffer : VulkanBuffer) (offset indexType : Nat)
  | cmdCopyBuffer (source destination : VulkanBuffer) (copyRegions : List VkBufferCopy)
  | cmdPushConstant (layout stageFlags offset size pValues : Nat)
  | cmdSetViewport (viewport : Nat)
  | cmdSetScissor (scissor : VkRect2D)
  | cmdDraw (vertexCount firstVertex : Nat)
  | cmdDrawIndexed (indexCount firstIndex : Nat) (vertexOffset : Int)
deriving DecidableEq, Repr

/-- Dispatch of a `CmdMethod` to the method it names. -/
def VulkanCommandBuffer.record (c : VulkanCommandBuffer) :
    CmdMethod → Outcome VulkanCommandBuffer Unit
  | .cmdBeginRenderPass renderPass frameBuffer extent clearValues =>
    c.cmdBeginRenderPass renderPass frameBuffer extent clearValues
  | .cmdEndRenderPass => c.cmdEndRenderPass
  | .cmdBindPipeline bindPoint pipeline => c.cmdBindPipeline bindPoint pipeline
  | .cmdNextSubpass => c.cmdNextSubpass
  | .cmdPipelineBarrier src dst dep memoryBarriers bufferMemoryBarriers imageMemoryBarriers =>
    c.cmdPipelineBarrier src dst dep memoryBarriers bufferMemoryBarriers imageMemoryBarriers
  | .cmdBindVertexBuffer buffer offset => c.cmdBindVertexBuffer buffer offset
  | .cmdBindVertexBuffers buffers offsets => c.cmdBindVertexBuffers buffers offsets
  | .cmdBindIndexBuffer buffer offset indexType => c.cmdBindIndexBuffer buffer offset indexType
  | .cmdCopyBuffer source destination copyRegions =>
    c.cmdCopyBuffer source destination copyRegions
  | .cmdPushConstant layout stageFlags offset size pValues =>
    c.cmdPushConstant layout stageFlags offset size pValues
  | .cmdSetViewport viewport => c.cmdSetViewport viewport
  | .cmdSetScissor scissor => c.cmdSetScissor scissor
  | .cmdDraw vertexCount firstVertex => c.cmdDraw vertexCount firstVertex
  | .cmdDrawIndexed indexCount firstIndex vertexOffset =>
    c.cmdDrawIndexed indexCount firstIndex vertexOffset

/-- The two render-pass methods, whose bodies carry no recording guard. -/
def CmdMethod.isRenderPassBracket : CmdMethod → Bool
  | .cmdBeginRenderPass _ _ _ _ => true
  | .cmdEndRenderPass => true
  | _ => false

/-! ## VulkanContext (vulkan_context.cpp) -/

/-- The global `validationLayers` of vulkan_context.cpp. -/
def validationLayers : List String := ["VK_LAYER_KHRONOS_validation"]

/-- The message thrown by the `VulkanContext` constructor. -/
def instanceFailedMessage : String := "Failed to create Vulkan instance"

/-- The message thrown by `VulkanContext::createDevice`. -/
def deviceFailedMessage : String := "Failed to create logical device"

/-- The member of `VulkanGPU` read by `createDevice`. -/
structure VulkanGPU where
  m_vkHandle : Nat := VK_NULL_HANDLE
deriving DecidableEq, Repr

/-- One entry of `QueueFamilySelector::m_selections` as read by `createDevice`. -/
structure QueueSelections where
  familyFlags : Nat := 0
  priorities : List Nat := []
deriving DecidableEq, Repr

/-- What `createDevice` reads of a `QueueFamilySelector` (vulkan_queues.hpp is not part of the
sources at hand): the result of `getUniqueIndices()`, the vector `m_selections`, and the value
of the flag `QueueFamilyTypeBits::PROTECTED`. -/
structure QueueFamilySelector where
  getUniqueIndices : List Nat
  m_selections : Nat → QueueSelections
  PROTECTED : Nat

/-- The data members of `VulkanContext` (vulkan_context.hpp), with their default member values. -/
structure VulkanContext where
  m_vkHandle : Nat := VK_NULL_HANDLE
  m_validationLayersEnabled : Bool := false
  m_device : VulkanDevice := {}
deriving DecidableEq, Repr

namespace VulkanContext

/-- The `VkInstanceCreateInfo` built by the constructor. -/
def instanceCreateInfo (vulkanApiVersion : Nat) (enableValidationLayers : Bool)
    (extensions : List String) : VkInstanceCreateInfo :=
  let appInfo : VkApplicationInfo :=
    { pApplicationName := "Vulkan Application"
      applicationVersion := VK_MAKE_VERSION 1 0 0
      pEngineName := "No Engine"
      engineVersion := VK_MAKE_VERSION 1 0 0
      apiVersion := vulkanApiVersion }
  let withLayers : VkInstanceCreateInfo :=
    if enableValidationLayers then
      { pApplicationInfo := appInfo
        enabledLayerCount := castU32 validationLayers.length
        ppEnabledLayerNames := validationLayers }
    else
      { pApplicationInfo := appInfo, enabledLayerCount := 0 }
  { withLayers with
    enabledExtensionCount := castU32 extensions.length
    ppEnabledExtensionNames := extensions }

/-- `VulkanContext::VulkanContext(vulkanApiVersion, enableValidationLayers, extensions)`.
`created` is what `vkCreateInstance` answers: its `VkResult` and the handle it stores in
`m_vkHandle`.  The object exists only if the constructor returns. -/
def new (vulkanApiVersion : Nat) (enableValidationLayers : Bool) (extensions : List String)
    (created : Int × Nat) : Outcome Unit VulkanContext :=
  let call := Call.vkCreateInstance
    (instanceCreateInfo vulkanApiVersion enableValidationLayers extensions)
  if created.1 != VK_SUCCESS then
    { self := (), trace := [call], result := .error instanceFailedMessage }
  else
    { self := (), trace := [call]
      result := .ok { m_vkHandle := created.2
                      m_validationLayersEnabled := enableValidationLayers } }

/-- `VulkanContext::getDevice`. -/
def getDevice (ctx : VulkanContext) : VulkanDevice :=
  ctx.m_device

/-- The loop of `createDevice` over `queues.getUniqueIndices()`. -/
def queueCreateInfos (queues : QueueFamilySelector) : List VkDeviceQueueCreateInfo :=
  queues.getUniqueIndices.map (fun index =>
    let queueCreateInfo : VkDeviceQueueCreateInfo :=
      { queueFamilyIndex := index
        queueCount := castU32 (queues.m_selections index).priorities.length
        pQueuePriorities := (queues.m_selections index).priorities }
    if (queues.m_selections index).familyFlags &&& queues.PROTECTED != 0 then
      { queueCreateInfo with flags := VK_DEVICE_QUEUE_CREATE_PROTECTED_BIT }
    else queueCreateInfo)

/-- The `VkDeviceCreateInfo` built by `createDevice`. -/
def deviceCreateInfo (ctx : VulkanContext) (queues : QueueFamilySelector)
    (extensions : List String) (features : Nat) : VkDeviceCreateInfo :=
  let withLayers : VkDeviceCreateInfo :=
    if ctx.m_validationLayersEnabled then
      { enabledLayerCount := castU32 validationLayers.length
        ppEnabledLayerNames := validationLayers }
    else
      { enabledLayerCount := 0 }
  let withExtensions : VkDeviceCreateInfo :=
    if !extensions.isEmpty then
      { withLayers with
        enabledExtensionCount := castU32 extensions.length
        ppEnabledExtensionNames := extensions }
    else
      { withLayers with enabledExtensionCount := 0 }
  { withExtensions with
    queueCreateInfoCount := castU32 (queueCreateInfos queues).length
    pQueueCreateInfos := queueCreateInfos queues
    pEnabledFeatures := features }

/-- `VulkanContext::createDevice`.  `created` is what `vkCreateDevice` answers: its `VkResult`
and the handle it stores in the local `device`.  `makeDevice` is the constructor
`VulkanDevice(gpu, device)` of vulkan_device.cpp, which is not part of the sources at hand.
Returns the device the returned reference designates. -/
def createDevice (makeDevice : VulkanGPU → Nat → VulkanDevice) (ctx : VulkanContext)
    (gpu : VulkanGPU) (queues : QueueFamilySelector) (extensions : List String) (features : Nat)
    (created : Int × Nat) : Outcome VulkanContext VulkanDevice :=
  let call := Call.vkCreateDevice gpu.m_vkHandle (deviceCreateInfo ctx queues extensions features)
  if created.1 != VK_SUCCESS then
    { self := ctx, trace := [call], result := .error deviceFailedMessage }
  else
    let ctx1 : VulkanContext := { ctx with m_device := makeDevice gpu created.2 }
    { self := ctx1, trace := [call], result := .ok ctx1.m_device }

end VulkanContext

/-! ## Several buffers sharing one allocator -/

/-- The buffers of a device and the calls issued so far, in program order. -/
structure World where
  buffers : List VulkanBuffer
  trace : List Call

/-- One public operation on the buffer at position `buffer`, with what the allocator does when
the operation reaches it. -/
inductive BufferOp where
  | allocateFromIndex (buffer memoryIndex : Nat) (allocated : Except String MemoryBlock)
  | allocateFromFlags (buffer : Nat) (memoryProperties : MemoryPropertyPreferences)
      (allocated : Except String MemoryBlock)
  | free (buffer : Nat) (deallocated : Except String Unit)

/-- Store the outcome of a method call on the buffer at position `index`. -/
def World.record (w : World) (index : Nat) (o : Outcome VulkanBuffer Unit) : World :=
  { buffers := w.buffers.set index o.self, trace := w.trace ++ o.trace }

/-- Run one operation; an operation naming a position that holds no buffer does nothing. -/
def World.step (env : Env) (w : World) : BufferOp → World
  | .allocateFromIndex i memoryIndex allocated =>
    match w.buffers[i]? with
    | some b => w.record i (VulkanBuffer.allocateFromIndex env b memoryIndex allocated)
    | none => w
  | .allocateFromFlags i memoryProperties allocated =>
    match w.buffers[i]? with
    | some b => w.record i (VulkanBuffer.allocateFromFlags env b memoryProperties allocated)
    | none => w
  | .free i deallocated =>
    match w.buffers[i]? with
    | some b => w.record i (VulkanBuffer.free env b deallocated)
    | none => w

/-- Run a sequence of operations; a failing operation does not stop the sequence. -/
def World.run (env : Env) (w : World) (ops : List BufferOp) : World :=
  ops.foldl (World.step env) w

/-- The effect of one call on the blocks that are handed out: a block returned by `allocate`
or `searchAndAllocate` becomes live, a block whose `deallocate` returned stops being live. -/
def liveAfter (live : List MemoryBlock) : Call → List MemoryBlock
  | .allocate _ _ _ (some block) => live ++ [block]
  | .searchAndAllocate _ _ _ _ _ (some block) => live ++ [block]
  | .deallocate block true => live.erase block
  | _ => live

/-- The blocks the allocator has handed out and not yet had deallocated, read off the trace. -/
def liveBlocks (trace : List Call) : List MemoryBlock :=
  trace.foldl liveAfter []

/-- The number of buffers whose memory region is `block`. -/
def World.owners (w : World) (block : MemoryBlock) : Nat :=
  w.buffers.countP (fun b => b.m_memoryRegion = block)

/-! ## ID counters -/

/-- The process state of one resource kind: the static `s_idCounter` and every object built by
the device-taking constructor so far, in construction order. -/
structure Registry (α : Type) where
  s_idCounter : Nat := 0
  constructed : List α := []

/-- A construction with the constructor arguments, or a free of the object constructed at
position `index` with what the free needs. -/
inductive RegistryOp (κ φ : Type) where
  | construct (args : κ)
  | free (index : Nat) (how : φ)

/-- Run one operation of a kind whose constructor is `new` and whose free is `free`. -/
def Registry.step {α κ φ : Type} (new : Nat → κ → α × Nat) (free : φ → α → α)
    (r : Registry α) : RegistryOp κ φ → Registry α
  | .construct args =>
    { s_idCounter := (new r.s_idCounter args).2
      constructed := r.constructed ++ [(new r.s_idCounter args).1] }
  | .free index how =>
    match r.constructed[index]? with
    | some a => { r with constructed := r.constructed.set index (free how a) }
    | none => r

/-- Run a sequence of operations from process start (counter `0`, nothing constructed). -/
def Registry.run {α κ φ : Type} (new : Nat → κ → α × Nat) (free : φ → α → α)
    (ops : List (RegistryOp κ φ)) : Registry α :=
  ops.foldl (Registry.step new free) {}

/-- Constructions (handle, size) and frees of buffers. -/
abbrev BufferRegistryOp := RegistryOp (Nat × Nat) (Env × Except String Unit)

/-- The constructor `VulkanBuffer::VulkanBuffer` on a pair of arguments. -/
def VulkanBuffer.construct (counter : Nat) (args : Nat × Nat) : VulkanBuffer × Nat :=
  VulkanBuffer.new counter args.1 args.2

/-- The object `VulkanBuffer::free` leaves. -/
def VulkanBuffer.release (how : Env × Except String Unit) (b : VulkanBuffer) : VulkanBuffer :=
  (VulkanBuffer.free how.1 b how.2).self

/-- Buffers: `VulkanBuffer::VulkanBuffer` and `VulkanBuffer::free`. -/
def runBuffers (ops : List BufferRegistryOp) : Registry VulkanBuffer :=
  Registry.run VulkanBuffer.construct VulkanBuffer.release ops

/-- Constructions (handle, signaled) and frees of fences. -/
abbrev FenceRegistryOp := RegistryOp (Nat × Bool) VulkanDevice

/-- The constructor `VulkanFence::VulkanFence` on a pair of arguments. -/
def VulkanFence.construct (counter : Nat) (args : Nat × Bool) : VulkanFence × Nat :=
  VulkanFence.new counter args.1 args.2

/-- The object `VulkanFence::free` leaves. -/
def VulkanFence.release (device : VulkanDevice) (f : VulkanFence) : VulkanFence :=
  (VulkanFence.free device f).self

/-- Fences: `VulkanFence::VulkanFence` and `VulkanFence::free`. -/
def runFences (ops : List FenceRegistryOp) : Registry VulkanFence :=
  Registry.run VulkanFence.construct VulkanFence.release ops

/-- Constructions (handle, secondary, family index, thread ID) and frees of command buffers. -/
abbrev CommandBufferRegistryOp := RegistryOp (Nat × Bool × Nat × Nat) Unit

/-- The constructor `VulkanCommandBuffer::VulkanCommandBuffer` on a tuple of arguments. -/
def VulkanCommandBuffer.construct (counter : Nat) (args : Nat × Bool × Nat × Nat) :
    VulkanCommandBuffer × Nat :=
  VulkanCommandBuffer.new counter args.1 args.2.1 args.2.2.1 args.2.2.2

/-- Modelled from the spec: `VulkanDevice::freeCommandBuffer` lives in vulkan_device.cpp, which
is not part of the sources at hand, and `VulkanCommandBuffer` has no `free` of its own.  By
section 3 a resource is destroyed by an explicit free that releases the driver handle. -/
def VulkanCommandBuffer.release (_how : Unit) (c : VulkanCommandBuffer) : VulkanCommandBuffer :=
  { c with m_vkHandle := VK_NULL_HANDLE }

/-- Command buffers: `VulkanCommandBuffer::VulkanCommandBuffer` and the release above. -/
def runCommandBuffers (ops : List CommandBufferRegistryOp) : Registry VulkanCommandBuffer :=
  Registry.run VulkanCommandBuffer.construct VulkanCommandBuffer.release ops

/-- The counter equals the number of constructions modulo `2^32`, and the object constructed at
position `k` (counted from 0) carries the ID `k mod 2^32`. -/
def Registry.InOrder {α : Type} (getID : α → Nat) (r : Registry α) : Prop :=
  r.s_idCounter = r.constructed.length % idModulus ∧
  ∀ k obj, r.constructed[k]? = some obj → getID obj = k % idModulus

/-- The ID discipline of one resource kind with constructor `new`, free `free` and ID getter
`getID`, over every sequence of constructions and frees from process start: the object
constructed at position `k` (counted from 0) has ID `k mod 2^32`, hence ID `k` while
`k < 2^32`; a free leaves the counter unchanged; and as long as at most `2^32` objects have been
constructed, no two of them, freed or not, have the same ID. -/
def Registry.IssuesIdsInOrder {α κ φ : Type} (new : Nat → κ → α × Nat) (free : φ → α → α)
    (getID : α → Nat) : Prop :=
  (∀ (ops : List (RegistryOp κ φ)) k obj,
    (Registry.run new free ops).constructed[k]? = some obj → getID obj = k % 2 ^ 32) ∧
  (∀ (ops : List (RegistryOp κ φ)) k obj, k < 2 ^ 32 →
    (Registry.run new free ops).constructed[k]? = some obj → getID obj = k) ∧
  (∀ (r : Registry α) index how,
    (Registry.step new free r (.free index how)).s_idCounter = r.s_idCounter) ∧
  (∀ (ops : List (RegistryOp κ φ)), (Registry.run new free ops).constructed.length ≤ 2 ^ 32 →
    ((Registry.run new free ops).constructed.map getID).Nodup)

/-- Two successive binding calls on one buffer: the outcome of the first and the outcome of the
second, which starts from the object the first one left. -/
def VulkanBuffer.allocateTwice (env : Env) (b : VulkanBuffer) (c1 : AllocCall)
    (allocated1 : Except String MemoryBlock) (c2 : AllocCall)
    (allocated2 : Except String MemoryBlock) :
    Outcome VulkanBuffer Unit × Outcome VulkanBuffer Unit :=
  (VulkanBuffer.allocateWith env b c1 allocated1,
   VulkanBuffer.allocateWith env (VulkanBuffer.allocateWith env b c1 allocated1).self c2 allocated2)

/-- Two successive calls of `free` on one buffer: the outcome of each. -/
def VulkanBuffer.freeTwice (env : Env) (b : VulkanBuffer) (deallocated1 deallocated2 : Except String Unit) :
    Outcome VulkanBuffer Unit × Outcome VulkanBuffer Unit :=
  (VulkanBuffer.free env b deallocated1,
   VulkanBuffer.free env (VulkanBuffer.free env b deallocated1).self deallocated2)

/-- `map` followed by `unmap` on one buffer: the outcome of each. -/
def VulkanBuffer.mapThenUnmap (env : Env) (b : VulkanBuffer) (size offset data : Nat) :
    Outcome VulkanBuffer Nat × Outcome VulkanBuffer Unit :=
  (VulkanBuffer.map env b size offset data,
   VulkanBuffer.unmap env (VulkanBuffer.map env b size offset data).self)

/-- A buffer as `createBuffer` leaves it: handle 7, 64 bytes, nothing bound. -/
def freshBuffer : VulkanBuffer :=
  { m_id := 0, m_size := 64, m_vkHandle := 7 }

/-- The buffer `freshBuffer` with 64 bytes of chunk 2 bound at offset 128. -/
def boundBuffer : VulkanBuffer :=
  { freshBuffer with m_memoryRegion := { size := 64, offset := 128, chunk := 2 } }

/-- The ownership invariant of C3 together with what carries it through an operation: the
blocks handed out and not deallocated are pairwise distinct, each has non-zero size and is the
memory region of exactly one buffer, and every bound region is one of them. -/
def World.Owned (w : World) : Prop :=
  (liveBlocks w.trace).Nodup ∧
  (∀ block ∈ liveBlocks w.trace, 0 < block.size ∧ w.owners block = 1) ∧
  (∀ b ∈ w.buffers, 0 < b.m_memoryRegion.size → b.m_memoryRegion ∈ liveBlocks w.trace)

/-- A binding call on position `i` that is not a double bind: the buffer there is unbound, and
a block the allocator returns has non-zero size and is not one it has already handed out. -/
def World.AcceptsBinding (w : World) (i : Nat) (allocated : Except String MemoryBlock) : Prop :=
  (∀ b, w.buffers[i]? = some b → b.m_memoryRegion.size = 0) ∧
  (∀ block, allocated = .ok block → 0 < block.size ∧ block ∉ liveBlocks w.trace)

/-- An operation that attempts no double bind and whose `deallocate`, if reached, returns. -/
def BufferOp.Regular (w : World) : BufferOp → Prop
  | .allocateFromIndex i _ allocated => w.AcceptsBinding i allocated
  | .allocateFromFlags i _ allocated => w.AcceptsBinding i allocated
  | .free _ deallocated => deallocated = .ok ()

/-- Every operation of the sequence is regular in the world it runs in. -/
def World.RegularRun (env : Env) : World → List BufferOp → Prop
  | _, [] => True
  | w, op :: ops => op.Regular w ∧ World.RegularRun env (w.step env op) ops

/-! ## MemoryChunk (vulkan_memory.hpp; method bodies modelled from the specification) -/

/-- The data members of `MemoryChunk` (vulkan_memory.hpp).  The `std::map` `m_unallocatedData`
from offset to run length is the list of its entries in key order. -/
structure MemoryChunk where
  m_chunkID : Nat
  m_size : Nat
  m_memoryType : Nat
  m_memory : Nat
  m_unallocatedData : List (Nat × Nat)
  m_unallocatedSize : Nat
  m_biggestChunk : Nat := 0
deriving DecidableEq, Repr

/-- The message of the failure of `MemoryChunk::allocate`. -/
def outOfChunkSpaceMessage : String := "OutOfChunkSpace"

/-- Modelled from the spec: the offset computed by `MemoryChunk::allocate` (vulkan_memory.cpp is
not part of the sources at hand).  By section 4.2 it is the first offset at or after the start of
the run that is a multiple of the alignment. -/
def alignUp (start alignment : Nat) : Nat :=
  start + (alignment - start % alignment) % alignment

/-- Modelled from the spec: what `MemoryChunk::allocate` leaves of a usable run (vulkan_memory.cpp
is not part of the sources at hand).  By section 4.2 the consumed sub-range is removed, leaving
the alignment padding before it and the trailing space after it, each only if not empty. -/
def residualRuns (start length offset requestedSize : Nat) : List (Nat × Nat) :=
  (if start < offset then [(start, offset - start)] else []) ++
  (if offset + requestedSize < start + length then
    [(offset + requestedSize, start + length - (offset + requestedSize))] else [])

/-- Modelled from the spec: the scan of `MemoryChunk::allocate` over the free list
(vulkan_memory.cpp is not part of the sources at hand).  By section 4.2 the runs are visited in
offset order; a run is usable if the aligned offset plus the requested size does not pass its
end; the first usable run is split.  Returns the offset and the new free list. -/
def carve (requestedSize alignment : Nat) : List (Nat × Nat) → Option (Nat × List (Nat × Nat))
  | [] => none
  | (start, length) :: rest =>
    if alignUp start alignment + requestedSize ≤ start + length then
      some (alignUp start alignment,
        residualRuns start length (alignUp start alignment) requestedSize ++ rest)
    else
      match carve requestedSize alignment rest with
      | some (offset, runs) => some (offset, (start, length) :: runs)
      | none => none

/-- The sum of the run lengths of a free list. -/
def totalLength (runs : List (Nat × Nat)) : Nat :=
  (runs.map (fun run => run.2)).sum

/-- The largest run length of a free list, `0` for an empty list. -/
def largestLength (runs : List (Nat × Nat)) : Nat :=
  runs.foldl (fun best run => max best run.2) 0

namespace MemoryChunk

/-- Modelled from the spec: the constructor `MemoryChunk::MemoryChunk(size, memoryType, vkHandle)`
(vulkan_memory.cpp is not part of the sources at hand).  By section 4.2 a chunk starts with a
single free run covering the whole chunk.  `chunkID` is the value the chunk takes from the static
`m_chunkCount`. -/
def new (chunkID size memoryType vkHandle : Nat) : MemoryChunk :=
  { m_chunkID := chunkID, m_size := size, m_memoryType := memoryType, m_memory := vkHandle
    m_unallocatedData := [(0, size)], m_unallocatedSize := size, m_biggestChunk := size }

/-- Modelled from the spec: `MemoryChunk::getSize`. -/
def getSize (c : MemoryChunk) : Nat := c.m_size

/-- Modelled from the spec: `MemoryChunk::getMemoryType`. -/
def getMemoryType (c : MemoryChunk) : Nat := c.m_memoryType

/-- Modelled from the spec: `MemoryChunk::getRemainingSize`, the total free length. -/
def getRemainingSize (c : MemoryChunk) : Nat := c.m_unallocatedSize

/-- Modelled from the spec: `MemoryChunk::getBiggestChunkSize`, the largest free run. -/
def getBiggestChunkSize (c : MemoryChunk) : Nat := c.m_biggestChunk

/-- Modelled from the spec: `MemoryChunk::isEmpty`, by section 4.2 `totalFree == size`. -/
def isEmpty (c : MemoryChunk) : Bool := c.m_unallocatedSize == c.m_size

/-- Modelled from the spec: `MemoryChunk::allocate` (vulkan_memory.cpp is not part of the sources
at hand).  By section 4.2: first fit over ascending offsets, split of the usable run, the total
updated and the largest run recomputed; no usable run fails with `OutOfChunkSpace` and leaves the
chunk as it was. -/
def allocate (c : MemoryChunk) (newSize alignment : Nat) : Except String MemoryBlock × MemoryChunk :=
  match carve newSize alignment c.m_unallocatedData with
  | some (offset, runs) =>
    (.ok { size := newSize, offset := offset, chunk := c.m_chunkID },
     { c with m_unallocatedData := runs
              m_unallocatedSize := c.m_unallocatedSize - newSize
              m_biggestChunk := largestLength runs })
  | none => (.error outOfChunkSpaceMessage, c)

end MemoryChunk

/-- Modelled from the spec: the insertion of `MemoryChunk::deallocate` into the free list
(vulkan_memory.cpp is not part of the sources at hand).  By section 4.2 the run
`(offset, size)` is put at its place in offset order and merged with the immediately preceding
run if that one ends at `offset`, and with the immediately following run if that one starts at
`offset + size`. -/
def releaseRun (offset size : Nat) : List (Nat × Nat) → List (Nat × Nat)
  | [] => [(offset, size)]
  | (start, length) :: rest =>
    if offset < start then
      if offset + size = start then (offset, size + length) :: rest
      else (offset, size) :: (start, length) :: rest
    else if start + length = offset then
      match rest with
      | (next, nextLength) :: more =>
        if offset + size = next then (start, length + size + nextLength) :: more
        else (start, length + size) :: (next, nextLength) :: more
      | [] => [(start, length + size)]
    else (start, length) :: releaseRun offset size rest

/-- Modelled from the spec: the effect of `MemoryChunk::deallocate` on the chunk
(vulkan_memory.cpp is not part of the sources at hand): the block's range goes back into the free
list with coalescing, the total is updated and the largest run recomputed. -/
def MemoryChunk.deallocate (c : MemoryChunk) (block : MemoryBlock) : MemoryChunk :=
  { c with m_unallocatedData := releaseRun block.offset block.size c.m_unallocatedData
           m_unallocatedSize := c.m_unallocatedSize + block.size
           m_biggestChunk := largestLength (releaseRun block.offset block.size c.m_unallocatedData) }

/-- Modelled from the spec: `MemoryChunk::defragment`, by section 4.2 a pass that re-derives the
total and the largest run from the free list. -/
def MemoryChunk.defragment (c : MemoryChunk) : MemoryChunk :=
  { c with m_unallocatedSize := totalLength c.m_unallocatedData
           m_biggestChunk := largestLength c.m_unallocatedData }

/-- A chunk together with the blocks it has leased: those returned by `allocate` and not yet
deallocated.  The ledger is what section 4.2 refers to when it makes the deallocation of a block
"not previously returned by allocate on this chunk", or of one already deallocated, a fatal
error. -/
structure LeasedChunk where
  chunk : MemoryChunk
  live : List MemoryBlock
deriving DecidableEq, Repr

/-- The message of the fatal failure of `MemoryChunk::deallocate`. -/
def notLeasedMessage : String := "Block is not allocated in this chunk"

/-- One operation on a chunk. -/
inductive ChunkOp where
  | allocate (newSize alignment : Nat)
  | deallocate (block : MemoryBlock)
deriving DecidableEq, Repr

/-- A fresh chunk with nothing leased. -/
def LeasedChunk.fresh (chunkID size memoryType vkHandle : Nat) : LeasedChunk :=
  { chunk := MemoryChunk.new chunkID size memoryType vkHandle, live := [] }

/-- Run one operation.  `allocate` leases the returned block; `deallocate` of a leased block
returns it to the free list, and of any other block fails fatally and changes nothing. -/
def LeasedChunk.step (s : LeasedChunk) : ChunkOp → Except String (Option MemoryBlock) × LeasedChunk
  | .allocate newSize alignment =>
    match s.chunk.allocate newSize alignment with
    | (.ok block, c) => (.ok (some block), { chunk := c, live := s.live ++ [block] })
    | (.error e, c) => (.error e, { s with chunk := c })
  | .deallocate block =>
    if block ∈ s.live then
      (.ok none, { chunk := s.chunk.deallocate block, live := s.live.erase block })
    else (.error notLeasedMessage, s)

/-- Run a sequence of operations; a failing operation does not stop the sequence. -/
def LeasedChunk.run (s : LeasedChunk) (ops : List ChunkOp) : LeasedChunk :=
  ops.foldl (fun st op => (st.step op).2) s

/-- The sum of the sizes of the leased blocks. -/
def leasedSize (live : List MemoryBlock) : Nat :=
  (live.map (fun block => block.size)).sum

/-- The order of a free list: run `a` ends strictly before run `b` begins. -/
def RunBefore (a b : Nat × Nat) : Prop := a.1 + a.2 < b.1

/-- Two ranges `(offset, length)` share no byte. -/
def Apart (a b : Nat × Nat) : Prop := a.1 + a.2 ≤ b.1 ∨ b.1 + b.2 ≤ a.1

/-- The range of a block. -/
def MemoryBlock.range (block : MemoryBlock) : Nat × Nat := (block.offset, block.size)

/-- The layout invariant that carries C12 through the operations: the free list is in offset
order with a gap between consecutive runs, every run and every leased block lies in the chunk,
leased blocks have non-zero size and share no byte with a free run or with each other, free and
leased bytes add up to the chunk size, and the two metadata members agree with the free list. -/
def LeasedChunk.Tiled (s : LeasedChunk) : Prop :=
  s.chunk.m_unallocatedData.Pairwise RunBefore ∧
  (∀ r ∈ s.chunk.m_unallocatedData, r.1 + r.2 ≤ s.chunk.m_size) ∧
  (∀ b ∈ s.live, 0 < b.size ∧ b.offset + b.size ≤ s.chunk.m_size ∧
    ∀ r ∈ s.chunk.m_unallocatedData, Apart r b.range) ∧
  s.live.Pairwise (fun a b => Apart a.range b.range) ∧
  totalLength s.chunk.m_unallocatedData + leasedSize s.live = s.chunk.m_size ∧
  s.chunk.m_unallocatedSize = totalLength s.chunk.m_unallocatedData ∧
  s.chunk.m_biggestChunk = largestLength s.chunk.m_unallocatedData

/-- The invariant of C12: free and leased bytes add up to the chunk size, no two free runs
overlap, and no free run ends exactly where another begins. -/
def LeasedChunk.FreeListSound (s : LeasedChunk) : Prop :=
  totalLength s.chunk.m_unallocatedData + leasedSize s.live = s.chunk.m_size ∧
  s.chunk.m_unallocatedData.Pairwise Apart ∧
  s.chunk.m_unallocatedData.Pairwise (fun a b => a.1 + a.2 ≠ b.1 ∧ b.1 + b.2 ≠ a.1)

/-- Whether an operation asks for bytes: an `allocate` of size 0 does not. -/
def ChunkOp.requestsBytes : ChunkOp → Bool
  | .allocate newSize _ => decide (0 < newSize)
  | .deallocate _ => true

/-! ## VulkanMemoryAllocator (vulkan_memory.hpp; method bodies modelled from the specification) -/

/-- One entry of `VkPhysicalDeviceMemoryProperties::memoryTypes`. -/
structure VkMemoryType where
  propertyFlags : Nat := 0
  heapIndex : Nat := 0
deriving DecidableEq, Repr

/-- The data member of `MemoryStructure` (vulkan_memory.hpp): the memory types of
`m_memoryProperties`, by index, and the sizes of its heaps. -/
structure MemoryStructure where
  memoryTypes : List VkMemoryType := []
  memoryHeaps : List Nat := []
deriving DecidableEq, Repr

/-- Modelled from the spec: `MemoryStructure::doesMemoryContainProperties` (vulkan_memory.cpp is
not part of the sources at hand): whether the flags of the type intersect `property`. -/
def MemoryStructure.doesMemoryContainProperties (m : MemoryStructure) (type property : Nat) :
    Bool :=
  (m.memoryTypes.getD type {}).propertyFlags &&& property != 0

/-- Modelled from the spec: `MemoryStructure::getMemoryTypes` (vulkan_memory.cpp is not part of
the sources at hand).  By section 4.1 it returns every memory type whose index bit is set in the
filter mask and whose flags are a superset of the required flags, in ascending index order. -/
def MemoryStructure.getMemoryTypes (m : MemoryStructure) (properties typeFilter : Nat) :
    List Nat :=
  (List.range m.memoryTypes.length).filter (fun i =>
    typeFilter.testBit i &&
      ((m.memoryTypes.getD i {}).propertyFlags &&& properties == properties))

/-- The data members of `VulkanMemoryAllocator` (vulkan_memory.hpp).  The set `m_hiddenTypes` is
the list of its elements.  `m_chunkCount` is the static `MemoryChunk::m_chunkCount`, kept here
because the allocator is what constructs chunks. -/
structure VulkanMemoryAllocator where
  m_memoryStructure : MemoryStructure := {}
  m_chunkSize : Nat := 0
  m_memoryChunks : List MemoryChunk := []
  m_hiddenTypes : List Nat := []
  m_device : Nat := 0
  m_chunkCount : Nat := 0
deriving DecidableEq, Repr

/-- The message of a failed chunk creation. -/
def allocationFailedMessage : String := "AllocationFailed"

/-- The message of a search without candidate types. -/
def noSuitableMemoryTypeMessage : String := "NoSuitableMemoryType"

/-- The default of the constructor parameter `defaultChunkSize` in vulkan_memory.hpp:
`20LL * 1024 * 1024`. -/
def defaultChunkSize : Nat := 20 * 1024 * 1024

/-- Modelled from the spec: the scan of `VulkanMemoryAllocator::allocate` over the existing
chunks (vulkan_memory.cpp is not part of the sources at hand).  By section 4.3 every chunk of the
memory type is tried in creation order and the first successful `allocate` is returned. -/
def tryChunks (size alignment memoryType : Nat) :
    List MemoryChunk → Option (MemoryBlock × List MemoryChunk)
  | [] => none
  | c :: rest =>
    if c.m_memoryType = memoryType then
      match c.allocate size alignment with
      | (.ok block, c1) => some (block, c1 :: rest)
      | (.error _, _) =>
        match tryChunks size alignment memoryType rest with
        | some (block, chunks) => some (block, c :: chunks)
        | none => none
    else
      match tryChunks size alignment memoryType rest with
      | some (block, chunks) => some (block, c :: chunks)
      | none => none

namespace VulkanMemoryAllocator

/-- Modelled from the spec: the constructor `VulkanMemoryAllocator(device, defaultChunkSize)`
(vulkan_memory.cpp is not part of the sources at hand).  The default of the second parameter is
the one declared in vulkan_memory.hpp; by section 4.3 the value bootstraps new chunks.
`memoryStructure` is what the device's GPU reports; `chunkSize` is `none` when the caller
passes no second argument. -/
def new (device : Nat) (memoryStructure : MemoryStructure) (chunkSize : Option Nat) :
    VulkanMemoryAllocator :=
  { m_memoryStructure := memoryStructure
    m_chunkSize := match chunkSize with
      | some size => size
      | none => defaultChunkSize
    m_device := device }

/-- Modelled from the spec: `VulkanMemoryAllocator::isMemoryTypeHidden`. -/
def isMemoryTypeHidden (a : VulkanMemoryAllocator) (value : Nat) : Bool :=
  a.m_hiddenTypes.contains value

/-- Modelled from the spec: `VulkanMemoryAllocator::hideMemoryType`, by section 4.3 an insertion
into the hidden set. -/
def hideMemoryType (a : VulkanMemoryAllocator) (type : Nat) : VulkanMemoryAllocator :=
  if a.m_hiddenTypes.contains type then a
  else { a with m_hiddenTypes := a.m_hiddenTypes ++ [type] }

/-- Modelled from the spec: `VulkanMemoryAllocator::unhideMemoryType`, by section 4.3 a removal
from the hidden set. -/
def unhideMemoryType (a : VulkanMemoryAllocator) (type : Nat) : VulkanMemoryAllocator :=
  { a with m_hiddenTypes := a.m_hiddenTypes.filter (fun t => t != type) }

/-- Modelled from the spec: `VulkanMemoryAllocator::allocate` (vulkan_memory.cpp is not part of
the sources at hand).  By section 4.3: the existing chunks of the type are tried in creation
order; if none succeeds a chunk of `max(defaultChunkSize, size)` is created, appended and
allocated from; the call fails with `AllocationFailed` only if the creation fails.
`vkAllocateMemory` is the driver's answer to a request of a size for a memory type: a memory
handle, or `none` when it refuses. -/
def allocate (a : VulkanMemoryAllocator) (vkAllocateMemory : Nat → Nat → Option Nat)
    (size alignment memoryType : Nat) : Except String MemoryBlock × VulkanMemoryAllocator :=
  match tryChunks size alignment memoryType a.m_memoryChunks with
  | some (block, chunks) => (.ok block, { a with m_memoryChunks := chunks })
  | none =>
    match vkAllocateMemory (max a.m_chunkSize size) memoryType with
    | none => (.error allocationFailedMessage, a)
    | some vkHandle =>
      let created := MemoryChunk.new a.m_chunkCount (max a.m_chunkSize size) memoryType vkHandle
      ((created.allocate size alignment).1,
       { a with m_memoryChunks := a.m_memoryChunks ++ [(created.allocate size alignment).2]
                m_chunkCount := (a.m_chunkCount + 1) % 2 ^ 32 })

/-- Modelled from the spec: the candidates of `searchAndAllocate` in the order they are tried
(vulkan_memory.cpp is not part of the sources at hand).  By section 4.3: the types matching the
desired properties and the filter mask, without the hidden ones unless `includeHidden`; first
those without an undesired property in ascending index order, then, only if `allowUndesired`,
those with one. -/
def searchOrder (a : VulkanMemoryAllocator) (properties : MemoryPropertyPreferences)
    (typeFilter : Nat) (includeHidden : Bool) : List Nat × List Nat :=
  let candidates :=
    (a.m_memoryStructure.getMemoryTypes properties.desiredProperties typeFilter).filter
      (fun t => includeHidden || !a.isMemoryTypeHidden t)
  (candidates,
   candidates.filter (fun t =>
      !a.m_memoryStructure.doesMemoryContainProperties t properties.undesiredProperties) ++
   (if properties.allowUndesired then
      candidates.filter (fun t =>
        a.m_memoryStructure.doesMemoryContainProperties t properties.undesiredProperties)
    else []))

/-- Modelled from the spec: the loop of `searchAndAllocate` over the candidates: the first
successful `allocate` is returned; when every candidate fails the search fails with
`AllocationFailed`.  A failed `allocate` leaves the allocator as it was. -/
def tryTypes (a : VulkanMemoryAllocator) (vkAllocateMemory : Nat → Nat → Option Nat)
    (size alignment : Nat) : List Nat → Except String MemoryBlock × VulkanMemoryAllocator
  | [] => (.error allocationFailedMessage, a)
  | t :: rest =>
    match a.allocate vkAllocateMemory size alignment t with
    | (.ok block, a1) => (.ok block, a1)
    | (.error _, a1) => tryTypes a1 vkAllocateMemory size alignment rest

/-- Modelled from the spec: `VulkanMemoryAllocator::searchAndAllocate` (vulkan_memory.cpp is not
part of the sources at hand).  By section 4.3 the search fails with `NoSuitableMemoryType` if the
candidate set is empty and otherwise tries the candidates in order. -/
def searchAndAllocate (a : VulkanMemoryAllocator) (vkAllocateMemory : Nat → Nat → Option Nat)
    (size alignment : Nat) (properties : MemoryPropertyPreferences) (typeFilter : Nat)
    (includeHidden : Bool) : Except String MemoryBlock × VulkanMemoryAllocator :=
  if (a.searchOrder properties typeFilter includeHidden).1.isEmpty then
    (.error noSuitableMemoryTypeMessage, a)
  else
    a.tryTypes vkAllocateMemory size alignment (a.searchOrder properties typeFilter includeHidden).2

end VulkanMemoryAllocator

/-! ## Buffers bound through the modelled allocator -/

/-- What the allocator `a` answers to a call as the wrapper issued it: the arguments are read
off the recorded call, the block recorded with it is not. -/
def VulkanMemoryAllocator.answers (a : VulkanMemoryAllocator)
    (vkAllocateMemory : Nat → Nat → Option Nat) :
    Call → Option (Except String MemoryBlock × VulkanMemoryAllocator)
  | .allocate size alignment memoryType _ =>
    some (a.allocate vkAllocateMemory size alignment memoryType)
  | .searchAndAllocate size alignment properties typeFilter includeHidden _ =>
    some (a.searchAndAllocate vkAllocateMemory size alignment properties typeFilter includeHidden)
  | _ => none

/-- The value of `includeHidden` a call passes to `searchAndAllocate`, if it is one. -/
def Call.includeHidden : Call → Option Bool
  | .searchAndAllocate _ _ _ _ includeHidden _ => some includeHidden
  | _ => none

/-! ## The buffer storage of VulkanDevice (vulkan_device.hpp; bodies modelled from the
specification) -/

/-- The message of a lookup of an ID that no stored buffer carries. -/
def invalidHandleMessage : String := "InvalidHandle"

/-- The member `m_buffers` of `VulkanDevice` (vulkan_device.hpp) together with the static
`VulkanBuffer::s_idCounter`. -/
structure BufferPool where
  m_buffers : List VulkanBuffer := []
  s_idCounter : Nat := 0
deriving DecidableEq, Repr

/-- Replace the first element that satisfies `p`. -/
def replaceFirst {α : Type} (p : α → Bool) (x : α) : List α → List α
  | [] => []
  | a :: l => if p a then x :: l else a :: replaceFirst p x l

namespace BufferPool

/-- Modelled from the spec: `VulkanDevice::createBuffer` (vulkan_device.cpp is not part of the
sources at hand).  By sections 3 and 4.4 a create is the driver call, the ID assignment and the
insertion into the storage; it returns the ID.  `vkHandle` is the handle the driver returns; the
object is built by the constructor of vulkan_buffer.cpp; `usage` only goes to the driver. -/
def createBuffer (p : BufferPool) (vkHandle size _usage : Nat) : Nat × BufferPool :=
  ((VulkanBuffer.new p.s_idCounter vkHandle size).1.getID,
   { m_buffers := p.m_buffers ++ [(VulkanBuffer.new p.s_idCounter vkHandle size).1]
     s_idCounter := (VulkanBuffer.new p.s_idCounter vkHandle size).2 })

/-- Modelled from the spec: `VulkanDevice::getBuffer` (vulkan_device.cpp is not part of the
sources at hand).  By section 4.4 it returns the stored buffer with the ID and fails with
`InvalidHandle` if there is none. -/
def getBuffer (p : BufferPool) (id : Nat) : Except String VulkanBuffer :=
  match p.m_buffers.find? (fun b => b.m_id == id) with
  | some b => .ok b
  | none => .error invalidHandleMessage

/-- Modelled from the spec: `VulkanDevice::freeBuffer(id)` (vulkan_device.cpp is not part of the
sources at hand).  By section 4.4 it frees the stored buffer with the ID, through
`VulkanBuffer::free` of vulkan_buffer.cpp, and removes it from the storage; an ID that no stored
buffer carries is the `InvalidHandle` error.  If `free` throws, the buffer stays stored as
`free` left it. -/
def freeBuffer (env : Env) (p : BufferPool) (id : Nat) (deallocated : Except String Unit) :
    Except String Unit × BufferPool :=
  match p.m_buffers.find? (fun b => b.m_id == id) with
  | none => (.error invalidHandleMessage, p)
  | some b =>
    match (VulkanBuffer.free env b deallocated).result with
    | .ok _ => (.ok (), { p with m_buffers := p.m_buffers.eraseP (fun b => b.m_id == id) })
    | .error e =>
      (.error e,
       { p with m_buffers := replaceFirst (fun b => b.m_id == id)
                  (VulkanBuffer.free env b deallocated).self p.m_buffers })

end BufferPool

/-- One call on the buffer storage, with what the driver or the allocator answers. -/
inductive PoolOp where
  | createBuffer (vkHandle size usage : Nat)
  | freeBuffer (id : Nat) (deallocated : Except String Unit)

/-- The storage after a sequence of calls, with the IDs `createBuffer` returned, in order, and
the IDs for which a `freeBuffer` returned normally, in order. -/
structure PoolHistory where
  pool : BufferPool := {}
  issued : List Nat := []
  released : List Nat := []

/-- Run one call and log its result. -/
def PoolHistory.step (env : Env) (h : PoolHistory) : PoolOp → PoolHistory
  | .createBuffer vkHandle size usage =>
    { pool := (h.pool.createBuffer vkHandle size usage).2
      issued := h.issued ++ [(h.pool.createBuffer vkHandle size usage).1]
      released := h.released }
  | .freeBuffer id deallocated =>
    match (h.pool.freeBuffer env id deallocated).1 with
    | .ok _ =>
      { pool := (h.pool.freeBuffer env id deallocated).2
        issued := h.issued, released := h.released ++ [id] }
    | .error _ =>
      { pool := (h.pool.freeBuffer env id deallocated).2
        issued := h.issued, released := h.released }

/-- Run a sequence of calls from a device that has created no buffer yet. -/
def PoolHistory.run (env : Env) (ops : List PoolOp) : PoolHistory :=
  ops.foldl (PoolHistory.step env) {}

/-- The member `stagingBuffer` of `VulkanDevice::StagingBufferInfo` (vulkan_device.hpp), which
`VulkanBuffer stagingBuffer{}` initialises with the defaulted default constructor. -/
structure StagingBufferInfo where
  stagingBuffer : VulkanBuffer := {}
deriving DecidableEq, Repr

/-! ## VulkanFence: all methods -/

/-- A call to one of the methods of `VulkanFence`. -/
inductive FenceMethod where
  | reset
  | wait
  | free
  | getID
  | isSignaled
deriving DecidableEq, Repr

/-- Dispatch of a `FenceMethod` to the method it names; the two getters issue no call. -/
def VulkanFence.perform (device : VulkanDevice) (f : VulkanFence) :
    FenceMethod → Outcome VulkanFence Unit
  | .reset => f.reset device
  | .wait => f.wait device
  | .free => f.free device
  | .getID => { self := f, trace := [], result := .ok () }
  | .isSignaled => { self := f, trace := [], result := .ok () }

/-! ## The frame loop of main.cpp -/

/-- The value `UINT32_MAX` that `acquireNextImage` returns for a frame to skip. -/
def UINT32_MAX : Nat := 2 ^ 32 - 1

/-- The driver's side of a fence: whether it is signaled, and whether a queue submission made
since its last reset names it as the fence to signal on completion. -/
structure FenceStatus where
  signaled : Bool
  pending : Bool
deriving DecidableEq, Repr

/-- The driver's `vkWaitForFences` with the timeout `UINT64_MAX`: it returns once the fence is
signaled, which happens if it is signaled already or a pending submission completes; otherwise
it never returns (`none`). -/
def FenceStatus.afterWait (s : FenceStatus) : Option FenceStatus :=
  if s.signaled || s.pending then some { signaled := true, pending := false } else none

/-- The driver's `vkResetFences`: the fence becomes unsignaled. -/
def FenceStatus.afterReset (s : FenceStatus) : FenceStatus :=
  { s with signaled := false }

/-- The driver's `vkQueueSubmit` with the fence: a submission that will signal it is pending. -/
def FenceStatus.afterSubmit (s : FenceStatus) : FenceStatus :=
  { s with pending := true }

/-- The driver's `VK_PIPELINE_STAGE_COLOR_ATTACHMENT_OUTPUT_BIT`. -/
def VK_PIPELINE_STAGE_COLOR_ATTACHMENT_OUTPUT_BIT : Nat := 1024

/-- The objects `main` creates before the loop and uses in every pass. -/
structure FrameResources where
  device : VulkanDevice
  graphicsQueue : VulkanQueue
  imageAvailableSemaphore : Nat
  renderFinishedSemaphore : Nat
deriving DecidableEq, Repr

/-- The state the frame loop of `main` carries from one pass to the next, as far as the fence
is concerned: the fence object, the driver's side of it, the graphics command buffer and the
frame counter. -/
structure FrameLoop where
  inFlightFence : VulkanFence
  status : FenceStatus
  graphicsBuffer : VulkanCommandBuffer
  frameCounter : Nat
deriving DecidableEq, Repr

/-- How one pass of the loop ends: it reaches the next pass, or its `inFlightFence.wait()`
never returns, or a method throws. -/
inductive Progress where
  | next (state : FrameLoop)
  | waitsForever (state : FrameLoop)
  | throws (message : String)
deriving DecidableEq, Repr

/-- The calls of `recordFramebuffer` (main.cpp) that touch the recording flag, in order:
`reset()`, `beginRecording(0)`, the `cmd*` calls, which leave the object as it is, and
`endRecording()`. -/
def recordFramebuffer (c : VulkanCommandBuffer) : Except String VulkanCommandBuffer :=
  match c.reset.result with
  | .error e => .error e
  | .ok _ =>
    match (c.reset.self.beginRecording 0).result with
    | .error e => .error e
    | .ok _ =>
      match (c.reset.self.beginRecording 0).self.endRecording.result with
      | .error e => .error e
      | .ok _ => .ok (c.reset.self.beginRecording 0).self.endRecording.self

/-- One pass of the `while` loop of `main` (main.cpp): `inFlightFence.wait()`; then, with
`nextImage` what `window.acquireNextImage` returns, either the skipped frame
(`inFlightFence.reset(); frameCounter++; continue;`) or `inFlightFence.reset()`,
`recordFramebuffer`, the submission that names the fence, and `frameCounter++`.  The window
calls (events, swapchain rebuild, present) do not touch the fence and are left out. -/
def FrameLoop.iteration (r : FrameResources) (st : FrameLoop) (nextImage : Nat) : Progress :=
  match st.status.afterWait with
  | none => .waitsForever st
  | some waited =>
    let fence1 := (st.inFlightFence.wait r.device).self
    if nextImage == UINT32_MAX then
      .next { st with inFlightFence := (fence1.reset r.device).self
                      status := waited.afterReset
                      frameCounter := st.frameCounter + 1 }
    else
      let fence2 := (fence1.reset r.device).self
      match recordFramebuffer st.graphicsBuffer with
      | .error e => .throws e
      | .ok recorded =>
        match (recorded.submit r.graphicsQueue
            [(r.imageAvailableSemaphore, VK_PIPELINE_STAGE_COLOR_ATTACHMENT_OUTPUT_BIT)]
            [r.renderFinishedSemaphore] (some fence2)).result with
        | .error e => .throws e
        | .ok _ =>
          .next { inFlightFence := fence2
                  status := waited.afterReset.afterSubmit
                  graphicsBuffer := recorded
                  frameCounter := st.frameCounter + 1 }

/-- Run the loop over the successive results of `acquireNextImage`, up to the first pass that
does not reach the next one. -/
def FrameLoop.run (r : FrameResources) : FrameLoop → List Nat → Progress
  | st, [] => .next st
  | st, nextImage :: rest =>
    match st.iteration r nextImage with
    | .next st1 => FrameLoop.run r st1 rest
    | stopped => stopped

/-- The resources used at concrete inputs. -/
def sampleResources : FrameResources :=
  { device := { m_vkHandle := 1, m_physicalDevice := 1 }
    graphicsQueue := { m_vkHandle := 51 }
    imageAvailableSemaphore := 61
    renderFinishedSemaphore := 62 }

/-- The loop state on entry, as `main` sets it up: `createFence(true)` and a command buffer
that is not recording. -/
def FrameLoop.initial : FrameLoop :=
  { inFlightFence := (VulkanFence.new 0 31 true).1
    status := { signaled := true, pending := false }
    graphicsBuffer := (VulkanCommandBuffer.new 0 41 false 0 0).1
    frameCounter := 0 }

/-- An allocator used at concrete inputs: memory type 0 with flags 1, memory type 1 with
flags 6, default chunk size 64, and one empty chunk of 64 bytes of type 1. -/
def sampleAllocator : VulkanMemoryAllocator :=
  { m_memoryStructure := { memoryTypes := [{ propertyFlags := 1 }, { propertyFlags := 6 }] }
    m_chunkSize := 64
    m_memoryChunks := [MemoryChunk.new 0 64 1 500]
    m_device := 1
    m_chunkCount := 1 }

/-! ## Repeated calls of `VulkanBuffer::free` -/

/-- Consecutive calls of `free` on one buffer, one per entry of the list, which says what the
allocator's `deallocate` does if that call reaches it: the buffer after the last call and all
calls issued, in order. -/
def VulkanBuffer.freeRepeatedly (env : Env) (b : VulkanBuffer) :
    List (Except String Unit) → VulkanBuffer × List Call
  | [] => (b, [])
  | deallocated :: rest =>
    ((VulkanBuffer.freeRepeatedly env (VulkanBuffer.free env b deallocated).self rest).1,
     (VulkanBuffer.free env b deallocated).trace ++
       (VulkanBuffer.freeRepeatedly env (VulkanBuffer.free env b deallocated).self rest).2)

/-! ## Model loading (main.cpp) -/

/-- The value of a `float`: a finite value, an infinity, or NaN.  The two zeros are the one
value 0, as they are for `==`.  Arithmetic on floats rounds and is not computed here: the one
operation `loadModel` uses, `1.0f - x`, is a parameter of the definitions below. -/
inductive Scalar where
  | finite (value : Rat)
  | infinite (negative : Bool)
  | nan
deriving DecidableEq, Repr

/-- `operator==` on `float`: equal values are equal, and NaN equals nothing, not even
itself. -/
def Scalar.eq : Scalar → Scalar → Bool
  | .finite a, .finite b => a == b
  | .infinite s, .infinite t => s == t
  | _, _ => false

/-- The type `glm::vec2`. -/
structure Vec2 where
  x : Scalar := .finite 0
  y : Scalar := .finite 0
deriving DecidableEq, Repr

/-- The type `glm::vec3`. -/
structure Vec3 where
  x : Scalar := .finite 0
  y : Scalar := .finite 0
  z : Scalar := .finite 0
deriving DecidableEq, Repr

/-- `operator==` on `glm::vec2`: component by component. -/
def Vec2.eq (a b : Vec2) : Bool :=
  a.x.eq b.x && a.y.eq b.y

/-- `operator==` on `glm::vec3`: component by component. -/
def Vec3.eq (a b : Vec3) : Bool :=
  a.x.eq b.x && a.y.eq b.y && a.z.eq b.z

/-- `struct Vertex` (main.cpp). -/
structure Vertex where
  pos : Vec3 := {}
  texCoord : Vec2 := {}
  normal : Vec3 := {}
deriving DecidableEq, Repr

/-- `Vertex::operator==`. -/
def Vertex.eq (v other : Vertex) : Bool :=
  v.pos.eq other.pos && v.texCoord.eq other.texCoord && v.normal.eq other.normal

/-- The type `tinyobj::index_t`. -/
structure index_t where
  vertex_index : Int
  normal_index : Int
  texcoord_index : Int
deriving DecidableEq, Repr

/-- The arrays of `tinyobj::attrib_t` read by `loadModel`. -/
structure attrib_t where
  vertices : List Scalar := []
  normals : List Scalar := []
  texcoords : List Scalar := []
deriving DecidableEq, Repr

/-- The type `tinyobj::mesh_t`, as far as `loadModel` reads it. -/
structure mesh_t where
  indices : List index_t := []
deriving DecidableEq, Repr

/-- The type `tinyobj::shape_t`, as far as `loadModel` reads it. -/
structure shape_t where
  mesh : mesh_t := {}
deriving DecidableEq, Repr

/-- The largest `int`. -/
def INT_MAX : Int := 2 ^ 31 - 1

/-- The read `v[i]` of a `std::vector<float>` at the value `i` of an `int` expression.  It has
no defined result (`none`) when the expression overflows `int` or the index lies outside the
vector; a negative index converts to a `size_t` beyond every vector. -/
def readFloat (v : List Scalar) (i : Int) : Option Scalar :=
  if 0 ≤ i ∧ i ≤ INT_MAX then v[i.toNat]? else none

/-- The vertex that the loop body of `loadModel` builds from one mesh index; `none` when one of
its eight reads has no defined result.  `oneMinus` is the float operation `1.0f - x`. -/
def buildVertex (oneMinus : Scalar → Scalar) (attrib : attrib_t) (index : index_t) :
    Option Vertex := do
  let posX ← readFloat attrib.vertices (3 * index.vertex_index + 0)
  let posY ← readFloat attrib.vertices (3 * index.vertex_index + 1)
  let posZ ← readFloat attrib.vertices (3 * index.vertex_index + 2)
  let texX ← readFloat attrib.texcoords (2 * index.texcoord_index + 0)
  let texY ← readFloat attrib.texcoords (2 * index.texcoord_index + 1)
  let normalX ← readFloat attrib.normals (3 * index.normal_index + 0)
  let normalY ← readFloat attrib.normals (3 * index.normal_index + 1)
  let normalZ ← readFloat attrib.normals (3 * index.normal_index + 2)
  pure { pos := { x := posX, y := posY, z := posZ }
         texCoord := { x := texX, y := oneMinus texY }
         normal := { x := normalX, y := normalY, z := normalZ } }

/-- Whether the eight reads that the loop body makes for a mesh index all lie inside the
arrays of `attrib`. -/
def index_t.inRange (attrib : attrib_t) (index : index_t) : Bool :=
  (readFloat attrib.vertices (3 * index.vertex_index + 0)).isSome &&
  (readFloat attrib.vertices (3 * index.vertex_index + 1)).isSome &&
  (readFloat attrib.vertices (3 * index.vertex_index + 2)).isSome &&
  (readFloat attrib.texcoords (2 * index.texcoord_index + 0)).isSome &&
  (readFloat attrib.texcoords (2 * index.texcoord_index + 1)).isSome &&
  (readFloat attrib.normals (3 * index.normal_index + 0)).isSome &&
  (readFloat attrib.normals (3 * index.normal_index + 1)).isSome &&
  (readFloat attrib.normals (3 * index.normal_index + 2)).isSome

/-- A `std::unordered_map<Vertex, uint32_t>`: its entries in insertion order.  A key is found by
`Vertex::operator==`; `std::hash<Vertex>` hashes `pos` and `texCoord`, which are equal for
equal keys, and only selects the bucket searched. -/
abbrev VertexMap := List (Vertex × Nat)

/-- The call `contains(key)`. -/
def VertexMap.contains (m : VertexMap) (key : Vertex) : Bool :=
  m.any (fun e => e.1.eq key)

/-- The statement `m[key] = value`: the entry with an equal key takes the value, and a new
entry is inserted when there is none. -/
def VertexMap.assign : VertexMap → Vertex → Nat → VertexMap
  | [], key, value => [(key, value)]
  | e :: rest, key, value =>
    if e.1.eq key then (e.1, value) :: rest else e :: VertexMap.assign rest key value

/-- The read `m[key]`: the value of the entry with an equal key; when there is none, an entry
with the value-initialised value 0 is inserted and 0 is read. -/
def VertexMap.subscript (m : VertexMap) (key : Vertex) : Nat × VertexMap :=
  match m.find? (fun e => e.1.eq key) with
  | some e => (e.2, m)
  | none => (0, m ++ [(key, 0)])

/-- The globals `vertices` and `indices` of main.cpp. -/
structure ModelData where
  vertices : List Vertex := []
  indices : List Nat := []
deriving DecidableEq, Repr

/-- The variables the loops of `loadModel` work on: the two globals and the local
`uniqueVertices`. -/
structure LoaderState where
  vertices : List Vertex := []
  indices : List Nat := []
  uniqueVertices : VertexMap := []
deriving DecidableEq, Repr

/-- What a call of `loadModel` comes to: it returns and leaves the globals as given, it throws,
or it reads outside an array, after which the source defines no behaviour. -/
inductive LoadResult where
  | returned (data : ModelData)
  | thrown (message : String)
  | undefined
deriving DecidableEq, Repr

/-- The part of the loop body of `loadModel` after `vertex` is built. -/
def addVertex (st : LoaderState) (vertex : Vertex) : LoaderState :=
  let st1 : LoaderState :=
    if !st.uniqueVertices.contains vertex then
      { st with
        uniqueVertices := st.uniqueVertices.assign vertex (castU32 st.vertices.length)
        vertices := st.vertices ++ [vertex] }
    else st
  let read := st1.uniqueVertices.subscript vertex
  { st1 with uniqueVertices := read.2, indices := st1.indices ++ [read.1] }

/-- The loop body of `loadModel` for one mesh index; `none` once a read had no defined
result. -/
def visitIndex (oneMinus : Scalar → Scalar) (attrib : attrib_t) (st : Option LoaderState)
    (index : index_t) : Option LoaderState :=
  match st, buildVertex oneMinus attrib index with
  | some st, some vertex => some (addVertex st vertex)
  | _, _ => none

/-- The two nested loops of `loadModel`. -/
def loadShapes (oneMinus : Scalar → Scalar) (attrib : attrib_t) (shapes : List shape_t)
    (st : Option LoaderState) : Option LoaderState :=
  shapes.foldl (fun st shape => shape.mesh.indices.foldl (visitIndex oneMinus attrib) st) st

/-- The function `loadModel`, run on the globals `data`.  `loaded` is what `tinyobj::LoadObj`
delivers: the attributes and shapes of the file, or `warn + err` when it reports failure. -/
def loadModel (oneMinus : Scalar → Scalar) (data : ModelData)
    (loaded : Except String (attrib_t × List shape_t)) : LoadResult :=
  match loaded with
  | .error message => .thrown message
  | .ok (attrib, shapes) =>
    match loadShapes oneMinus attrib shapes
        (some { vertices := data.vertices, indices := data.indices, uniqueVertices := [] }) with
    | some st => .returned { vertices := st.vertices, indices := st.indices }
    | none => .undefined

/-- The mesh indices of the loaded shapes, in the order the loops visit them. -/
def meshIndices (shapes : List shape_t) : List index_t :=
  (shapes.map (fun shape => shape.mesh.indices)).flatten

/-- The vertices built from the mesh indices, in the order the loops visit them (a mesh index
with a read outside the arrays builds none). -/
def meshVertices (oneMinus : Scalar → Scalar) (attrib : attrib_t) (shapes : List shape_t) :
    List Vertex :=
  (meshIndices shapes).filterMap (buildVertex oneMinus attrib)

/-- The entries of `rest` that are equal, under `Vertex::operator==`, to no entry before them
in `seen ++ rest`, in order. -/
def firstOccurrencesAfter (seen : List Vertex) : List Vertex → List Vertex
  | [] => []
  | v :: rest =>
    if seen.any (fun u => u.eq v) then firstOccurrencesAfter (seen ++ [v]) rest
    else v :: firstOccurrencesAfter (seen ++ [v]) rest

/-- The distinct vertices of a list in order of first occurrence: each entry that no earlier
entry equals under `Vertex::operator==`. -/
def firstOccurrences (vs : List Vertex) : List Vertex :=
  firstOccurrencesAfter [] vs

/-- The operation `1.0f - x` at the two values it meets in the sample meshes below, 0 and 1,
where the float subtraction is exact; other values are not used. -/
def sampleOneMinus (x : Scalar) : Scalar :=
  if x = .finite 0 then .finite 1 else if x = .finite 1 then .finite 0 else x

/-- A mesh with a NaN coordinate: two mesh indices, the second naming a position whose first
coordinate is NaN. -/
def nanAttrib : attrib_t :=
  { vertices := [.finite 0, .finite 0, .finite 0, .nan, .finite 0, .finite 0]
    normals := [.finite 0, .finite 0, .finite 1]
    texcoords := [.finite 0, .finite 0] }

/-- The shapes that go with `nanAttrib`. -/
def nanShapes : List shape_t :=
  [{ mesh := { indices := [{ vertex_index := 0, normal_index := 0, texcoord_index := 0 },
                           { vertex_index := 1, normal_index := 0, texcoord_index := 0 }] } }]

/-- A unit square as two shapes of one triangle each, sharing two corners: four positions with
matching texture coordinates and one normal. -/
def quadAttrib : attrib_t :=
  { vertices := [.finite 0, .finite 0, .finite 0, .finite 1, .finite 0, .finite 0,
                 .finite 0, .finite 1, .finite 0, .finite 1, .finite 1, .finite 0]
    normals := [.finite 0, .finite 0, .finite 1]
    texcoords := [.finite 0, .finite 0, .finite 1, .finite 0,
                  .finite 0, .finite 1, .finite 1, .finite 1] }

/-- The shapes that go with `quadAttrib`. -/
def quadShapes : List shape_t :=
  [{ mesh := { indices := [{ vertex_index := 0, normal_index := 0, texcoord_index := 0 },
                           { vertex_index := 1, normal_index := 0, texcoord_index := 1 },
                           { vertex_index := 2, normal_index := 0, texcoord_index := 2 }] } },
   { mesh := { indices := [{ vertex_index := 2, normal_index := 0, texcoord_index := 2 },
                           { vertex_index := 1, normal_index := 0, texcoord_index := 1 },
                           { vertex_index := 3, normal_index := 0, texcoord_index := 3 }] } }]

/-- The vertex built from corner `(x, y)` of `quadAttrib`, for `x` and `y` in 0 and 1. -/
def quadVertex (x y : Rat) : Vertex :=
  { pos := { x := .finite x, y := .finite y, z := .finite 0 }
    texCoord := { x := .finite x, y := sampleOneMinus (.finite y) }
    normal := { x := .finite 0, y := .finite 0, z := .finite 1 } }

/-! ## Theorems -/

/-! ### Shared lemmas on `VulkanBuffer` -/

theorem VulkanBuffer.setBoundMemory_bound (env : Env) (b : VulkanBuffer) (block : MemoryBlock)
    (h : 0 < b.m_memoryRegion.size) :
    VulkanBuffer.setBoundMemory env b block =
      { self := b, trace := [], result := .error alreadyBoundMessage } := by
  simp [VulkanBuffer.setBoundMemory, h]

theorem VulkanBuffer.setBoundMemory_unbound (env : Env) (b : VulkanBuffer) (block : MemoryBlock)
    (h : b.m_memoryRegion.size = 0) :
    VulkanBuffer.setBoundMemory env b block =
      { self := { b with m_memoryRegion := block }
        trace := [Call.vkBindBufferMemory env.device.m_vkHandle b.m_vkHandle
                    (env.getMemoryHandle block.chunk) block.offset]
        result := .ok () } := by
  simp [VulkanBuffer.setBoundMemory, h]

theorem VulkanBuffer.allocateWith_ok_self_size (env : Env) (b : VulkanBuffer) (c : AllocCall)
    (block : MemoryBlock) (h : 0 < block.size) :
    0 < (VulkanBuffer.allocateWith env b c (.ok block)).self.m_memoryRegion.size := by
  by_cases hb : 0 < b.m_memoryRegion.size
  · cases c <;>
      simp [VulkanBuffer.allocateWith, VulkanBuffer.allocateFromIndex,
        VulkanBuffer.allocateFromFlags, VulkanBuffer.setBoundMemory_bound env b block hb, hb]
  · have hz : b.m_memoryRegion.size = 0 := by omega
    cases c <;>
      simp [VulkanBuffer.allocateWith, VulkanBuffer.allocateFromIndex,
        VulkanBuffer.allocateFromFlags, VulkanBuffer.setBoundMemory_unbound env b block hz, h]

theorem VulkanBuffer.allocateWith_on_bound (env : Env) (b : VulkanBuffer) (c : AllocCall)
    (r : Except String MemoryBlock) (h : 0 < b.m_memoryRegion.size) :
    (VulkanBuffer.allocateWith env b c r).returned = false ∧
    (∀ block, r = .ok block →
      (VulkanBuffer.allocateWith env b c r).thrown = some alreadyBoundMessage) ∧
    (VulkanBuffer.allocateWith env b c r).self = b ∧
    (∀ call ∈ (VulkanBuffer.allocateWith env b c r).trace, call.isBind = false) := by
  cases c <;> cases r <;>
    simp [VulkanBuffer.allocateWith, VulkanBuffer.allocateFromIndex,
      VulkanBuffer.allocateFromFlags, VulkanBuffer.setBoundMemory_bound env b _ h,
      VulkanBuffer.getMemoryRequirements, Outcome.returned, Outcome.thrown, Call.isBind]

/-! ### C1: double bind -/

/-- C1 as stated fails at two inputs.  (a) The allocator returns a block of size 0 for the
first call: `setBoundMemory` stores it, the region's size stays 0, and the second
`allocateFromIndex` is not rejected: it returns normally, replaces the region by the second
block and calls the driver's bind.  (b) The first call binds a 64-byte block and the allocator
throws on the second call: the second call fails with the allocator's message, not with
"Buffer already has memory bound to it!", because the allocator is called before the guard. -/
theorem VulkanBuffer.second_allocate_not_always_double_bind_error :
    (VulkanBuffer.allocateTwice sampleEnv freshBuffer
        (.fromIndex 0) (.ok { size := 0, offset := 0, chunk := 0 })
        (.fromIndex 0) (.ok { size := 64, offset := 128, chunk := 2 })).1.returned = true ∧
    (VulkanBuffer.allocateTwice sampleEnv freshBuffer
        (.fromIndex 0) (.ok { size := 0, offset := 0, chunk := 0 })
        (.fromIndex 0) (.ok { size := 64, offset := 128, chunk := 2 })).2.returned = true ∧
    (VulkanBuffer.allocateTwice sampleEnv freshBuffer
        (.fromIndex 0) (.ok { size := 0, offset := 0, chunk := 0 })
        (.fromIndex 0) (.ok { size := 64, offset := 128, chunk := 2 })).2.self.m_memoryRegion
      = { size := 64, offset := 128, chunk := 2 } ∧
    Call.vkBindBufferMemory 1 7 102 128 ∈
      (VulkanBuffer.allocateTwice sampleEnv freshBuffer
        (.fromIndex 0) (.ok { size := 0, offset := 0, chunk := 0 })
        (.fromIndex 0) (.ok { size := 64, offset := 128, chunk := 2 })).2.trace ∧
    (VulkanBuffer.allocateTwice sampleEnv freshBuffer
        (.fromIndex 0) (.ok { size := 64, offset := 128, chunk := 2 })
        (.fromFlags { desiredProperties := 1, undesiredProperties := 2, allowUndesired := false })
        (.error "NoSuitableMemoryType")).1.returned = true ∧
    (VulkanBuffer.allocateTwice sampleEnv freshBuffer
        (.fromIndex 0) (.ok { size := 64, offset := 128, chunk := 2 })
        (.fromFlags { desiredProperties := 1, undesiredProperties := 2, allowUndesired := false })
        (.error "NoSuitableMemoryType")).2.thrown = some "NoSuitableMemoryType" := by
  refine ⟨rfl, rfl, rfl, ?_, rfl, rfl⟩
  decide

/-- C1 (amended): for every buffer, every pair of successive calls to `allocateFromIndex` /
`allocateFromFlags` in any combination and with any arguments, and every block of non-zero size
the allocator returns for the first call: the second call fails, with the message
"Buffer already has memory bound to it!" whenever the allocator returns a block for it, leaves
the buffer exactly as the first call left it, and does not reach the driver's bind; if the
buffer was unbound before the first call, its region is still the first block. -/
theorem VulkanBuffer.second_allocate_rejected (env : Env) (b : VulkanBuffer) (c1 c2 : AllocCall)
    (block1 : MemoryBlock) (allocated2 : Except String MemoryBlock) (h : 0 < block1.size) :
    (VulkanBuffer.allocateTwice env b c1 (.ok block1) c2 allocated2).2.returned = false ∧
    (∀ block2, allocated2 = .ok block2 →
      (VulkanBuffer.allocateTwice env b c1 (.ok block1) c2 allocated2).2.thrown
        = some alreadyBoundMessage) ∧
    (VulkanBuffer.allocateTwice env b c1 (.ok block1) c2 allocated2).2.self
      = (VulkanBuffer.allocateTwice env b c1 (.ok block1) c2 allocated2).1.self ∧
    (∀ call ∈ (VulkanBuffer.allocateTwice env b c1 (.ok block1) c2 allocated2).2.trace,
      call.isBind = false) ∧
    (b.m_memoryRegion.size = 0 →
      (VulkanBuffer.allocateTwice env b c1 (.ok block1) c2 allocated2).2.self.m_memoryRegion
        = block1) := by
  have hsize := VulkanBuffer.allocateWith_ok_self_size env b c1 block1 h
  have hsecond := VulkanBuffer.allocateWith_on_bound env
    (VulkanBuffer.allocateWith env b c1 (.ok block1)).self c2 allocated2 hsize
  refine ⟨hsecond.1, hsecond.2.1, hsecond.2.2.1, hsecond.2.2.2, ?_⟩
  intro hz
  have hself : (VulkanBuffer.allocateTwice env b c1 (.ok block1) c2 allocated2).2.self
      = (VulkanBuffer.allocateWith env b c1 (.ok block1)).self := hsecond.2.2.1
  rw [hself]
  cases c1 <;>
    simp [VulkanBuffer.allocateWith, VulkanBuffer.allocateFromIndex,
      VulkanBuffer.allocateFromFlags, VulkanBuffer.setBoundMemory_unbound env b block1 hz]

/-- C1 (amended), at a concrete input: after a 64-byte block is bound by index, a second call
by flags for which the allocator returns another block throws the double-bind message. -/
theorem VulkanBuffer.second_allocate_rejected_witness :
    0 < ({ size := 64, offset := 128, chunk := 2 } : MemoryBlock).size ∧
    (VulkanBuffer.allocateTwice sampleEnv freshBuffer
        (.fromIndex 0) (.ok { size := 64, offset := 128, chunk := 2 })
        (.fromFlags { desiredProperties := 1, undesiredProperties := 2, allowUndesired := false })
        (.ok { size := 64, offset := 192, chunk := 2 })).2.thrown = some alreadyBoundMessage :=
  ⟨by decide,
   (VulkanBuffer.second_allocate_rejected sampleEnv freshBuffer (.fromIndex 0)
      (.fromFlags { desiredProperties := 1, undesiredProperties := 2, allowUndesired := false })
      { size := 64, offset := 128, chunk := 2 } (.ok { size := 64, offset := 192, chunk := 2 })
      (by decide)).2.1 _ rfl⟩

/-! ### C2: free -/

/-- C2: `VulkanBuffer::free` always destroys the driver handle and leaves `m_vkHandle` null; it
calls the allocator's `deallocate` if and only if the buffer is bound (its region has non-zero
size); the block passed is the bound region; when that call returns, `free` returns and the
region is the zero block; freeing an unbound buffer returns without any `deallocate` call. -/
theorem VulkanBuffer.free_releases_handle_and_block (env : Env) (b : VulkanBuffer)
    (deallocated : Except String Unit) :
    (VulkanBuffer.free env b deallocated).self.m_vkHandle = VK_NULL_HANDLE ∧
    Call.vkDestroyBuffer env.device.m_vkHandle b.m_vkHandle
      ∈ (VulkanBuffer.free env b deallocated).trace ∧
    ((∃ call ∈ (VulkanBuffer.free env b deallocated).trace, call.isDeallocate = true)
      ↔ 0 < b.m_memoryRegion.size) ∧
    (∀ block completed, Call.deallocate block completed
        ∈ (VulkanBuffer.free env b deallocated).trace → block = b.m_memoryRegion) ∧
    (0 < b.m_memoryRegion.size → deallocated = .ok () →
      (VulkanBuffer.free env b deallocated).returned = true ∧
      (VulkanBuffer.free env b deallocated).self.m_memoryRegion = {}) ∧
    (b.m_memoryRegion.size = 0 →
      (VulkanBuffer.free env b deallocated).returned = true ∧
      ∀ call ∈ (VulkanBuffer.free env b deallocated).trace, call.isDeallocate = false) := by
  by_cases hb : 0 < b.m_memoryRegion.size
  · have hne : b.m_memoryRegion.size ≠ 0 := by omega
    cases deallocated <;>
      simp [VulkanBuffer.free, hb, hne, Outcome.returned, Call.isDeallocate]
  · have hz : b.m_memoryRegion.size = 0 := by omega
    simp [VulkanBuffer.free, hz, Outcome.returned, Call.isDeallocate]

/-- C2 at a concrete input: freeing the bound sample buffer passes its region to `deallocate`
and leaves the zero block. -/
theorem VulkanBuffer.free_releases_handle_and_block_witness :
    0 < boundBuffer.m_memoryRegion.size ∧
    (VulkanBuffer.free sampleEnv boundBuffer (.ok ())).returned = true ∧
    (VulkanBuffer.free sampleEnv boundBuffer (.ok ())).self.m_memoryRegion = {} :=
  ⟨by decide,
   (VulkanBuffer.free_releases_handle_and_block sampleEnv boundBuffer (.ok ())).2.2.2.2.1
      (by decide) rfl⟩

/-! ### C3: block ownership -/

theorem countP_set_add {α : Type} (p : α → Bool) (l : List α) (i : Nat) (a x : α)
    (h : l[i]? = some a) :
    (l.set i x).countP p + (if p a then 1 else 0) = l.countP p + (if p x then 1 else 0) := by
  induction l generalizing i with
  | nil => simp at h
  | cons y ys ih =>
    cases i with
    | zero =>
      simp at h
      subst h
      simp [List.countP_cons]
      omega
    | succ j =>
      simp at h
      have := ih j h
      simp [List.countP_cons]
      omega

theorem liveBlocks_append (t u : List Call) :
    liveBlocks (t ++ u) = u.foldl liveAfter (liveBlocks t) := by
  simp [liveBlocks, List.foldl_append]

theorem World.owners_record (w : World) (i : Nat) (b : VulkanBuffer)
    (o : Outcome VulkanBuffer Unit) (block : MemoryBlock) (h : w.buffers[i]? = some b) :
    (w.record i o).owners block + (if b.m_memoryRegion = block then 1 else 0)
      = w.owners block + (if o.self.m_memoryRegion = block then 1 else 0) := by
  have := countP_set_add (fun b => decide (b.m_memoryRegion = block)) w.buffers i b o.self h
  simpa [World.owners, World.record] using this

/-- A binding call on an unbound buffer that obtains a fresh block keeps the invariant. -/
theorem World.Owned.record_bind (env : Env) (w : World) (i : Nat) (b : VulkanBuffer)
    (asked : List Call) (returned : MemoryBlock → Call)
    (hret : ∀ l block, liveAfter l (returned block) = l ++ [block])
    (hasked : ∀ l, asked.foldl liveAfter l = l)
    (block : MemoryBlock) (hw : w.Owned) (hget : w.buffers[i]? = some b)
    (hb : b.m_memoryRegion.size = 0) (hsize : 0 < block.size)
    (hfresh : block ∉ liveBlocks w.trace) :
    (w.record i
      { self := { b with m_memoryRegion := block }
        trace := asked ++ [returned block] ++
          [Call.vkBindBufferMemory env.device.m_vkHandle b.m_vkHandle
            (env.getMemoryHandle block.chunk) block.offset]
        result := .ok () }).Owned := by
  obtain ⟨hnd, hlive, hbuf⟩ := hw
  have htrace : liveBlocks (w.record i
      { self := { b with m_memoryRegion := block }
        trace := asked ++ [returned block] ++
          [Call.vkBindBufferMemory env.device.m_vkHandle b.m_vkHandle
            (env.getMemoryHandle block.chunk) block.offset]
        result := .ok () }).trace = liveBlocks w.trace ++ [block] := by
    simp [World.record, liveBlocks_append, List.foldl_append, hasked, hret]
    rfl
  have hnone : w.owners block = 0 := by
    simp only [World.owners, List.countP_eq_zero]
    intro x hx hxb
    have hxb1 : x.m_memoryRegion = block := by simpa using hxb
    exact hfresh (hxb1 ▸ hbuf x hx (by rw [hxb1]; exact hsize))
  refine ⟨?_, ?_, ?_⟩
  · rw [htrace]
    exact List.Nodup.append hnd (List.nodup_singleton _) (by simpa using hfresh)
  · intro blk hblk
    rw [htrace] at hblk
    have hown : _ + (if b.m_memoryRegion = blk then 1 else 0)
        = w.owners blk + (if block = blk then 1 else 0) :=
      World.owners_record w i b
        { self := { b with m_memoryRegion := block }
          trace := asked ++ [returned block] ++
            [Call.vkBindBufferMemory env.device.m_vkHandle b.m_vkHandle
              (env.getMemoryHandle block.chunk) block.offset]
          result := .ok () } blk hget
    rcases List.mem_append.1 hblk with hin | hin
    · have h1 := hlive blk hin
      have hne1 : b.m_memoryRegion ≠ blk := by
        intro heq
        rw [heq] at hb
        omega
      have hne2 : block ≠ blk := by
        intro heq
        exact hfresh (heq ▸ hin)
      rw [if_neg hne1, if_neg hne2] at hown
      exact ⟨h1.1, by omega⟩
    · have hbe : blk = block := by simpa using hin
      subst hbe
      have hne1 : b.m_memoryRegion ≠ blk := by
        intro heq
        rw [heq] at hb
        omega
      rw [if_neg hne1, if_pos rfl] at hown
      exact ⟨hsize, by omega⟩
  · intro x hx hxs
    rw [htrace]
    rcases List.mem_or_eq_of_mem_set hx with hmem | heq
    · exact List.mem_append_left _ (hbuf x hmem hxs)
    · subst heq
      simp

/-- A call that neither changes the buffer's region nor the live blocks keeps the invariant. -/
theorem World.Owned.record_same (w : World) (i : Nat) (b : VulkanBuffer)
    (o : Outcome VulkanBuffer Unit) (hw : w.Owned) (hget : w.buffers[i]? = some b)
    (hreg : o.self.m_memoryRegion = b.m_memoryRegion)
    (htr : ∀ l, o.trace.foldl liveAfter l = l) : (w.record i o).Owned := by
  obtain ⟨hnd, hlive, hbuf⟩ := hw
  have htrace : liveBlocks (w.record i o).trace = liveBlocks w.trace := by
    simp [World.record, liveBlocks_append, htr]
  refine ⟨by rw [htrace]; exact hnd, ?_, ?_⟩
  · intro blk hblk
    rw [htrace] at hblk
    have hown := World.owners_record w i b o blk hget
    rw [hreg] at hown
    exact ⟨(hlive blk hblk).1, by have := (hlive blk hblk).2; omega⟩
  · intro x hx hxs
    rw [htrace]
    rcases List.mem_or_eq_of_mem_set hx with hmem | heq
    · exact hbuf x hmem hxs
    · subst heq
      rw [hreg] at hxs ⊢
      exact hbuf b (List.getElem?_mem hget) hxs

/-- A `free` of a bound buffer whose `deallocate` returns keeps the invariant. -/
theorem World.Owned.record_free (env : Env) (w : World) (i : Nat) (b : VulkanBuffer)
    (hw : w.Owned) (hget : w.buffers[i]? = some b) (hb : 0 < b.m_memoryRegion.size) :
    (w.record i
      { self := { b with m_vkHandle := VK_NULL_HANDLE, m_memoryRegion := {} }
        trace := [Call.vkDestroyBuffer env.device.m_vkHandle b.m_vkHandle,
                  Call.deallocate b.m_memoryRegion true]
        result := .ok () }).Owned := by
  obtain ⟨hnd, hlive, hbuf⟩ := hw
  have hmemb : b ∈ w.buffers := List.getElem?_mem hget
  have hrlive : b.m_memoryRegion ∈ liveBlocks w.trace := hbuf b hmemb hb
  have htrace : liveBlocks (w.record i
      { self := { b with m_vkHandle := VK_NULL_HANDLE, m_memoryRegion := {} }
        trace := [Call.vkDestroyBuffer env.device.m_vkHandle b.m_vkHandle,
                  Call.deallocate b.m_memoryRegion true]
        result := .ok () }).trace = (liveBlocks w.trace).erase b.m_memoryRegion := by
    simp [World.record, liveBlocks_append, liveAfter]
  have hown : ∀ blk, _ + (if b.m_memoryRegion = blk then 1 else 0)
      = w.owners blk + (if ({} : MemoryBlock) = blk then 1 else 0) := fun blk =>
    World.owners_record w i b
      { self := { b with m_vkHandle := VK_NULL_HANDLE, m_memoryRegion := {} }
        trace := [Call.vkDestroyBuffer env.device.m_vkHandle b.m_vkHandle,
                  Call.deallocate b.m_memoryRegion true]
        result := .ok () } blk hget
  have hzero : ∀ blk : MemoryBlock, 0 < blk.size → ({} : MemoryBlock) ≠ blk := by
    intro blk hpos heq
    rw [← heq] at hpos
    exact Nat.lt_irrefl 0 hpos
  refine ⟨by rw [htrace]; exact hnd.erase _, ?_, ?_⟩
  · intro blk hblk
    rw [htrace] at hblk
    have hmem := (List.Nodup.mem_erase_iff hnd).1 hblk
    have h1 := hlive blk hmem.2
    have h2 := hown blk
    rw [if_neg (Ne.symm hmem.1), if_neg (hzero blk h1.1)] at h2
    exact ⟨h1.1, by omega⟩
  · intro x hx hxs
    rw [htrace]
    have h2 := hown b.m_memoryRegion
    rw [if_pos rfl, if_neg (hzero _ hb), (hlive _ hrlive).2] at h2
    have hnone : (w.record i
      { self := { b with m_vkHandle := VK_NULL_HANDLE, m_memoryRegion := {} }
        trace := [Call.vkDestroyBuffer env.device.m_vkHandle b.m_vkHandle,
                  Call.deallocate b.m_memoryRegion true]
        result := .ok () }).owners b.m_memoryRegion = 0 := by omega
    simp only [World.owners, List.countP_eq_zero] at hnone
    have hxne : x.m_memoryRegion ≠ b.m_memoryRegion := by
      intro heq
      exact hnone x hx (by simpa using heq)
    rcases List.mem_or_eq_of_mem_set hx with hmem | heq
    · exact (List.Nodup.mem_erase_iff hnd).2 ⟨hxne, hbuf x hmem hxs⟩
    · subst heq
      exact absurd hxs (Nat.lt_irrefl 0)

/-- A regular binding call keeps the invariant. -/
theorem World.Owned.record_allocate (env : Env) (w : World) (i : Nat) (b : VulkanBuffer)
    (c : AllocCall) (allocated : Except String MemoryBlock) (hw : w.Owned)
    (hget : w.buffers[i]? = some b) (hreg : w.AcceptsBinding i allocated) :
    (w.record i (VulkanBuffer.allocateWith env b c allocated)).Owned := by
  have hb : b.m_memoryRegion.size = 0 := hreg.1 b hget
  cases allocated with
  | error e =>
    apply World.Owned.record_same w i b _ hw hget
    · cases c <;> rfl
    · intro l
      cases c <;> rfl
  | ok block =>
    obtain ⟨hsize, hfresh⟩ := hreg.2 block rfl
    cases c with
    | fromIndex memoryIndex =>
      have h := World.Owned.record_bind env w i b
        [Call.vkGetBufferMemoryRequirements env.device.m_vkHandle b.m_vkHandle]
        (fun blk => Call.allocate (env.memoryRequirements b.m_vkHandle).size
          (env.memoryRequirements b.m_vkHandle).alignment memoryIndex (some blk))
        (fun _ _ => rfl) (fun _ => rfl) block hw hget hb hsize hfresh
      simpa [VulkanBuffer.allocateWith, VulkanBuffer.allocateFromIndex,
        VulkanBuffer.setBoundMemory_unbound env b block hb, VulkanBuffer.getMemoryRequirements,
        Except.toOption] using h
    | fromFlags memoryProperties =>
      have h := World.Owned.record_bind env w i b
        [Call.vkGetBufferMemoryRequirements env.device.m_vkHandle b.m_vkHandle]
        (fun blk => Call.searchAndAllocate (env.memoryRequirements b.m_vkHandle).size
          (env.memoryRequirements b.m_vkHandle).alignment memoryProperties
          (env.memoryRequirements b.m_vkHandle).memoryTypeBits false (some blk))
        (fun _ _ => rfl) (fun _ => rfl) block hw hget hb hsize hfresh
      simpa [VulkanBuffer.allocateWith, VulkanBuffer.allocateFromFlags,
        VulkanBuffer.setBoundMemory_unbound env b block hb, VulkanBuffer.getMemoryRequirements,
        Except.toOption] using h

/-- A regular operation keeps the invariant. -/
theorem World.Owned.step_regular (env : Env) (w : World) (op : BufferOp) (hw : w.Owned)
    (hop : op.Regular w) : (w.step env op).Owned := by
  cases op with
  | allocateFromIndex i memoryIndex allocated =>
    simp only [World.step]
    cases hget : w.buffers[i]? with
    | none => exact hw
    | some b => exact World.Owned.record_allocate env w i b (.fromIndex memoryIndex) allocated hw hget hop
  | allocateFromFlags i memoryProperties allocated =>
    simp only [World.step]
    cases hget : w.buffers[i]? with
    | none => exact hw
    | some b =>
      exact World.Owned.record_allocate env w i b (.fromFlags memoryProperties) allocated hw hget hop
  | free i deallocated =>
    simp only [World.step]
    cases hget : w.buffers[i]? with
    | none => exact hw
    | some b =>
      have hd : deallocated = .ok () := hop
      subst hd
      by_cases hb : 0 < b.m_memoryRegion.size
      · have h := World.Owned.record_free env w i b hw hget hb
        simpa [VulkanBuffer.free, hb] using h
      · apply World.Owned.record_same w i b _ hw hget
        · simp [VulkanBuffer.free, hb]
        · intro l
          simp [VulkanBuffer.free, hb, liveAfter]

/-- Regular sequences keep the invariant. -/
theorem World.Owned.run_regular (env : Env) (ops : List BufferOp) (w : World) (hw : w.Owned)
    (hops : World.RegularRun env w ops) : (w.run env ops).Owned := by
  induction ops generalizing w with
  | nil => exact hw
  | cons op ops ih =>
    exact ih (w.step env op) (World.Owned.step_regular env w op hw hops.1) hops.2

/-- From a start with nothing allocated and every buffer unbound, every sequence of operations
that attempts no double bind keeps each live block the region of exactly one buffer; the
allocator may fail at any binding call. -/
theorem World.run_regular_owned (env : Env) (buffers : List VulkanBuffer) (ops : List BufferOp)
    (hunbound : ∀ b ∈ buffers, b.m_memoryRegion.size = 0)
    (hops : World.RegularRun env { buffers := buffers, trace := [] } ops) :
    ∀ block ∈ liveBlocks (World.run env { buffers := buffers, trace := [] } ops).trace,
      (World.run env { buffers := buffers, trace := [] } ops).owners block = 1 := by
  have hstart : World.Owned { buffers := buffers, trace := [] } := by
    refine ⟨List.nodup_nil, ?_, ?_⟩
    · intro block hblock
      simp [liveBlocks] at hblock
    · intro b hb hsize
      have := hunbound b hb
      omega
  intro block hblock
  exact ((World.Owned.run_regular env ops _ hstart hops).2.1 block hblock).2

/-- C3, the code at the failing input: one unbound buffer, `allocateFromIndex(0)` twice, the
allocator returning a fresh 64-byte block each time.  The second call obtains its block from
the allocator before `setBoundMemory` throws, so afterwards two blocks are handed out and not
deallocated, the buffer still owns the first, and the second is the region of no buffer. -/
theorem World.rejected_double_bind_leaks_block :
    liveBlocks (World.run sampleEnv { buffers := [freshBuffer], trace := [] }
        [.allocateFromIndex 0 0 (.ok { size := 64, offset := 0, chunk := 0 }),
         .allocateFromIndex 0 0 (.ok { size := 64, offset := 64, chunk := 0 })]).trace
      = [{ size := 64, offset := 0, chunk := 0 }, { size := 64, offset := 64, chunk := 0 }] ∧
    (World.run sampleEnv { buffers := [freshBuffer], trace := [] }
        [.allocateFromIndex 0 0 (.ok { size := 64, offset := 0, chunk := 0 }),
         .allocateFromIndex 0 0 (.ok { size := 64, offset := 64, chunk := 0 })]).owners
      { size := 64, offset := 0, chunk := 0 } = 1 ∧
    (World.run sampleEnv { buffers := [freshBuffer], trace := [] }
        [.allocateFromIndex 0 0 (.ok { size := 64, offset := 0, chunk := 0 }),
         .allocateFromIndex 0 0 (.ok { size := 64, offset := 64, chunk := 0 })]).owners
      { size := 64, offset := 64, chunk := 0 } = 0 := by
  refine ⟨?_, ?_, ?_⟩ <;> decide

/-! ### C4: double free -/

/-- C4 as stated fails: a second `free` returns normally, both for a buffer that was bound
before its first free and for one that was not. -/
theorem VulkanBuffer.second_free_returns :
    (VulkanBuffer.freeTwice sampleEnv boundBuffer (.ok ()) (.ok ())).1.returned = true ∧
    (VulkanBuffer.freeTwice sampleEnv boundBuffer (.ok ()) (.ok ())).2.returned = true ∧
    (VulkanBuffer.freeTwice sampleEnv freshBuffer (.ok ()) (.ok ())).1.returned = true ∧
    (VulkanBuffer.freeTwice sampleEnv freshBuffer (.ok ()) (.ok ())).2.returned = true :=
  ⟨rfl, rfl, rfl, rfl⟩

/-- C4 (amended): `VulkanBuffer::free` has no freed state to check.  For every buffer, bound or
not, whose first `free` returned, a second `free` returns normally as well: it passes the null
handle to `vkDestroyBuffer`, makes no `deallocate` call and leaves the buffer as it was. -/
theorem VulkanBuffer.second_free_is_accepted (env : Env) (b : VulkanBuffer)
    (deallocated1 deallocated2 : Except String Unit)
    (h : (VulkanBuffer.freeTwice env b deallocated1 deallocated2).1.returned = true) :
    (VulkanBuffer.freeTwice env b deallocated1 deallocated2).2.returned = true ∧
    (VulkanBuffer.freeTwice env b deallocated1 deallocated2).2.trace
      = [Call.vkDestroyBuffer env.device.m_vkHandle VK_NULL_HANDLE] ∧
    (VulkanBuffer.freeTwice env b deallocated1 deallocated2).2.self
      = (VulkanBuffer.freeTwice env b deallocated1 deallocated2).1.self := by
  by_cases hb : 0 < b.m_memoryRegion.size
  · have hne : b.m_memoryRegion.size ≠ 0 := by omega
    cases deallocated1 with
    | error e => simp [VulkanBuffer.freeTwice, VulkanBuffer.free, hb, Outcome.returned] at h
    | ok u => simp [VulkanBuffer.freeTwice, VulkanBuffer.free, hb, hne, Outcome.returned]
  · have hz : b.m_memoryRegion.size = 0 := by omega
    simp [VulkanBuffer.freeTwice, VulkanBuffer.free, hz, Outcome.returned]

/-- C4 (amended), at a concrete input: the bound sample buffer, freed twice. -/
theorem VulkanBuffer.second_free_is_accepted_witness :
    (VulkanBuffer.freeTwice sampleEnv boundBuffer (.ok ()) (.ok ())).1.returned = true ∧
    (VulkanBuffer.freeTwice sampleEnv boundBuffer (.ok ()) (.ok ())).2.trace
      = [Call.vkDestroyBuffer 1 VK_NULL_HANDLE] :=
  ⟨rfl, (VulkanBuffer.second_free_is_accepted sampleEnv boundBuffer (.ok ()) (.ok ()) rfl).2.1⟩

/-! ### C6 and C7: map and unmap -/

/-- C6 as stated fails: `map(16, 0)` on a buffer with no bound memory, on a freed buffer and on
a buffer that is already mapped returns normally and reaches the driver's map primitive. -/
theorem VulkanBuffer.map_reaches_driver_in_every_state :
    (VulkanBuffer.map sampleEnv freshBuffer 16 0 4096).returned = true ∧
    (VulkanBuffer.map sampleEnv freshBuffer 16 0 4096).trace
      = [Call.vkMapMemory 1 100 0 16 0] ∧
    (VulkanBuffer.map sampleEnv (VulkanBuffer.free sampleEnv boundBuffer (.ok ())).self
        16 0 4096).trace = [Call.vkMapMemory 1 100 0 16 0] ∧
    (VulkanBuffer.map sampleEnv (VulkanBuffer.map sampleEnv boundBuffer 16 0 4096).self
        16 0 8192).trace = [Call.vkMapMemory 1 102 128 16 0] := by
  refine ⟨rfl, ?_, ?_, ?_⟩ <;> decide

/-- C6 (amended): `VulkanBuffer::map` checks no state.  On every buffer (unbound, bound, mapped
or freed) `map(size, offset)` returns normally after exactly one call of the driver's map
primitive, for the memory handle of the region's chunk, at the region's offset plus `offset`
(in 64-bit arithmetic) and with the given size; it stores and returns the pointer the driver
left. -/
theorem VulkanBuffer.map_is_unguarded (env : Env) (b : VulkanBuffer) (size offset data : Nat) :
    (VulkanBuffer.map env b size offset data).result = .ok data ∧
    (VulkanBuffer.map env b size offset data).trace
      = [Call.vkMapMemory env.device.m_vkHandle (env.getMemoryHandle b.m_memoryRegion.chunk)
          ((b.m_memoryRegion.offset + offset) % 2 ^ 64) size 0] ∧
    (VulkanBuffer.map env b size offset data).self = { b with m_mappedData := data } :=
  ⟨rfl, rfl, rfl⟩

/-- C7 as stated fails: on the bound sample buffer, when the driver leaves the null pointer,
`map(16, 0)` returns and `isMemoryMapped()` is false. -/
theorem VulkanBuffer.map_null_pointer_not_mapped :
    0 < boundBuffer.m_memoryRegion.size ∧
    (VulkanBuffer.mapThenUnmap sampleEnv boundBuffer 16 0 nullptr).1.returned = true ∧
    VulkanBuffer.isMemoryMapped
      (VulkanBuffer.mapThenUnmap sampleEnv boundBuffer 16 0 nullptr).1.self = false := by
  refine ⟨?_, rfl, ?_⟩ <;> decide

/-- C7 (amended): `isMemoryMapped()` tracks the stored pointer.  For every buffer, size, offset
and pointer `data` left by the driver: `map(size, offset)` returns `data`, `getMappedData()`
equals it, and `isMemoryMapped()` is true exactly when `data` is not null; after the following
`unmap()`, `isMemoryMapped()` is false and `getMappedData()` is null. -/
theorem VulkanBuffer.mapped_flag_tracks_pointer (env : Env) (b : VulkanBuffer)
    (size offset data : Nat) :
    (VulkanBuffer.mapThenUnmap env b size offset data).1.result = .ok data ∧
    VulkanBuffer.getMappedData (VulkanBuffer.mapThenUnmap env b size offset data).1.self
      = data ∧
    (VulkanBuffer.isMemoryMapped (VulkanBuffer.mapThenUnmap env b size offset data).1.self = true
      ↔ data ≠ nullptr) ∧
    (VulkanBuffer.mapThenUnmap env b size offset data).2.returned = true ∧
    VulkanBuffer.isMemoryMapped (VulkanBuffer.mapThenUnmap env b size offset data).2.self
      = false ∧
    VulkanBuffer.getMappedData (VulkanBuffer.mapThenUnmap env b size offset data).2.self
      = nullptr := by
  refine ⟨rfl, rfl, ?_, rfl, ?_, rfl⟩
  · simp [VulkanBuffer.mapThenUnmap, VulkanBuffer.map, VulkanBuffer.isMemoryMapped]
  · simp [VulkanBuffer.mapThenUnmap, VulkanBuffer.unmap, VulkanBuffer.isMemoryMapped]

/-! ### C9: allocateFromIndex -/

/-- C9: for every unbound buffer, every memory-type index `i` and every block the allocator
returns, `allocateFromIndex(i)` queries the driver for the buffer's requirements, asks the
allocator for exactly the reported size and alignment with memory type `i`, stores the
returned block unchanged as the memory region, binds the buffer through the driver to the
memory handle of the block's chunk at the block's offset, and returns. -/
theorem VulkanBuffer.allocateFromIndex_binds_returned_block (env : Env) (b : VulkanBuffer)
    (i : Nat) (block : MemoryBlock) (h : b.m_memoryRegion.size = 0) :
    (VulkanBuffer.allocateFromIndex env b i (.ok block)).returned = true ∧
    (VulkanBuffer.allocateFromIndex env b i (.ok block)).trace
      = [Call.vkGetBufferMemoryRequirements env.device.m_vkHandle b.m_vkHandle,
         Call.allocate (env.memoryRequirements b.m_vkHandle).size
           (env.memoryRequirements b.m_vkHandle).alignment i (some block),
         Call.vkBindBufferMemory env.device.m_vkHandle b.m_vkHandle
           (env.getMemoryHandle block.chunk) block.offset] ∧
    (VulkanBuffer.allocateFromIndex env b i (.ok block)).self
      = { b with m_memoryRegion := block } := by
  simp [VulkanBuffer.allocateFromIndex, VulkanBuffer.setBoundMemory_unbound env b block h,
    VulkanBuffer.getMemoryRequirements, Outcome.returned, Except.toOption]

/-- C9 at a concrete input: the unbound sample buffer, memory type 3, a 64-byte block of chunk 2
at offset 128. -/
theorem VulkanBuffer.allocateFromIndex_binds_returned_block_witness :
    freshBuffer.m_memoryRegion.size = 0 ∧
    (VulkanBuffer.allocateFromIndex sampleEnv freshBuffer 3
        (.ok { size := 64, offset := 128, chunk := 2 })).trace
      = [Call.vkGetBufferMemoryRequirements 1 7,
         Call.allocate 64 16 3 (some { size := 64, offset := 128, chunk := 2 }),
         Call.vkBindBufferMemory 1 7 102 128] :=
  ⟨rfl, (VulkanBuffer.allocateFromIndex_binds_returned_block sampleEnv freshBuffer 3
      { size := 64, offset := 128, chunk := 2 } rfl).2.1⟩

/-! ### C5: ID counters -/

section RegistryLemmas

variable {α κ φ : Type} (new : Nat → κ → α × Nat) (free : φ → α → α) (getID : α → Nat)

theorem Registry.step_free_counter (r : Registry α) (index : Nat) (how : φ) :
    (Registry.step new free r (.free index how)).s_idCounter = r.s_idCounter := by
  simp only [Registry.step]
  split <;> rfl

theorem Registry.step_inOrder
    (hid : ∀ c a, getID (new c a).1 = c) (hnext : ∀ c a, (new c a).2 = (c + 1) % idModulus)
    (hfree : ∀ h a, getID (free h a) = getID a)
    (r : Registry α) (op : RegistryOp κ φ) (hr : r.InOrder getID) :
    (Registry.step new free r op).InOrder getID := by
  obtain ⟨hc, hk⟩ := hr
  cases op with
  | construct args =>
    refine ⟨?_, ?_⟩
    · simp [Registry.step, hnext, hc, Nat.add_mod]
    · intro k obj hget
      simp only [Registry.step] at hget
      by_cases hlt : k < r.constructed.length
      · rw [List.getElem?_append_left hlt] at hget
        exact hk k obj hget
      · have hge : r.constructed.length ≤ k := by omega
        rw [List.getElem?_append_right hge] at hget
        by_cases hz : k - r.constructed.length = 0
        · rw [hz] at hget
          simp at hget
          rw [← hget, hid, hc]
          have : k = r.constructed.length := by omega
          rw [this]
        · obtain ⟨m, hm⟩ := Nat.exists_eq_succ_of_ne_zero hz
          rw [hm] at hget
          simp at hget
  | free index how =>
    simp only [Registry.step]
    cases hidx : r.constructed[index]? with
    | none => exact ⟨hc, hk⟩
    | some a =>
      refine ⟨?_, ?_⟩
      · simpa using hc
      · intro k obj hget
        simp only [] at hget
        by_cases hik : index = k
        · subst hik
          have hlt : index < r.constructed.length := by
            by_contra hcon
            rw [List.getElem?_eq_none (by omega)] at hidx
            cases hidx
          rw [List.getElem?_set_self hlt] at hget
          simp at hget
          rw [← hget, hfree]
          exact hk index a hidx
        · rw [List.getElem?_set_ne hik] at hget
          exact hk k obj hget

theorem Registry.foldl_inOrder
    (hid : ∀ c a, getID (new c a).1 = c) (hnext : ∀ c a, (new c a).2 = (c + 1) % idModulus)
    (hfree : ∀ h a, getID (free h a) = getID a)
    (ops : List (RegistryOp κ φ)) (r : Registry α) (hr : r.InOrder getID) :
    (ops.foldl (Registry.step new free) r).InOrder getID := by
  induction ops generalizing r with
  | nil => exact hr
  | cons op ops ih => exact ih _ (Registry.step_inOrder new free getID hid hnext hfree r op hr)

theorem Registry.run_inOrder
    (hid : ∀ c a, getID (new c a).1 = c) (hnext : ∀ c a, (new c a).2 = (c + 1) % idModulus)
    (hfree : ∀ h a, getID (free h a) = getID a)
    (ops : List (RegistryOp κ φ)) : (Registry.run new free ops).InOrder getID :=
  Registry.foldl_inOrder new free getID hid hnext hfree ops {} ⟨rfl, by simp⟩

theorem Registry.InOrder.nodup (r : Registry α) (hr : r.InOrder getID)
    (hlen : r.constructed.length ≤ idModulus) : (r.constructed.map getID).Nodup := by
  have heq : r.constructed.map getID = List.range r.constructed.length := by
    apply List.ext_getElem?
    intro k
    by_cases hlt : k < r.constructed.length
    · have h1 : r.constructed[k]? = some r.constructed[k] := List.getElem?_eq_getElem hlt
      rw [List.getElem?_map, h1, List.getElem?_range hlt]
      simp only [Option.map_some']
      rw [hr.2 k _ h1, Nat.mod_eq_of_lt (by omega)]
    · have hge : r.constructed.length ≤ k := by omega
      rw [List.getElem?_eq_none (by simpa using hge), List.getElem?_eq_none (by simpa using hge)]
  rw [heq]
  exact List.nodup_range _

theorem Registry.foldl_replicate_construct_length (args : κ) (n : Nat) (r : Registry α) :
    ((List.replicate n (RegistryOp.construct args : RegistryOp κ φ)).foldl
      (Registry.step new free) r).constructed.length = r.constructed.length + n := by
  induction n generalizing r with
  | zero => rfl
  | succ n ih =>
    rw [List.replicate_succ, List.foldl_cons, ih]
    simp [Registry.step]
    omega

theorem Registry.InOrder.id_at (r : Registry α) (hr : r.InOrder getID) (k : Nat)
    (hk : k < r.constructed.length) :
    (r.constructed[k]?).map getID = some (k % idModulus) := by
  have h1 : r.constructed[k]? = some r.constructed[k] := List.getElem?_eq_getElem hk
  rw [h1, Option.map_some', hr.2 k _ h1]

theorem Registry.replicate_construct_id
    (hid : ∀ c a, getID (new c a).1 = c) (hnext : ∀ c a, (new c a).2 = (c + 1) % idModulus)
    (hfree : ∀ h a, getID (free h a) = getID a) (args : κ) (n k : Nat) (hk : k < n) :
    ((Registry.run new free
        (List.replicate n (RegistryOp.construct args : RegistryOp κ φ))).constructed[k]?).map
      getID = some (k % idModulus) := by
  apply Registry.InOrder.id_at getID _
    (Registry.run_inOrder new free getID hid hnext hfree _)
  unfold Registry.run
  rw [Registry.foldl_replicate_construct_length]
  exact Nat.lt_of_lt_of_le hk (Nat.le_add_left _ _)

theorem Registry.issuesIdsInOrder_of
    (hid : ∀ c a, getID (new c a).1 = c) (hnext : ∀ c a, (new c a).2 = (c + 1) % idModulus)
    (hfree : ∀ h a, getID (free h a) = getID a) :
    Registry.IssuesIdsInOrder new free getID := by
  refine ⟨?_, ?_, ?_, ?_⟩
  · intro ops k obj hget
    exact (Registry.run_inOrder new free getID hid hnext hfree ops).2 k obj hget
  · intro ops k obj hk hget
    rw [(Registry.run_inOrder new free getID hid hnext hfree ops).2 k obj hget]
    exact Nat.mod_eq_of_lt hk
  · intro r index how
    exact Registry.step_free_counter new free r index how
  · intro ops hlen
    exact Registry.InOrder.nodup getID _
      (Registry.run_inOrder new free getID hid hnext hfree ops) hlen

end RegistryLemmas

theorem VulkanBuffer.release_id (how : Env × Except String Unit) (b : VulkanBuffer) :
    (VulkanBuffer.release how b).getID = b.getID := by
  obtain ⟨env, deallocated⟩ := how
  by_cases hb : 0 < b.m_memoryRegion.size
  · cases deallocated <;>
      simp [VulkanBuffer.release, VulkanBuffer.free, VulkanBuffer.getID, hb]
  · simp [VulkanBuffer.release, VulkanBuffer.free, VulkanBuffer.getID, hb]

/-- C5 as stated fails: the ID counter is a `uint32_t`.  Of `2^32 + 1` buffers constructed in a
row, the first and the last both receive the ID 0, where the claim gives the last one the ID
`2^32` and no ID twice. -/
theorem runBuffers_issues_id_zero_twice :
    ((runBuffers (List.replicate (2 ^ 32 + 1) (.construct (7, 64)))).constructed[0]?).map
      VulkanBuffer.getID = some 0 ∧
    ((runBuffers (List.replicate (2 ^ 32 + 1) (.construct (7, 64)))).constructed[2 ^ 32]?).map
      VulkanBuffer.getID = some 0 := by
  constructor
  · exact Registry.replicate_construct_id VulkanBuffer.construct VulkanBuffer.release
      VulkanBuffer.getID (fun _ _ => rfl) (fun _ _ => rfl) VulkanBuffer.release_id
      (7, 64) (2 ^ 32 + 1) 0 (Nat.succ_pos _)
  · exact (Registry.replicate_construct_id VulkanBuffer.construct VulkanBuffer.release
      VulkanBuffer.getID (fun _ _ => rfl) (fun _ _ => rfl) VulkanBuffer.release_id
      (7, 64) (2 ^ 32 + 1) (2 ^ 32) (Nat.lt_succ_self _)).trans
      (congrArg some (Nat.mod_self (2 ^ 32)))

/-- C5 (amended): for buffers, fences and command buffers alike, over every sequence of
constructions with the device-taking constructor interleaved with frees: the `n`-th object
constructed receives the ID `(n - 1) mod 2^32`, which is `n - 1` for the first `2^32` objects;
a free never changes the counter; and no two of the first `2^32` objects constructed receive
the same ID, also after earlier ones were freed. -/
theorem ids_issued_in_construction_order :
    Registry.IssuesIdsInOrder VulkanBuffer.construct VulkanBuffer.release VulkanBuffer.getID ∧
    Registry.IssuesIdsInOrder VulkanFence.construct VulkanFence.release VulkanFence.getID ∧
    Registry.IssuesIdsInOrder VulkanCommandBuffer.construct VulkanCommandBuffer.release
      VulkanCommandBuffer.getID :=
  ⟨Registry.issuesIdsInOrder_of _ _ _ (fun _ _ => rfl) (fun _ _ => rfl)
      VulkanBuffer.release_id,
   Registry.issuesIdsInOrder_of _ _ _ (fun _ _ => rfl) (fun _ _ => rfl) (fun _ _ => rfl),
   Registry.issuesIdsInOrder_of _ _ _ (fun _ _ => rfl) (fun _ _ => rfl) (fun _ _ => rfl)⟩

/-- C5 (amended), at a concrete input: two buffers constructed, the first one freed, a third
one constructed; the third receives the ID 2 and the three IDs differ. -/
theorem ids_issued_in_construction_order_witness :
    (runBuffers [.construct (7, 64), .construct (8, 64), .free 0 (sampleEnv, .ok ()),
        .construct (9, 64)]).constructed[2]?
      = some { m_id := 2, m_size := 64, m_vkHandle := 9 } ∧
    VulkanBuffer.getID { m_id := 2, m_size := 64, m_vkHandle := 9 } = 2 ∧
    ((runBuffers [.construct (7, 64), .construct (8, 64), .free 0 (sampleEnv, .ok ()),
        .construct (9, 64)]).constructed.map VulkanBuffer.getID).Nodup :=
  ⟨rfl,
   ids_issued_in_construction_order.1.2.1
     [.construct (7, 64), .construct (8, 64), .free 0 (sampleEnv, .ok ()), .construct (9, 64)]
     2 { m_id := 2, m_size := 64, m_vkHandle := 9 } (by norm_num) rfl,
   ids_issued_in_construction_order.1.2.2.2
     [.construct (7, 64), .construct (8, 64), .free 0 (sampleEnv, .ok ()), .construct (9, 64)]
     (by simp [Registry.run, Registry.step])⟩

/-! ### C8: recording guard of the `cmd*` methods -/

theorem VulkanCommandBuffer.whenRecording_not_recording (c : VulkanCommandBuffer) (call : Call)
    (h : c.m_isRecording = false) :
    VulkanCommandBuffer.whenRecording c call =
      { self := c, trace := [], result := .error notRecordingMessage } := by
  simp [VulkanCommandBuffer.whenRecording, h]

/-- The twelve guarded recording methods: on a command buffer that is not recording, each throws
"Command buffer is not recording", issues no driver command and leaves the object as it was. -/
theorem VulkanCommandBuffer.guarded_methods_reject (c : VulkanCommandBuffer) (m : CmdMethod)
    (hc : c.m_isRecording = false) (hm : m.isRenderPassBracket = false) :
    (c.record m).thrown = some notRecordingMessage ∧ (c.record m).trace = [] ∧
    (c.record m).self = c := by
  cases m <;>
    first
    | (simp [CmdMethod.isRenderPassBracket] at hm; done)
    | simp [VulkanCommandBuffer.record, VulkanCommandBuffer.cmdBindPipeline,
        VulkanCommandBuffer.cmdNextSubpass, VulkanCommandBuffer.cmdPipelineBarrier,
        VulkanCommandBuffer.cmdBindVertexBuffer, VulkanCommandBuffer.cmdBindVertexBuffers,
        VulkanCommandBuffer.cmdBindIndexBuffer, VulkanCommandBuffer.cmdCopyBuffer,
        VulkanCommandBuffer.cmdPushConstant, VulkanCommandBuffer.cmdSetViewport,
        VulkanCommandBuffer.cmdSetScissor, VulkanCommandBuffer.cmdDraw,
        VulkanCommandBuffer.cmdDrawIndexed,
        VulkanCommandBuffer.whenRecording_not_recording c _ hc, Outcome.thrown]

/-- C8, the code at the failing input: on a command buffer with handle 5 that is not
recording, `cmdEndRenderPass()` and `cmdBeginRenderPass(...)` do not throw; each returns
normally after issuing its driver command. -/
theorem VulkanCommandBuffer.render_pass_methods_skip_guard :
    (VulkanCommandBuffer.record { m_vkHandle := 5, m_isRecording := false }
        .cmdEndRenderPass).returned = true ∧
    (VulkanCommandBuffer.record { m_vkHandle := 5, m_isRecording := false }
        .cmdEndRenderPass).trace = [Call.vkCmdEndRenderPass 5] ∧
    (VulkanCommandBuffer.record { m_vkHandle := 5, m_isRecording := false }
        (.cmdBeginRenderPass { m_vkHandle := 9 } 11 { width := 800, height := 600 } [])).returned
      = true ∧
    (VulkanCommandBuffer.record { m_vkHandle := 5, m_isRecording := false }
        (.cmdBeginRenderPass { m_vkHandle := 9 } 11 { width := 800, height := 600 } [])).trace
      = [Call.vkCmdBeginRenderPass 5
          { renderPass := 9, framebuffer := 11
            renderArea := { offset := { x := 0, y := 0 }
                            extent := { width := 800, height := 600 } }
            clearValueCount := 0, pClearValues := [] } VK_SUBPASS_CONTENTS_INLINE] := by
  refine ⟨rfl, ?_, rfl, ?_⟩ <;> decide

/-! ### C10: instance and device creation -/

/-- C10: the `VulkanContext` constructor calls the driver's instance creation once and throws
"Failed to create Vulkan instance" if and only if the driver's result is not `VK_SUCCESS`;
`createDevice` calls the driver's device creation once and throws
"Failed to create logical device" if and only if the driver's result is not `VK_SUCCESS`; when
`createDevice` throws, the context, its stored device included, is unchanged. -/
theorem VulkanContext.creation_fails_iff_driver_fails
    (vulkanApiVersion : Nat) (enableValidationLayers : Bool) (extensions : List String)
    (createdInstance : Int × Nat) (makeDevice : VulkanGPU → Nat → VulkanDevice)
    (ctx : VulkanContext) (gpu : VulkanGPU) (queues : QueueFamilySelector)
    (deviceExtensions : List String) (features : Nat) (createdDevice : Int × Nat) :
    ((VulkanContext.new vulkanApiVersion enableValidationLayers extensions
        createdInstance).thrown = some instanceFailedMessage ↔ createdInstance.1 ≠ VK_SUCCESS) ∧
    ((VulkanContext.new vulkanApiVersion enableValidationLayers extensions
        createdInstance).returned = true ↔ createdInstance.1 = VK_SUCCESS) ∧
    (VulkanContext.new vulkanApiVersion enableValidationLayers extensions
        createdInstance).trace
      = [Call.vkCreateInstance
          (VulkanContext.instanceCreateInfo vulkanApiVersion enableValidationLayers
            extensions)] ∧
    ((VulkanContext.createDevice makeDevice ctx gpu queues deviceExtensions features
        createdDevice).thrown = some deviceFailedMessage ↔ createdDevice.1 ≠ VK_SUCCESS) ∧
    ((VulkanContext.createDevice makeDevice ctx gpu queues deviceExtensions features
        createdDevice).returned = true ↔ createdDevice.1 = VK_SUCCESS) ∧
    (VulkanContext.createDevice makeDevice ctx gpu queues deviceExtensions features
        createdDevice).trace
      = [Call.vkCreateDevice gpu.m_vkHandle
          (VulkanContext.deviceCreateInfo ctx queues deviceExtensions features)] ∧
    (createdDevice.1 ≠ VK_SUCCESS →
      (VulkanContext.createDevice makeDevice ctx gpu queues deviceExtensions features
        createdDevice).self = ctx ∧
      (VulkanContext.createDevice makeDevice ctx gpu queues deviceExtensions features
        createdDevice).self.getDevice = ctx.getDevice) := by
  by_cases hi : createdInstance.1 = VK_SUCCESS <;> by_cases hd : createdDevice.1 = VK_SUCCESS <;>
    simp [VulkanContext.new, VulkanContext.createDevice, Outcome.thrown, Outcome.returned, hi, hd]

/-- C10 at a concrete input: the driver answers device creation with result -3; the call throws
and the context still holds the device it held. -/
theorem VulkanContext.creation_fails_iff_driver_fails_witness :
    ((-3 : Int), (0 : Nat)).1 ≠ VK_SUCCESS ∧
    (VulkanContext.createDevice (fun gpu device => { m_vkHandle := device
                                                     m_physicalDevice := gpu.m_vkHandle })
        { m_vkHandle := 3, m_device := { m_vkHandle := 21, m_physicalDevice := 4 } }
        { m_vkHandle := 4 }
        { getUniqueIndices := [0], m_selections := fun _ => { priorities := [1] }
          PROTECTED := 16 }
        [] 0 (-3, 0)).self
      = { m_vkHandle := 3, m_device := { m_vkHandle := 21, m_physicalDevice := 4 } } :=
  ⟨by decide,
   ((VulkanContext.creation_fails_iff_driver_fails 0 false [] (0, 1)
      (fun gpu device => { m_vkHandle := device, m_physicalDevice := gpu.m_vkHandle })
      { m_vkHandle := 3, m_device := { m_vkHandle := 21, m_physicalDevice := 4 } }
      { m_vkHandle := 4 }
      { getUniqueIndices := [0], m_selections := fun _ => { priorities := [1] }
        PROTECTED := 16 }
      [] 0 (-3, 0)).2.2.2.2.2.2 (by decide)).1⟩

/-! ### C11, C12, C13: the chunk suballocator and the growth of the allocator -/

theorem le_alignUp (start alignment : Nat) : start ≤ alignUp start alignment := by
  unfold alignUp
  omega

theorem alignUp_mod (start alignment : Nat) (h : 0 < alignment) :
    alignUp start alignment % alignment = 0 := by
  unfold alignUp
  have hlt : start % alignment < alignment := Nat.mod_lt _ h
  by_cases hz : start % alignment = 0
  · rw [hz, Nat.sub_zero, Nat.mod_self, Nat.add_zero]
    exact hz
  · have hsmall : alignment - start % alignment < alignment := by omega
    rw [Nat.mod_eq_of_lt hsmall]
    have hdecomp := Nat.div_add_mod start alignment
    have : start + (alignment - start % alignment)
        = alignment * (start / alignment + 1) := by
      rw [Nat.mul_add, Nat.mul_one]
      omega
    rw [this]
    exact Nat.mul_mod_right _ _

theorem alignUp_least (start alignment offset : Nat) (h : 0 < alignment)
    (hge : start ≤ offset) (hmod : offset % alignment = 0) :
    alignUp start alignment ≤ offset := by
  unfold alignUp
  have hlt : start % alignment < alignment := Nat.mod_lt _ h
  by_cases hz : start % alignment = 0
  · rw [hz, Nat.sub_zero, Nat.mod_self, Nat.add_zero]
    exact hge
  · have hsmall : alignment - start % alignment < alignment := by omega
    rw [Nat.mod_eq_of_lt hsmall]
    have h1 := Nat.div_add_mod start alignment
    have h2 := Nat.div_add_mod offset alignment
    rw [hmod, Nat.add_zero] at h2
    have hq : start / alignment < offset / alignment := by
      by_contra hcon
      have hle : offset / alignment ≤ start / alignment := by omega
      have := Nat.mul_le_mul_left alignment hle
      omega
    have := Nat.mul_le_mul_left alignment (Nat.succ_le_of_lt hq)
    rw [Nat.mul_succ] at this
    omega

theorem totalLength_cons (run : Nat × Nat) (runs : List (Nat × Nat)) :
    totalLength (run :: runs) = run.2 + totalLength runs := by
  simp [totalLength]

theorem totalLength_append (l1 l2 : List (Nat × Nat)) :
    totalLength (l1 ++ l2) = totalLength l1 + totalLength l2 := by
  simp [totalLength]

theorem totalLength_residualRuns (start length offset requestedSize : Nat)
    (h1 : start ≤ offset) (h2 : offset + requestedSize ≤ start + length) :
    totalLength (residualRuns start length offset requestedSize) + requestedSize = length := by
  unfold residualRuns
  by_cases ha : start < offset <;> by_cases hb : offset + requestedSize < start + length <;>
    simp [ha, hb, totalLength] <;> omega

theorem mem_residualRuns (start length offset requestedSize : Nat) (run : Nat × Nat)
    (h1 : start ≤ offset) (h2 : offset + requestedSize ≤ start + length)
    (hrun : run ∈ residualRuns start length offset requestedSize) :
    start ≤ run.1 ∧ run.1 + run.2 ≤ start + length ∧
    (run.1 + run.2 ≤ offset ∨ offset + requestedSize ≤ run.1) := by
  unfold residualRuns at hrun
  rcases List.mem_append.1 hrun with h | h
  · by_cases ha : start < offset
    · simp [ha] at h
      subst h
      simp
      omega
    · simp [ha] at h
  · by_cases hb : offset + requestedSize < start + length
    · simp [hb] at h
      subst h
      simp
      omega
    · simp [hb] at h

/-- What `carve` returns: the offset is the aligned start of a run of the list, the block fits
in that run, the total shrinks by the requested size, and every run left is part of a run there
was and shares no byte with the block. -/
theorem carve_spec (requestedSize alignment : Nat) (runs : List (Nat × Nat)) (offset : Nat)
    (left : List (Nat × Nat)) (hsorted : runs.Pairwise RunBefore)
    (h : carve requestedSize alignment runs = some (offset, left)) :
    (∃ run ∈ runs, offset = alignUp run.1 alignment ∧ offset + requestedSize ≤ run.1 + run.2) ∧
    totalLength left + requestedSize = totalLength runs ∧
    (∀ r ∈ left, ∃ run ∈ runs, run.1 ≤ r.1 ∧ r.1 + r.2 ≤ run.1 + run.2) ∧
    (∀ r ∈ left, Apart r (offset, requestedSize)) := by
  induction runs generalizing offset left with
  | nil => simp [carve] at h
  | cons run rest ih =>
    obtain ⟨start, length⟩ := run
    rw [List.pairwise_cons] at hsorted
    obtain ⟨hhead, hrest⟩ := hsorted
    unfold carve at h
    by_cases hfit : alignUp start alignment + requestedSize ≤ start + length
    · rw [if_pos hfit] at h
      simp only [Option.some.injEq, Prod.mk.injEq] at h
      obtain ⟨ho, hl⟩ := h
      subst ho
      subst hl
      have hle := le_alignUp start alignment
      refine ⟨⟨(start, length), List.mem_cons_self _ _, rfl, hfit⟩, ?_, ?_, ?_⟩
      · rw [totalLength_append, totalLength_cons]
        have := totalLength_residualRuns start length _ requestedSize hle hfit
        simp only
        omega
      · intro r hr
        rcases List.mem_append.1 hr with hr | hr
        · have := mem_residualRuns start length _ requestedSize r hle hfit hr
          exact ⟨(start, length), List.mem_cons_self _ _, this.1, this.2.1⟩
        · exact ⟨r, List.mem_cons_of_mem _ hr, Nat.le_refl _, Nat.le_refl _⟩
      · intro r hr
        rcases List.mem_append.1 hr with hr | hr
        · have := mem_residualRuns start length _ requestedSize r hle hfit hr
          unfold Apart
          simp only
          omega
        · have hb : start + length < r.1 := hhead r hr
          unfold Apart
          simp only
          omega
    · rw [if_neg hfit] at h
      cases hc : carve requestedSize alignment rest with
      | none => simp [hc] at h
      | some found =>
        obtain ⟨o, l⟩ := found
        simp only [hc, Option.some.injEq, Prod.mk.injEq] at h
        obtain ⟨ho, hl⟩ := h
        subst ho
        subst hl
        obtain ⟨⟨run, hrun, hoff, hfits⟩, htotal, hsub, hapart⟩ := ih o l hrest hc
        refine ⟨⟨run, List.mem_cons_of_mem _ hrun, hoff, hfits⟩, ?_, ?_, ?_⟩
        · rw [totalLength_cons, totalLength_cons]
          simp only
          omega
        · intro r hr
          rcases List.mem_cons.1 hr with hr | hr
          · subst hr
            exact ⟨(start, length), List.mem_cons_self _ _, Nat.le_refl _, Nat.le_refl _⟩
          · obtain ⟨run2, hrun2, h1, h2⟩ := hsub r hr
            exact ⟨run2, List.mem_cons_of_mem _ hrun2, h1, h2⟩
        · intro r hr
          rcases List.mem_cons.1 hr with hr | hr
          · subst hr
            have hb : start + length < run.1 := hhead run hrun
            have := le_alignUp run.1 alignment
            unfold Apart
            simp only
            omega
          · exact hapart r hr

/-- The free list stays in order with gaps when a block of non-zero size is carved out. -/
theorem carve_sorted (requestedSize alignment : Nat) (runs : List (Nat × Nat)) (offset : Nat)
    (left : List (Nat × Nat)) (hsorted : runs.Pairwise RunBefore) (hpos : 0 < requestedSize)
    (h : carve requestedSize alignment runs = some (offset, left)) :
    left.Pairwise RunBefore := by
  induction runs generalizing offset left with
  | nil => simp [carve] at h
  | cons run rest ih =>
    obtain ⟨start, length⟩ := run
    have hall := hsorted
    rw [List.pairwise_cons] at hsorted
    obtain ⟨hhead, hrest⟩ := hsorted
    unfold carve at h
    by_cases hfit : alignUp start alignment + requestedSize ≤ start + length
    · rw [if_pos hfit] at h
      simp only [Option.some.injEq, Prod.mk.injEq] at h
      obtain ⟨ho, hl⟩ := h
      subst ho
      subst hl
      have hle := le_alignUp start alignment
      rw [List.pairwise_append]
      refine ⟨?_, hrest, ?_⟩
      · unfold residualRuns
        by_cases ha : start < alignUp start alignment <;>
          by_cases hb : alignUp start alignment + requestedSize < start + length <;>
          simp [ha, hb, RunBefore]
        omega
      · intro a ha b hb
        have := mem_residualRuns start length _ requestedSize a hle hfit ha
        have hb2 : start + length < b.1 := hhead b hb
        unfold RunBefore
        omega
    · rw [if_neg hfit] at h
      cases hc : carve requestedSize alignment rest with
      | none => simp [hc] at h
      | some found =>
        obtain ⟨o, l⟩ := found
        simp only [hc, Option.some.injEq, Prod.mk.injEq] at h
        obtain ⟨ho, hl⟩ := h
        subst ho
        subst hl
        rw [List.pairwise_cons]
        refine ⟨?_, ih o l hrest hc⟩
        intro b hb
        obtain ⟨run2, hrun2, h1, _⟩ := (carve_spec requestedSize alignment rest o l hrest hc).2.2.1 b hb
        have hb2 : start + length < run2.1 := hhead run2 hrun2
        unfold RunBefore
        simp only
        omega

theorem releaseRun_total (offset size : Nat) (runs : List (Nat × Nat)) :
    totalLength (releaseRun offset size runs) = totalLength runs + size := by
  induction runs with
  | nil => simp [releaseRun, totalLength]
  | cons run rest ih =>
    obtain ⟨start, length⟩ := run
    unfold releaseRun
    by_cases h1 : offset < start
    · by_cases h2 : offset + size = start <;> simp [h1, h2, totalLength] <;> omega
    · by_cases h3 : start + length = offset
      · cases rest with
        | nil => simp [h1, h3, totalLength]
        | cons nextRun more =>
          obtain ⟨next, nextLength⟩ := nextRun
          by_cases h4 : offset + size = next <;> simp [h1, h3, h4, totalLength] <;> omega
      · simp only [if_neg h1, if_neg h3, totalLength_cons, ih]
        omega

/-- A property of ranges that survives the merge of two contiguous ranges holds of every run of
the list after a release, if it holds of the runs before and of the released range. -/
theorem releaseRun_forall (P : Nat × Nat → Prop) (offset size : Nat) (runs : List (Nat × Nat))
    (hmerge : ∀ a l1 l2, P (a, l1) → P (a + l1, l2) → P (a, l1 + l2))
    (hruns : ∀ r ∈ runs, P r) (hnew : P (offset, size)) :
    ∀ r ∈ releaseRun offset size runs, P r := by
  induction runs with
  | nil =>
    intro r hr
    simp [releaseRun] at hr
    subst hr
    exact hnew
  | cons run rest ih =>
    obtain ⟨start, length⟩ := run
    have hhead : P (start, length) := hruns _ (List.mem_cons_self _ _)
    have htail : ∀ r ∈ rest, P r := fun r hr => hruns r (List.mem_cons_of_mem _ hr)
    intro r hr
    unfold releaseRun at hr
    by_cases h1 : offset < start
    · rw [if_pos h1] at hr
      by_cases h2 : offset + size = start
      · rw [if_pos h2] at hr
        rcases List.mem_cons.1 hr with hr | hr
        · subst hr
          exact hmerge offset size length hnew (h2 ▸ hhead)
        · exact htail r hr
      · rw [if_neg h2] at hr
        rcases List.mem_cons.1 hr with hr | hr
        · subst hr
          exact hnew
        · exact hruns r hr
    · rw [if_neg h1] at hr
      by_cases h3 : start + length = offset
      · rw [if_pos h3] at hr
        have hjoin : P (start, length + size) := hmerge start length size hhead (h3 ▸ hnew)
        cases rest with
        | nil =>
          simp only [List.mem_singleton] at hr
          subst hr
          exact hjoin
        | cons nextRun more =>
          obtain ⟨next, nextLength⟩ := nextRun
          simp only at hr
          by_cases h4 : offset + size = next
          · rw [if_pos h4] at hr
            rcases List.mem_cons.1 hr with hr | hr
            · subst hr
              have hnext : P (start + (length + size), nextLength) := by
                have : start + (length + size) = next := by omega
                rw [this]
                exact htail _ (List.mem_cons_self _ _)
              exact hmerge start (length + size) nextLength hjoin hnext
            · exact htail r (List.mem_cons_of_mem _ hr)
          · rw [if_neg h4] at hr
            rcases List.mem_cons.1 hr with hr | hr
            · subst hr
              exact hjoin
            · exact htail r hr
      · rw [if_neg h3] at hr
        rcases List.mem_cons.1 hr with hr | hr
        · subst hr
          exact hhead
        · exact ih htail r hr

/-- The free list stays in order with gaps when a range of non-zero size that shares no byte
with any run is released into it. -/
theorem releaseRun_sorted (offset size : Nat) (runs : List (Nat × Nat))
    (hsorted : runs.Pairwise RunBefore) (hpos : 0 < size)
    (hapart : ∀ r ∈ runs, Apart r (offset, size)) :
    (releaseRun offset size runs).Pairwise RunBefore := by
  induction runs with
  | nil => simp [releaseRun]
  | cons run rest ih =>
    obtain ⟨start, length⟩ := run
    rw [List.pairwise_cons] at hsorted
    obtain ⟨hhead, hrest⟩ := hsorted
    have hrun : Apart (start, length) (offset, size) := hapart _ (List.mem_cons_self _ _)
    have htail : ∀ r ∈ rest, Apart r (offset, size) :=
      fun r hr => hapart r (List.mem_cons_of_mem _ hr)
    unfold Apart at hrun
    simp only at hrun
    unfold releaseRun
    by_cases h1 : offset < start
    · rw [if_pos h1]
      by_cases h2 : offset + size = start
      · rw [if_pos h2, List.pairwise_cons]
        refine ⟨?_, hrest⟩
        intro b hb
        have := hhead b hb
        unfold RunBefore at this ⊢
        simp only at this ⊢
        omega
      · rw [if_neg h2, List.pairwise_cons, List.pairwise_cons]
        refine ⟨?_, hhead, hrest⟩
        intro b hb
        rcases List.mem_cons.1 hb with hb | hb
        · subst hb
          unfold RunBefore
          simp only
          omega
        · have := hhead b hb
          unfold RunBefore at this ⊢
          simp only at this ⊢
          omega
    · rw [if_neg h1]
      by_cases h3 : start + length = offset
      · rw [if_pos h3]
        cases rest with
        | nil => simp
        | cons nextRun more =>
          obtain ⟨next, nextLength⟩ := nextRun
          simp only
          have hnext : start + length < next := hhead _ (List.mem_cons_self _ _)
          have hnextApart := htail _ (List.mem_cons_self _ _)
          unfold Apart at hnextApart
          simp only at hnextApart
          rw [List.pairwise_cons] at hrest
          obtain ⟨hnexthead, hmore⟩ := hrest
          by_cases h4 : offset + size = next
          · rw [if_pos h4, List.pairwise_cons]
            refine ⟨?_, hmore⟩
            intro b hb
            have := hnexthead b hb
            unfold RunBefore at this ⊢
            simp only at this ⊢
            omega
          · rw [if_neg h4, List.pairwise_cons, List.pairwise_cons]
            refine ⟨?_, hnexthead, hmore⟩
            intro b hb
            rcases List.mem_cons.1 hb with hb | hb
            · subst hb
              unfold RunBefore
              simp only
              omega
            · have := hnexthead b hb
              unfold RunBefore at this ⊢
              simp only at this ⊢
              omega
      · rw [if_neg h3, List.pairwise_cons]
        refine ⟨?_, ih hrest htail⟩
        apply releaseRun_forall (fun r => RunBefore (start, length) r) offset size rest
        · intro a l1 l2 ha _
          exact ha
        · exact hhead
        · unfold RunBefore
          simp only
          omega

theorem leasedSize_append (l1 l2 : List MemoryBlock) :
    leasedSize (l1 ++ l2) = leasedSize l1 + leasedSize l2 := by
  simp [leasedSize]

theorem leasedSize_erase (live : List MemoryBlock) (block : MemoryBlock) (h : block ∈ live) :
    leasedSize (live.erase block) + block.size = leasedSize live := by
  induction live with
  | nil => simp at h
  | cons b rest ih =>
    by_cases hb : b = block
    · subst hb
      simp [leasedSize]
      omega
    · have hmem : block ∈ rest := by
        rcases List.mem_cons.1 h with h | h
        · exact absurd h.symm hb
        · exact h
      have := ih hmem
      rw [List.erase_cons_tail (by simpa using hb)]
      simp only [leasedSize, List.map_cons, List.sum_cons] at this ⊢
      omega

theorem LeasedChunk.Tiled.of_fresh (chunkID size memoryType vkHandle : Nat) :
    (LeasedChunk.fresh chunkID size memoryType vkHandle).Tiled := by
  refine ⟨?_, ?_, ?_, ?_, ?_, ?_, ?_⟩ <;>
    simp [LeasedChunk.fresh, MemoryChunk.new, totalLength, leasedSize, largestLength]

theorem LeasedChunk.step_allocate_none (s : LeasedChunk) (newSize alignment : Nat)
    (hc : carve newSize alignment s.chunk.m_unallocatedData = none) :
    s.step (.allocate newSize alignment) = (.error outOfChunkSpaceMessage, s) := by
  simp [LeasedChunk.step, MemoryChunk.allocate, hc]

theorem LeasedChunk.step_allocate_some (s : LeasedChunk) (newSize alignment offset : Nat)
    (runs : List (Nat × Nat))
    (hc : carve newSize alignment s.chunk.m_unallocatedData = some (offset, runs)) :
    s.step (.allocate newSize alignment) =
      (.ok (some { size := newSize, offset := offset, chunk := s.chunk.m_chunkID }),
       { chunk := { s.chunk with m_unallocatedData := runs
                                 m_unallocatedSize := s.chunk.m_unallocatedSize - newSize
                                 m_biggestChunk := largestLength runs }
         live := s.live ++ [{ size := newSize, offset := offset, chunk := s.chunk.m_chunkID }] }) := by
  simp [LeasedChunk.step, MemoryChunk.allocate, hc]

theorem LeasedChunk.step_deallocate_leased (s : LeasedChunk) (block : MemoryBlock)
    (h : block ∈ s.live) :
    s.step (.deallocate block) =
      (.ok none, { chunk := s.chunk.deallocate block, live := s.live.erase block }) := by
  simp [LeasedChunk.step, h]

theorem LeasedChunk.step_deallocate_other (s : LeasedChunk) (block : MemoryBlock)
    (h : block ∉ s.live) :
    s.step (.deallocate block) = (.error notLeasedMessage, s) := by
  simp [LeasedChunk.step, h]

theorem LeasedChunk.Tiled.step_allocate (s : LeasedChunk) (newSize alignment : Nat) (hs : s.Tiled)
    (hpos : 0 < newSize) : (s.step (.allocate newSize alignment)).2.Tiled := by
  obtain ⟨h1, h2, h3, h4, h5, h6, h7⟩ := hs
  cases hc : carve newSize alignment s.chunk.m_unallocatedData with
  | none =>
    rw [LeasedChunk.step_allocate_none s newSize alignment hc]
    exact ⟨h1, h2, h3, h4, h5, h6, h7⟩
  | some found =>
    obtain ⟨offset, runs⟩ := found
    rw [LeasedChunk.step_allocate_some s newSize alignment offset runs hc]
    obtain ⟨⟨run, hrun, _, hfits⟩, htotal, hsub, hapart⟩ :=
      carve_spec newSize alignment _ offset runs h1 hc
    have hle : run.1 ≤ offset := by
      have := le_alignUp run.1 alignment
      omega
    refine ⟨carve_sorted newSize alignment _ offset runs h1 hpos hc, ?_, ?_, ?_, ?_, ?_, rfl⟩
    · intro r hr
      obtain ⟨r0, hr0, _, hend⟩ := hsub r hr
      have := h2 r0 hr0
      simp only
      omega
    · intro b hb
      rcases List.mem_append.1 hb with hb | hb
      · obtain ⟨hbpos, hbin, hbapart⟩ := h3 b hb
        refine ⟨hbpos, hbin, ?_⟩
        intro r hr
        obtain ⟨r0, hr0, hstart, hend⟩ := hsub r hr
        have := hbapart r0 hr0
        unfold Apart MemoryBlock.range at this ⊢
        simp only at this ⊢
        omega
      · simp only [List.mem_singleton] at hb
        subst hb
        have := h2 run hrun
        refine ⟨hpos, by simp only; omega, ?_⟩
        intro r hr
        exact hapart r hr
    · rw [List.pairwise_append]
      refine ⟨h4, List.pairwise_singleton _ _, ?_⟩
      intro a ha b hb
      simp only [List.mem_singleton] at hb
      subst hb
      have := (h3 a ha).2.2 run hrun
      unfold Apart MemoryBlock.range at this ⊢
      simp only at this ⊢
      omega
    · rw [leasedSize_append]
      simp only [leasedSize, List.map_cons, List.map_nil, List.sum_cons, List.sum_nil]
      simp only [leasedSize] at h5
      omega
    · simp only
      omega

theorem LeasedChunk.Tiled.step_deallocate (s : LeasedChunk) (block : MemoryBlock) (hs : s.Tiled) :
    (s.step (.deallocate block)).2.Tiled := by
  obtain ⟨h1, h2, h3, h4, h5, h6, h7⟩ := hs
  by_cases hmem : block ∈ s.live
  · rw [LeasedChunk.step_deallocate_leased s block hmem]
    obtain ⟨hbpos, hbin, hbapart⟩ := h3 block hmem
    have hnodup : s.live.Nodup := by
      apply List.Pairwise.imp_of_mem _ h4
      intro a b ha _ hab heq
      subst heq
      have := (h3 a ha).1
      unfold Apart MemoryBlock.range at hab
      simp only at hab
      omega
    have hsymm : Symmetric (fun a b : MemoryBlock => Apart a.range b.range) := by
      intro a b hab
      unfold Apart at hab ⊢
      omega
    refine ⟨releaseRun_sorted _ _ _ h1 hbpos hbapart, ?_, ?_, ?_, ?_, ?_, rfl⟩
    · apply releaseRun_forall (fun r => r.1 + r.2 ≤ s.chunk.m_size)
      · intro a l1 l2 _ hb
        simp only at hb ⊢
        omega
      · exact h2
      · exact hbin
    · intro b hb
      have hb2 := (List.Nodup.mem_erase_iff hnodup).1 hb
      obtain ⟨hpos2, hin2, hapart2⟩ := h3 b hb2.2
      refine ⟨hpos2, hin2, ?_⟩
      apply releaseRun_forall (fun r => Apart r b.range)
      · intro a l1 l2 ha hb3
        unfold Apart MemoryBlock.range at ha hb3 ⊢
        simp only at ha hb3 ⊢
        omega
      · exact hapart2
      · exact hsymm (h4.forall hsymm hb2.2 hmem hb2.1)
    · exact h4.sublist (List.erase_sublist _ _)
    · have := leasedSize_erase s.live block hmem
      simp only [MemoryChunk.deallocate]
      rw [releaseRun_total]
      omega
    · simp only [MemoryChunk.deallocate]
      rw [releaseRun_total]
      omega
  · rw [LeasedChunk.step_deallocate_other s block hmem]
    exact ⟨h1, h2, h3, h4, h5, h6, h7⟩

theorem LeasedChunk.Tiled.to_sound (s : LeasedChunk) (hs : s.Tiled) : s.FreeListSound := by
  obtain ⟨h1, _, _, _, h5, _, _⟩ := hs
  refine ⟨h5, h1.imp ?_, h1.imp ?_⟩
  · intro a b hab
    unfold RunBefore at hab
    unfold Apart
    omega
  · intro a b hab
    unfold RunBefore at hab
    omega

theorem LeasedChunk.Tiled.run_ops (ops : List ChunkOp) (s : LeasedChunk) (hs : s.Tiled)
    (hops : ops.all ChunkOp.requestsBytes = true) : (s.run ops).Tiled := by
  induction ops generalizing s with
  | nil => exact hs
  | cons op ops ih =>
    rw [List.all_cons, Bool.and_eq_true] at hops
    have hstep : (s.step op).2.Tiled := by
      cases op with
      | allocate newSize alignment =>
        exact LeasedChunk.Tiled.step_allocate s newSize alignment hs (by simpa [ChunkOp.requestsBytes] using hops.1)
      | deallocate block => exact LeasedChunk.Tiled.step_deallocate s block hs
    exact ih _ hstep hops.2

/-- C12 as stated fails: from a fresh chunk of 64 bytes, `allocate(8, 1)` followed by
`allocate(0, 16)` succeeds twice and leaves the free runs `(8, 8)` and `(16, 48)`: the first
ends at 16, exactly where the second begins.  The request of size 0 splits the run at the
aligned offset without consuming a byte between the padding and the trailing space. -/
theorem LeasedChunk.empty_request_leaves_adjacent_runs :
    ((LeasedChunk.fresh 0 64 0 0).run [.allocate 8 1, .allocate 0 16]).chunk.m_unallocatedData
      = [(8, 8), (16, 48)] ∧
    ((LeasedChunk.fresh 0 64 0 0).run [.allocate 8 1, .allocate 0 16]).live
      = [{ size := 8, offset := 0, chunk := 0 }, { size := 0, offset := 16, chunk := 0 }] ∧
    ¬ ((LeasedChunk.fresh 0 64 0 0).run [.allocate 8 1, .allocate 0 16]).FreeListSound := by
  have hruns : ((LeasedChunk.fresh 0 64 0 0).run
      [.allocate 8 1, .allocate 0 16]).chunk.m_unallocatedData = [(8, 8), (16, 48)] := by
    decide
  refine ⟨hruns, by decide, ?_⟩
  intro hsound
  have hadj := hsound.2.2
  rw [hruns] at hadj
  simp at hadj

/-- C12 (amended): from a fresh chunk, after every sequence of `allocate` and `deallocate` calls
in which every `allocate` asks for a non-zero size (failing calls included, a `deallocate` of a
block that is not leased being the fatal error that changes nothing): the free-run lengths and
the sizes of the live blocks add up to the chunk size, no two free runs overlap, and no free run
ends exactly where another begins. -/
theorem LeasedChunk.run_fresh_sound (chunkID size memoryType vkHandle : Nat) (ops : List ChunkOp)
    (hops : ops.all ChunkOp.requestsBytes = true) :
    ((LeasedChunk.fresh chunkID size memoryType vkHandle).run ops).FreeListSound :=
  LeasedChunk.Tiled.to_sound _
    (LeasedChunk.Tiled.run_ops ops _ (LeasedChunk.Tiled.of_fresh chunkID size memoryType vkHandle) hops)

/-- C12 (amended), at a concrete input: three blocks carved out of a chunk of 64 bytes, the
outer two given back, then the middle one after a refused double deallocation. -/
theorem LeasedChunk.run_fresh_sound_witness :
    [ChunkOp.allocate 8 1, .allocate 16 16, .allocate 8 8,
      .deallocate { size := 8, offset := 0, chunk := 0 },
      .deallocate { size := 8, offset := 8, chunk := 0 },
      .deallocate { size := 8, offset := 8, chunk := 0 },
      .deallocate { size := 16, offset := 16, chunk := 0 }].all ChunkOp.requestsBytes = true ∧
    ((LeasedChunk.fresh 0 64 0 0).run
      [.allocate 8 1, .allocate 16 16, .allocate 8 8,
        .deallocate { size := 8, offset := 0, chunk := 0 },
        .deallocate { size := 8, offset := 8, chunk := 0 },
        .deallocate { size := 8, offset := 8, chunk := 0 },
        .deallocate { size := 16, offset := 16, chunk := 0 }]).FreeListSound :=
  ⟨by decide, LeasedChunk.run_fresh_sound 0 64 0 0 _ (by decide)⟩

theorem carve_offset (requestedSize alignment : Nat) (runs : List (Nat × Nat)) (offset : Nat)
    (left : List (Nat × Nat)) (h : carve requestedSize alignment runs = some (offset, left)) :
    ∃ run ∈ runs, offset = alignUp run.1 alignment ∧ offset + requestedSize ≤ run.1 + run.2 := by
  induction runs generalizing offset left with
  | nil => simp [carve] at h
  | cons run rest ih =>
    obtain ⟨start, length⟩ := run
    unfold carve at h
    by_cases hfit : alignUp start alignment + requestedSize ≤ start + length
    · rw [if_pos hfit] at h
      simp only [Option.some.injEq, Prod.mk.injEq] at h
      exact ⟨(start, length), List.mem_cons_self _ _, h.1.symm, h.1 ▸ hfit⟩
    · rw [if_neg hfit] at h
      cases hc : carve requestedSize alignment rest with
      | none => simp [hc] at h
      | some found =>
        obtain ⟨o, l⟩ := found
        simp only [hc, Option.some.injEq, Prod.mk.injEq] at h
        obtain ⟨run, hrun, h1, h2⟩ := ih o l hc
        exact ⟨run, List.mem_cons_of_mem _ hrun, h.1 ▸ h1, h.1 ▸ h2⟩

theorem MemoryChunk.allocate_ok (c : MemoryChunk) (newSize alignment : Nat)
    (block : MemoryBlock) (h : (c.allocate newSize alignment).1 = .ok block) :
    ∃ left, carve newSize alignment c.m_unallocatedData = some (block.offset, left) ∧
      block.size = newSize ∧ block.chunk = c.m_chunkID ∧
      (c.allocate newSize alignment).2 =
        { c with m_unallocatedData := left
                 m_unallocatedSize := c.m_unallocatedSize - newSize
                 m_biggestChunk := largestLength left } := by
  unfold MemoryChunk.allocate at h ⊢
  cases hc : carve newSize alignment c.m_unallocatedData with
  | none => simp [hc] at h
  | some found =>
    obtain ⟨offset, runs⟩ := found
    simp only [hc, Except.ok.injEq] at h
    subst h
    exact ⟨runs, rfl, rfl, rfl, rfl⟩

theorem MemoryChunk.allocate_error (c : MemoryChunk) (newSize alignment : Nat) (e : String)
    (h : (c.allocate newSize alignment).1 = .error e) :
    (c.allocate newSize alignment).2 = c ∧ e = outOfChunkSpaceMessage := by
  unfold MemoryChunk.allocate at h ⊢
  cases hc : carve newSize alignment c.m_unallocatedData with
  | none =>
    simp only [hc, Except.error.injEq] at h
    exact ⟨rfl, h.symm⟩
  | some found => simp [hc] at h

/-- C11: for every chunk state, every alignment `a > 0` and every size `s`, if
`MemoryChunk::allocate(s, a)` succeeds, the offset of the returned block is a multiple of `a`. -/
theorem MemoryChunk.allocate_offset_aligned (c : MemoryChunk) (newSize alignment : Nat)
    (block : MemoryBlock) (ha : 0 < alignment)
    (h : (c.allocate newSize alignment).1 = .ok block) :
    block.offset % alignment = 0 := by
  obtain ⟨left, hc, _⟩ := MemoryChunk.allocate_ok c newSize alignment block h
  obtain ⟨run, _, hoff, _⟩ := carve_offset newSize alignment _ _ _ hc
  rw [hoff]
  exact alignUp_mod run.1 alignment ha

/-- C11 at a concrete input: after 8 bytes are taken from a chunk of 64, a request of 16 bytes
aligned to 16 is placed at offset 16. -/
theorem MemoryChunk.allocate_offset_aligned_witness :
    0 < 16 ∧
    (MemoryChunk.allocate ((MemoryChunk.new 0 64 0 0).allocate 8 1).2 16 16).1
      = .ok { size := 16, offset := 16, chunk := 0 } ∧
    ({ size := 16, offset := 16, chunk := 0 } : MemoryBlock).offset % 16 = 0 :=
  ⟨by decide, rfl,
   MemoryChunk.allocate_offset_aligned ((MemoryChunk.new 0 64 0 0).allocate 8 1).2 16 16
     { size := 16, offset := 16, chunk := 0 } (by decide) rfl⟩

theorem alignUp_zero (alignment : Nat) : alignUp 0 alignment = 0 := by
  simp [alignUp]

theorem MemoryChunk.new_allocate_fits (chunkID size memoryType vkHandle newSize alignment : Nat)
    (h : newSize ≤ size) :
    (MemoryChunk.new chunkID size memoryType vkHandle).allocate newSize alignment =
      (.ok { size := newSize, offset := 0, chunk := chunkID },
       { m_chunkID := chunkID, m_size := size, m_memoryType := memoryType, m_memory := vkHandle
         m_unallocatedData := residualRuns 0 size 0 newSize
         m_unallocatedSize := size - newSize
         m_biggestChunk := largestLength (residualRuns 0 size 0 newSize) }) := by
  simp [MemoryChunk.allocate, MemoryChunk.new, carve, alignUp_zero, h]

theorem MemoryChunk.empty_allocate_too_big (c : MemoryChunk) (newSize alignment : Nat)
    (hempty : c.m_unallocatedData = [(0, c.m_size)]) (h : c.m_size < newSize) :
    c.allocate newSize alignment = (.error outOfChunkSpaceMessage, c) := by
  have : ¬ newSize ≤ c.m_size := by omega
  simp [MemoryChunk.allocate, hempty, carve, alignUp_zero, this]

/-- C13: an allocator holds exactly one chunk, empty, of the default size and of memory type
`T`, and a request for type `T` is larger than that chunk.  If the driver grants the memory,
`allocate` returns a block of the requested size at offset 0 of a second chunk, which has type
`T`, the size `max(defaultChunkSize, size)`, at least the request, and the ID the block names;
the first chunk is left as it was.  If the driver refuses, `allocate` fails with
`AllocationFailed` and the allocator is unchanged. -/
theorem VulkanMemoryAllocator.allocate_grows (a : VulkanMemoryAllocator) (c : MemoryChunk)
    (vkAllocateMemory : Nat → Nat → Option Nat) (size alignment memoryType : Nat)
    (hone : a.m_memoryChunks = [c]) (htype : c.m_memoryType = memoryType)
    (hdefault : c.m_size = a.m_chunkSize) (hempty : c.m_unallocatedData = [(0, c.m_size)])
    (hbig : c.m_size < size) :
    (∀ vkHandle, vkAllocateMemory (max a.m_chunkSize size) memoryType = some vkHandle →
      ∃ c2, (a.allocate vkAllocateMemory size alignment memoryType).2.m_memoryChunks = [c, c2] ∧
        c2.m_memoryType = memoryType ∧ c2.m_size = max a.m_chunkSize size ∧ size ≤ c2.m_size ∧
        c2.m_size = size ∧ c2.m_memory = vkHandle ∧
        (a.allocate vkAllocateMemory size alignment memoryType).1
          = .ok { size := size, offset := 0, chunk := c2.m_chunkID }) ∧
    (vkAllocateMemory (max a.m_chunkSize size) memoryType = none →
      a.allocate vkAllocateMemory size alignment memoryType
        = (.error allocationFailedMessage, a)) := by
  have htry : tryChunks size alignment memoryType a.m_memoryChunks = none := by
    rw [hone]
    simp [tryChunks, htype, MemoryChunk.empty_allocate_too_big c size alignment hempty hbig]
  constructor
  · intro vkHandle hgrant
    have hfit : size ≤ max a.m_chunkSize size := Nat.le_max_right _ _
    have hresult : a.allocate vkAllocateMemory size alignment memoryType =
        (.ok { size := size, offset := 0, chunk := a.m_chunkCount },
         { a with
           m_memoryChunks := a.m_memoryChunks ++
             [((MemoryChunk.new a.m_chunkCount (max a.m_chunkSize size) memoryType
                vkHandle).allocate size alignment).2]
           m_chunkCount := (a.m_chunkCount + 1) % 2 ^ 32 }) := by
      unfold VulkanMemoryAllocator.allocate
      rw [htry]
      simp only [hgrant]
      rw [MemoryChunk.new_allocate_fits _ _ _ _ size alignment hfit]
    refine ⟨((MemoryChunk.new a.m_chunkCount (max a.m_chunkSize size) memoryType
      vkHandle).allocate size alignment).2, ?_, ?_, ?_, ?_, ?_, ?_, ?_⟩
    · rw [hresult, hone]
      rfl
    · rw [MemoryChunk.new_allocate_fits _ _ _ _ size alignment hfit]
    · rw [MemoryChunk.new_allocate_fits _ _ _ _ size alignment hfit]
    · rw [MemoryChunk.new_allocate_fits _ _ _ _ size alignment hfit]
      exact hfit
    · rw [MemoryChunk.new_allocate_fits _ _ _ _ size alignment hfit]
      exact Nat.max_eq_right (by omega)
    · rw [MemoryChunk.new_allocate_fits _ _ _ _ size alignment hfit]
    · rw [hresult, MemoryChunk.new_allocate_fits _ _ _ _ size alignment hfit]
  · intro hrefuse
    unfold VulkanMemoryAllocator.allocate
    rw [htry]
    simp only [hrefuse]

/-- C13 at a concrete input: the sample allocator holds one empty chunk of its default size 64
for type 1; a request of 100 bytes makes it create chunk 1 of 100 bytes when the driver grants
the memory, and fails with `AllocationFailed`, changing nothing, when the driver refuses. -/
theorem VulkanMemoryAllocator.allocate_grows_witness :
    (sampleAllocator.allocate (fun _ _ => some 501) 100 16 1).1
      = .ok { size := 100, offset := 0, chunk := 1 } ∧
    (sampleAllocator.allocate (fun _ _ => some 501) 100 16 1).2.m_memoryChunks
      = [MemoryChunk.new 0 64 1 500,
         { m_chunkID := 1, m_size := 100, m_memoryType := 1, m_memory := 501
           m_unallocatedData := [], m_unallocatedSize := 0, m_biggestChunk := 0 }] ∧
    sampleAllocator.allocate (fun _ _ => none) 100 16 1
      = (.error allocationFailedMessage, sampleAllocator) :=
  ⟨rfl, by decide,
   (VulkanMemoryAllocator.allocate_grows sampleAllocator (MemoryChunk.new 0 64 1 500)
      (fun _ _ => none) 100 16 1 rfl rfl rfl rfl (by decide)).2 rfl⟩

theorem tryChunks_placed (size alignment memoryType : Nat) (chunks : List MemoryChunk)
    (block : MemoryBlock) (after : List MemoryChunk)
    (h : tryChunks size alignment memoryType chunks = some (block, after)) :
    ∃ c ∈ after, c.m_chunkID = block.chunk ∧ c.m_memoryType = memoryType := by
  induction chunks generalizing after with
  | nil => simp [tryChunks] at h
  | cons c rest ih =>
    unfold tryChunks at h
    by_cases ht : c.m_memoryType = memoryType
    · rw [if_pos ht] at h
      cases hr : (c.allocate size alignment).1 with
      | ok b =>
        obtain ⟨left, _, _, hid, hafter⟩ := MemoryChunk.allocate_ok c size alignment b hr
        have hpair : c.allocate size alignment = (.ok b, (c.allocate size alignment).2) := by
          rw [← hr]
        rw [hpair] at h
        simp only [Option.some.injEq, Prod.mk.injEq] at h
        obtain ⟨hb, ha⟩ := h
        subst hb
        subst ha
        refine ⟨_, List.mem_cons_self _ _, ?_, ?_⟩
        · rw [hafter]
          exact hid.symm
        · rw [hafter]
          exact ht
      | error e =>
        have hpair : c.allocate size alignment = (.error e, (c.allocate size alignment).2) := by
          rw [← hr]
        rw [hpair] at h
        cases hrest : tryChunks size alignment memoryType rest with
        | none => simp [hrest] at h
        | some found =>
          obtain ⟨b, chunks2⟩ := found
          simp only [hrest, Option.some.injEq, Prod.mk.injEq] at h
          obtain ⟨hb, ha⟩ := h
          subst hb
          subst ha
          obtain ⟨c2, hc2, hid, hty⟩ := ih chunks2 hrest
          exact ⟨c2, List.mem_cons_of_mem _ hc2, hid, hty⟩
    · rw [if_neg ht] at h
      cases hrest : tryChunks size alignment memoryType rest with
      | none => simp [hrest] at h
      | some found =>
        obtain ⟨b, chunks2⟩ := found
        simp only [hrest, Option.some.injEq, Prod.mk.injEq] at h
        obtain ⟨hb, ha⟩ := h
        subst hb
        subst ha
        obtain ⟨c2, hc2, hid, hty⟩ := ih chunks2 hrest
        exact ⟨c2, List.mem_cons_of_mem _ hc2, hid, hty⟩

/-- A block returned by `allocate` for a memory type lies in a chunk of that type. -/
theorem VulkanMemoryAllocator.allocate_placed (a : VulkanMemoryAllocator)
    (vkAllocateMemory : Nat → Nat → Option Nat) (size alignment memoryType : Nat)
    (block : MemoryBlock) (after : VulkanMemoryAllocator)
    (h : a.allocate vkAllocateMemory size alignment memoryType = (.ok block, after)) :
    after.m_hiddenTypes = a.m_hiddenTypes ∧
    ∃ c ∈ after.m_memoryChunks, c.m_chunkID = block.chunk ∧ c.m_memoryType = memoryType := by
  unfold VulkanMemoryAllocator.allocate at h
  cases htry : tryChunks size alignment memoryType a.m_memoryChunks with
  | some found =>
    obtain ⟨b, chunks⟩ := found
    simp only [htry, Prod.mk.injEq, Except.ok.injEq] at h
    obtain ⟨hb, ha⟩ := h
    subst hb
    subst ha
    exact ⟨rfl, tryChunks_placed size alignment memoryType _ _ _ htry⟩
  | none =>
    simp only [htry] at h
    cases hdrv : vkAllocateMemory (max a.m_chunkSize size) memoryType with
    | none => simp [hdrv] at h
    | some vkHandle =>
      simp only [hdrv, Prod.mk.injEq] at h
      obtain ⟨hb, ha⟩ := h
      subst ha
      obtain ⟨left, _, _, hid, hafter⟩ := MemoryChunk.allocate_ok _ size alignment block hb
      refine ⟨rfl, _, List.mem_append_right _ (List.mem_singleton_self _), ?_, ?_⟩
      · rw [hafter]
        exact hid.symm
      · rw [hafter]
        rfl

theorem VulkanMemoryAllocator.allocate_hidden (a : VulkanMemoryAllocator)
    (vkAllocateMemory : Nat → Nat → Option Nat) (size alignment memoryType : Nat) :
    (a.allocate vkAllocateMemory size alignment memoryType).2.m_hiddenTypes = a.m_hiddenTypes ∧
    (a.allocate vkAllocateMemory size alignment memoryType).2.m_memoryStructure
      = a.m_memoryStructure := by
  unfold VulkanMemoryAllocator.allocate
  cases htry : tryChunks size alignment memoryType a.m_memoryChunks with
  | some found => exact ⟨rfl, rfl⟩
  | none =>
    cases hdrv : vkAllocateMemory (max a.m_chunkSize size) memoryType with
    | none => exact ⟨rfl, rfl⟩
    | some vkHandle => exact ⟨rfl, rfl⟩

/-- A block returned by the loop over candidate types lies in a chunk of one of them. -/
theorem VulkanMemoryAllocator.tryTypes_placed (vkAllocateMemory : Nat → Nat → Option Nat)
    (size alignment : Nat) (types : List Nat) (a : VulkanMemoryAllocator) (block : MemoryBlock)
    (after : VulkanMemoryAllocator)
    (h : a.tryTypes vkAllocateMemory size alignment types = (.ok block, after)) :
    ∃ t ∈ types, ∃ c ∈ after.m_memoryChunks, c.m_chunkID = block.chunk ∧ c.m_memoryType = t := by
  induction types generalizing a with
  | nil => simp [VulkanMemoryAllocator.tryTypes] at h
  | cons t rest ih =>
    unfold VulkanMemoryAllocator.tryTypes at h
    cases hr : (a.allocate vkAllocateMemory size alignment t).1 with
    | ok b =>
      have hpair : a.allocate vkAllocateMemory size alignment t
          = (.ok b, (a.allocate vkAllocateMemory size alignment t).2) := by
        rw [← hr]
      rw [hpair] at h
      simp only [Prod.mk.injEq, Except.ok.injEq] at h
      obtain ⟨hb, ha⟩ := h
      subst hb
      subst ha
      exact ⟨t, List.mem_cons_self _ _,
        (VulkanMemoryAllocator.allocate_placed a vkAllocateMemory size alignment t b _ hpair).2⟩
    | error e =>
      have hpair : a.allocate vkAllocateMemory size alignment t
          = (.error e, (a.allocate vkAllocateMemory size alignment t).2) := by
        rw [← hr]
      rw [hpair] at h
      obtain ⟨t2, ht2, hc⟩ := ih _ h
      exact ⟨t2, List.mem_cons_of_mem _ ht2, hc⟩

theorem VulkanMemoryAllocator.mem_searchOrder (a : VulkanMemoryAllocator)
    (properties : MemoryPropertyPreferences) (typeFilter : Nat) (includeHidden : Bool) (t : Nat)
    (h : t ∈ (a.searchOrder properties typeFilter includeHidden).2) :
    t ∈ a.m_memoryStructure.getMemoryTypes properties.desiredProperties typeFilter ∧
    (includeHidden = true ∨ a.isMemoryTypeHidden t = false) := by
  unfold VulkanMemoryAllocator.searchOrder at h
  simp only [List.mem_append, List.mem_filter] at h
  rcases h with h | h
  · obtain ⟨⟨hm, hh⟩, _⟩ := h
    refine ⟨hm, ?_⟩
    cases includeHidden <;> simp_all
  · by_cases hallow : properties.allowUndesired = true
    · rw [if_pos hallow] at h
      simp only [List.mem_filter] at h
      obtain ⟨⟨hm, hh⟩, _⟩ := h
      refine ⟨hm, ?_⟩
      cases includeHidden <;> simp_all
    · rw [if_neg hallow] at h
      simp at h

/-- The search of an allocator without hidden types included: a block it returns lies in a chunk
whose memory type matches the request and is not hidden. -/
theorem VulkanMemoryAllocator.searchAndAllocate_placed (a : VulkanMemoryAllocator)
    (vkAllocateMemory : Nat → Nat → Option Nat) (size alignment : Nat)
    (properties : MemoryPropertyPreferences) (typeFilter : Nat) (includeHidden : Bool)
    (block : MemoryBlock) (after : VulkanMemoryAllocator)
    (h : a.searchAndAllocate vkAllocateMemory size alignment properties typeFilter includeHidden
      = (.ok block, after)) :
    ∃ t ∈ a.m_memoryStructure.getMemoryTypes properties.desiredProperties typeFilter,
      (includeHidden = true ∨ a.isMemoryTypeHidden t = false) ∧
      ∃ c ∈ after.m_memoryChunks, c.m_chunkID = block.chunk ∧ c.m_memoryType = t := by
  unfold VulkanMemoryAllocator.searchAndAllocate at h
  by_cases hempty : (a.searchOrder properties typeFilter includeHidden).1.isEmpty = true
  · rw [if_pos hempty] at h
    simp at h
  · rw [if_neg hempty] at h
    obtain ⟨t, ht, hc⟩ := VulkanMemoryAllocator.tryTypes_placed _ _ _ _ _ _ _ h
    obtain ⟨hm, hh⟩ := VulkanMemoryAllocator.mem_searchOrder a properties typeFilter includeHidden t ht
    exact ⟨t, hm, hh, hc⟩

/-- The search when the only matching type is hidden. -/
theorem VulkanMemoryAllocator.searchAndAllocate_only_hidden (a : VulkanMemoryAllocator)
    (vkAllocateMemory : Nat → Nat → Option Nat) (size alignment : Nat)
    (properties : MemoryPropertyPreferences) (typeFilter t : Nat)
    (honly : a.m_memoryStructure.getMemoryTypes properties.desiredProperties typeFilter = [t])
    (hhidden : a.isMemoryTypeHidden t = true) :
    a.searchAndAllocate vkAllocateMemory size alignment properties typeFilter false
      = (.error noSuitableMemoryTypeMessage, a) ∧
    ((a.m_memoryStructure.doesMemoryContainProperties t properties.undesiredProperties = false ∨
        properties.allowUndesired = true) →
      ∀ block after, a.allocate vkAllocateMemory size alignment t = (.ok block, after) →
        a.searchAndAllocate vkAllocateMemory size alignment properties typeFilter true
          = (.ok block, after)) := by
  constructor
  · simp [VulkanMemoryAllocator.searchAndAllocate, VulkanMemoryAllocator.searchOrder, honly,
      hhidden]
  · intro hclean block after halloc
    have horder : (a.searchOrder properties typeFilter true).2 = [t] := by
      unfold VulkanMemoryAllocator.searchOrder
      simp only [honly]
      cases hu : a.m_memoryStructure.doesMemoryContainProperties t properties.undesiredProperties
      · simp [hu]
      · rcases hclean with hc | hc
        · rw [hu] at hc
          cases hc
        · simp [hu, hc]
    have hcand : (a.searchOrder properties typeFilter true).1 = [t] := by
      unfold VulkanMemoryAllocator.searchOrder
      simp [honly]
    unfold VulkanMemoryAllocator.searchAndAllocate
    rw [hcand, horder]
    simp [VulkanMemoryAllocator.tryTypes, halloc]

/-! ### C14: hidden memory types -/

theorem VulkanMemoryAllocator.hideMemoryType_hidden (a : VulkanMemoryAllocator) (t : Nat) :
    (a.hideMemoryType t).isMemoryTypeHidden t = true ∧
    (a.hideMemoryType t).m_memoryStructure = a.m_memoryStructure := by
  unfold VulkanMemoryAllocator.hideMemoryType
  by_cases h : a.m_hiddenTypes.contains t = true
  · rw [if_pos h]
    exact ⟨h, rfl⟩
  · rw [if_neg h]
    simp [VulkanMemoryAllocator.isMemoryTypeHidden]

theorem VulkanBuffer.allocateFromFlags_trace (env : Env) (b : VulkanBuffer)
    (properties : MemoryPropertyPreferences) (allocated : Except String MemoryBlock) :
    ∃ rest, (VulkanBuffer.allocateFromFlags env b properties allocated).trace =
      [Call.vkGetBufferMemoryRequirements env.device.m_vkHandle b.m_vkHandle,
       Call.searchAndAllocate (env.memoryRequirements b.m_vkHandle).size
         (env.memoryRequirements b.m_vkHandle).alignment properties
         (env.memoryRequirements b.m_vkHandle).memoryTypeBits false allocated.toOption] ++ rest ∧
      ∀ call ∈ rest, call.includeHidden = none := by
  cases allocated with
  | error e =>
    exact ⟨[], by simp [VulkanBuffer.allocateFromFlags, VulkanBuffer.getMemoryRequirements],
      by simp⟩
  | ok block =>
    by_cases hb : 0 < b.m_memoryRegion.size
    · exact ⟨[], by simp [VulkanBuffer.allocateFromFlags, VulkanBuffer.getMemoryRequirements,
        VulkanBuffer.setBoundMemory_bound env b block hb], by simp⟩
    · have hz : b.m_memoryRegion.size = 0 := by omega
      exact ⟨[Call.vkBindBufferMemory env.device.m_vkHandle b.m_vkHandle
          (env.getMemoryHandle block.chunk) block.offset],
        by simp [VulkanBuffer.allocateFromFlags, VulkanBuffer.getMemoryRequirements,
          VulkanBuffer.setBoundMemory_unbound env b block hz],
        by simp [Call.includeHidden]⟩

theorem VulkanBuffer.allocateFromFlags_returned (env : Env) (b : VulkanBuffer)
    (properties : MemoryPropertyPreferences) (allocated : Except String MemoryBlock)
    (h : (VulkanBuffer.allocateFromFlags env b properties allocated).returned = true) :
    ∃ block, allocated = .ok block ∧
      (VulkanBuffer.allocateFromFlags env b properties allocated).self.m_memoryRegion = block := by
  cases allocated with
  | error e => simp [VulkanBuffer.allocateFromFlags, Outcome.returned] at h
  | ok block =>
    by_cases hb : 0 < b.m_memoryRegion.size
    · simp [VulkanBuffer.allocateFromFlags, Outcome.returned,
        VulkanBuffer.setBoundMemory_bound env b block hb] at h
    · have hz : b.m_memoryRegion.size = 0 := by omega
      exact ⟨block, rfl, by simp [VulkanBuffer.allocateFromFlags,
        VulkanBuffer.setBoundMemory_unbound env b block hz]⟩

/-- C14: (1) `hideMemoryType(t)` makes `t` hidden.  (2) When the only memory type matching the
filter mask and the desired properties is hidden, `searchAndAllocate` with
`includeHidden = false` fails with `NoSuitableMemoryType` and leaves the allocator unchanged,
and with `includeHidden = true` it uses that type: if the type carries no undesired property,
or undesired ones are allowed, it returns what `allocate` returns for that type.
(3) `VulkanBuffer::allocateFromFlags` issues exactly one search, with `includeHidden = false`.
(4) So when the allocator answers the search the buffer issues and the buffer ends up bound,
its block lies in a chunk whose memory type matches the request and is not hidden. -/
theorem hidden_types_excluded_from_search (a : VulkanMemoryAllocator)
    (vkAllocateMemory : Nat → Nat → Option Nat) (size alignment : Nat)
    (properties : MemoryPropertyPreferences) (typeFilter t : Nat) (env : Env) (b : VulkanBuffer)
    (allocated : Except String MemoryBlock) :
    (a.hideMemoryType t).isMemoryTypeHidden t = true ∧
    (a.m_memoryStructure.getMemoryTypes properties.desiredProperties typeFilter = [t] →
      a.isMemoryTypeHidden t = true →
      a.searchAndAllocate vkAllocateMemory size alignment properties typeFilter false
        = (.error noSuitableMemoryTypeMessage, a) ∧
      ((a.m_memoryStructure.doesMemoryContainProperties t properties.undesiredProperties = false ∨
          properties.allowUndesired = true) →
        ∀ block after, a.allocate vkAllocateMemory size alignment t = (.ok block, after) →
          a.searchAndAllocate vkAllocateMemory size alignment properties typeFilter true
            = (.ok block, after))) ∧
    ((∀ call ∈ (VulkanBuffer.allocateFromFlags env b properties allocated).trace,
        ∀ h, call.includeHidden = some h → h = false) ∧
      ((VulkanBuffer.allocateFromFlags env b properties allocated).trace.filter
        (fun call => call.includeHidden.isSome)).length = 1) ∧
    ((∀ call ∈ (VulkanBuffer.allocateFromFlags env b properties allocated).trace,
        ∀ answer, a.answers vkAllocateMemory call = some answer → allocated = answer.1) →
      (VulkanBuffer.allocateFromFlags env b properties allocated).returned = true →
      ∃ used ∈ a.m_memoryStructure.getMemoryTypes properties.desiredProperties
          (env.memoryRequirements b.m_vkHandle).memoryTypeBits,
        a.isMemoryTypeHidden used = false ∧
        ∃ c ∈ (a.searchAndAllocate vkAllocateMemory (env.memoryRequirements b.m_vkHandle).size
            (env.memoryRequirements b.m_vkHandle).alignment properties
            (env.memoryRequirements b.m_vkHandle).memoryTypeBits false).2.m_memoryChunks,
          c.m_chunkID
            = (VulkanBuffer.allocateFromFlags env b properties allocated).self.m_memoryRegion.chunk
          ∧ c.m_memoryType = used) := by
  obtain ⟨rest, htrace, hrest⟩ := VulkanBuffer.allocateFromFlags_trace env b properties allocated
  refine ⟨(VulkanMemoryAllocator.hideMemoryType_hidden a t).1, ?_, ⟨?_, ?_⟩, ?_⟩
  · intro honly hhidden
    exact VulkanMemoryAllocator.searchAndAllocate_only_hidden a vkAllocateMemory size alignment
      properties typeFilter t honly hhidden
  · intro call hcall h hh
    rw [htrace] at hcall
    simp only [List.cons_append, List.nil_append, List.mem_cons] at hcall
    rcases hcall with hc | hc | hc
    · subst hc
      simp [Call.includeHidden] at hh
    · subst hc
      simp only [Call.includeHidden, Option.some.injEq] at hh
      exact hh.symm
    · rw [hrest call hc] at hh
      cases hh
  · rw [htrace]
    have hnone : rest.filter (fun call => call.includeHidden.isSome) = [] := by
      rw [List.filter_eq_nil_iff]
      intro call hc
      simp [hrest call hc]
    rw [List.filter_append, hnone]
    simp [List.filter_cons, Call.includeHidden]
  · intro hanswer hreturned
    obtain ⟨block, hok, hregion⟩ :=
      VulkanBuffer.allocateFromFlags_returned env b properties allocated hreturned
    have hcall : Call.searchAndAllocate (env.memoryRequirements b.m_vkHandle).size
        (env.memoryRequirements b.m_vkHandle).alignment properties
        (env.memoryRequirements b.m_vkHandle).memoryTypeBits false allocated.toOption
        ∈ (VulkanBuffer.allocateFromFlags env b properties allocated).trace := by
      rw [htrace]
      simp
    have hans := hanswer _ hcall _ rfl
    rw [hok] at hans
    have hpair : a.searchAndAllocate vkAllocateMemory (env.memoryRequirements b.m_vkHandle).size
        (env.memoryRequirements b.m_vkHandle).alignment properties
        (env.memoryRequirements b.m_vkHandle).memoryTypeBits false
        = (.ok block, (a.searchAndAllocate vkAllocateMemory
            (env.memoryRequirements b.m_vkHandle).size
            (env.memoryRequirements b.m_vkHandle).alignment properties
            (env.memoryRequirements b.m_vkHandle).memoryTypeBits false).2) := by
      rw [hans]
    obtain ⟨used, hused, hh, c, hc, hid, hty⟩ :=
      VulkanMemoryAllocator.searchAndAllocate_placed a vkAllocateMemory _ _ properties _ false
        block _ hpair
    refine ⟨used, hused, ?_, c, hc, ?_, hty⟩
    · rcases hh with hh | hh
      · cases hh
      · exact hh
    · rw [hregion]
      exact hid

/-- C14 at a concrete input: in the sample allocator only type 1 has the desired flag 2; once
it is hidden, the ordinary search fails with `NoSuitableMemoryType`. -/
theorem hidden_types_excluded_from_search_witness :
    (sampleAllocator.hideMemoryType 1).m_memoryStructure.getMemoryTypes 2 3 = [1] ∧
    (sampleAllocator.hideMemoryType 1).isMemoryTypeHidden 1 = true ∧
    (sampleAllocator.hideMemoryType 1).searchAndAllocate (fun _ _ => some 501) 16 16
        { desiredProperties := 2, undesiredProperties := 1, allowUndesired := false } 3 false
      = (.error noSuitableMemoryTypeMessage, sampleAllocator.hideMemoryType 1) :=
  ⟨by decide, by decide,
   ((hidden_types_excluded_from_search (sampleAllocator.hideMemoryType 1) (fun _ _ => some 501)
      16 16 { desiredProperties := 2, undesiredProperties := 1, allowUndesired := false } 3 1
      sampleEnv freshBuffer (.error noSuitableMemoryTypeMessage)).2.1
      (by decide) (by decide)).1⟩

/-! ### C15: the handle lifecycle of buffers -/

theorem countP_eraseP_add {α : Type} (p q : α → Bool) (l : List α) (b : α)
    (h : l.find? p = some b) :
    (l.eraseP p).countP q + (if q b then 1 else 0) = l.countP q := by
  induction l with
  | nil => simp at h
  | cons a rest ih =>
    by_cases hp : p a = true
    · have hb : a = b := by simpa [List.find?_cons, hp] using h
      subst hb
      rw [List.eraseP_cons_of_pos hp, List.countP_cons]
    · have hp2 : p a = false := by simpa using hp
      have hrest : rest.find? p = some b := by simpa [List.find?_cons, hp2] using h
      rw [List.eraseP_cons_of_neg hp, List.countP_cons, List.countP_cons]
      have := ih hrest
      omega

theorem countP_replaceFirst_add {α : Type} (p q : α → Bool) (x : α) (l : List α) (b : α)
    (h : l.find? p = some b) :
    (replaceFirst p x l).countP q + (if q b then 1 else 0)
      = l.countP q + (if q x then 1 else 0) := by
  induction l with
  | nil => simp at h
  | cons a rest ih =>
    by_cases hp : p a = true
    · have hb : a = b := by simpa [List.find?_cons, hp] using h
      subst hb
      simp only [replaceFirst, hp, if_true, List.countP_cons]
      omega
    · have hp2 : p a = false := by simpa using hp
      have hrest : rest.find? p = some b := by simpa [List.find?_cons, hp2] using h
      have hstep : replaceFirst p x (a :: rest) = a :: replaceFirst p x rest := by
        simp [replaceFirst, hp2]
      rw [hstep, List.countP_cons, List.countP_cons]
      have := ih hrest
      omega

theorem VulkanBuffer.free_keeps_id (env : Env) (b : VulkanBuffer)
    (deallocated : Except String Unit) :
    (VulkanBuffer.free env b deallocated).self.m_id = b.m_id := by
  by_cases hb : 0 < b.m_memoryRegion.size
  · cases deallocated <;> simp [VulkanBuffer.free, hb]
  · simp [VulkanBuffer.free, hb]

/-- The lookup fails exactly when no stored buffer carries the ID, and otherwise returns a stored
buffer that carries it. -/
theorem BufferPool.getBuffer_iff (p : BufferPool) (id : Nat) :
    (p.m_buffers.countP (fun b => b.m_id == id) = 0 →
      p.getBuffer id = .error invalidHandleMessage) ∧
    (0 < p.m_buffers.countP (fun b => b.m_id == id) →
      ∃ b, p.getBuffer id = .ok b ∧ b.getID = id ∧ b ∈ p.m_buffers) := by
  unfold BufferPool.getBuffer
  cases hf : p.m_buffers.find? (fun b => b.m_id == id) with
  | none =>
    constructor
    · intro _
      rfl
    · intro hpos
      rw [List.find?_eq_none] at hf
      have : p.m_buffers.countP (fun b => b.m_id == id) = 0 := by
        rw [List.countP_eq_zero]
        exact hf
      omega
  | some b =>
    have hmem : b ∈ p.m_buffers := List.mem_of_find?_eq_some hf
    have hpb0 := List.find?_some hf
    have hpb : (b.m_id == id) = true := by simpa using hpb0
    constructor
    · intro hzero
      rw [List.countP_eq_zero] at hzero
      exact absurd hpb (hzero b hmem)
    · intro _
      exact ⟨b, rfl, by simpa [VulkanBuffer.getID] using hpb, hmem⟩

/-- Every issue of an ID is either still stored or matched by a completed `freeBuffer`; the
counter and the issued IDs follow the order of creation modulo `2^32`. -/
theorem PoolHistory.run_ledger (env : Env) (ops : List PoolOp) :
    (∀ id, (PoolHistory.run env ops).pool.m_buffers.countP (fun b => b.m_id == id)
        + (PoolHistory.run env ops).released.count id
      = (PoolHistory.run env ops).issued.count id) ∧
    (PoolHistory.run env ops).pool.s_idCounter
      = (PoolHistory.run env ops).issued.length % idModulus ∧
    (PoolHistory.run env ops).issued
      = (List.range (PoolHistory.run env ops).issued.length).map (fun k => k % idModulus) := by
  have hgen : ∀ (ops : List PoolOp) (h : PoolHistory),
      ((∀ id, h.pool.m_buffers.countP (fun b => b.m_id == id) + h.released.count id
          = h.issued.count id) ∧
        h.pool.s_idCounter = h.issued.length % idModulus ∧
        h.issued = (List.range h.issued.length).map (fun k => k % idModulus)) →
      ((∀ id, (ops.foldl (PoolHistory.step env) h).pool.m_buffers.countP
            (fun b => b.m_id == id) + (ops.foldl (PoolHistory.step env) h).released.count id
          = (ops.foldl (PoolHistory.step env) h).issued.count id) ∧
        (ops.foldl (PoolHistory.step env) h).pool.s_idCounter
          = (ops.foldl (PoolHistory.step env) h).issued.length % idModulus ∧
        (ops.foldl (PoolHistory.step env) h).issued
          = (List.range (ops.foldl (PoolHistory.step env) h).issued.length).map
              (fun k => k % idModulus)) := by
    intro ops
    induction ops with
    | nil =>
      intro h hh
      exact hh
    | cons op rest ih =>
      intro h hh
      apply ih
      obtain ⟨hcount, hcounter, hissued⟩ := hh
      cases op with
      | createBuffer vkHandle size usage =>
        refine ⟨?_, ?_, ?_⟩
        · intro id
          have := hcount id
          simp only [PoolHistory.step, BufferPool.createBuffer, VulkanBuffer.new,
            VulkanBuffer.getID, List.countP_append, List.count_append, List.countP_cons,
            List.countP_nil, List.count_cons, List.count_nil]
          by_cases hid : h.pool.s_idCounter = id
          · simp [hid]
            omega
          · have hne : ¬ (h.pool.s_idCounter == id) = true := by simpa using hid
            simp [hid]
            omega
        · simp only [PoolHistory.step, BufferPool.createBuffer, VulkanBuffer.new,
            List.length_append, List.length_singleton]
          rw [hcounter, Nat.add_mod, Nat.mod_mod, ← Nat.add_mod]
        · simp only [PoolHistory.step, BufferPool.createBuffer, VulkanBuffer.new,
            VulkanBuffer.getID, List.length_append, List.length_singleton]
          rw [List.range_succ, List.map_append, ← hissued, hcounter]
          simp
      | freeBuffer id0 deallocated =>
        cases hf : h.pool.m_buffers.find? (fun b => b.m_id == id0) with
        | none =>
          have hstep : PoolHistory.step env h (.freeBuffer id0 deallocated) = h := by
            simp [PoolHistory.step, BufferPool.freeBuffer, hf]
          rw [hstep]
          exact ⟨hcount, hcounter, hissued⟩
        | some b =>
          have hpb := List.find?_some hf
          have hbid : b.m_id = id0 := by simpa using hpb
          cases hres : (VulkanBuffer.free env b deallocated).result with
          | ok u =>
            have hstep : PoolHistory.step env h (.freeBuffer id0 deallocated) =
                { pool := { h.pool with
                    m_buffers := h.pool.m_buffers.eraseP (fun b => b.m_id == id0) }
                  issued := h.issued, released := h.released ++ [id0] } := by
              simp [PoolHistory.step, BufferPool.freeBuffer, hf, hres]
            rw [hstep]
            refine ⟨?_, hcounter, hissued⟩
            intro id
            have h1 := countP_eraseP_add (fun b => b.m_id == id0) (fun b => b.m_id == id)
              h.pool.m_buffers b hf
            have h2 := hcount id
            simp only [List.count_append, List.count_cons, List.count_nil]
            simp only [hbid] at h1
            by_cases hid : id0 = id
            · simp [hid] at h1 ⊢
              omega
            · simp [hid] at h1 ⊢
              omega
          | error e =>
            have hstep : PoolHistory.step env h (.freeBuffer id0 deallocated) =
                { pool := { h.pool with
                    m_buffers := replaceFirst (fun b => b.m_id == id0)
                      (VulkanBuffer.free env b deallocated).self h.pool.m_buffers }
                  issued := h.issued, released := h.released } := by
              simp [PoolHistory.step, BufferPool.freeBuffer, hf, hres]
            rw [hstep]
            refine ⟨?_, hcounter, hissued⟩
            intro id
            have h1 := countP_replaceFirst_add (fun b => b.m_id == id0)
              (fun b => b.m_id == id) (VulkanBuffer.free env b deallocated).self
              h.pool.m_buffers b hf
            have h2 := hcount id
            simp only [VulkanBuffer.free_keeps_id] at h1
            simp only
            omega
  exact hgen ops {} ⟨by simp, by simp, by simp⟩

theorem PoolHistory.foldl_replicate_create (env : Env) (n vkHandle size usage : Nat)
    (h : PoolHistory) :
    ((List.replicate n (PoolOp.createBuffer vkHandle size usage)).foldl
        (PoolHistory.step env) h).released = h.released ∧
    ((List.replicate n (PoolOp.createBuffer vkHandle size usage)).foldl
        (PoolHistory.step env) h).issued.length = h.issued.length + n := by
  induction n generalizing h with
  | zero => exact ⟨rfl, rfl⟩
  | succ k ih =>
    rw [List.replicate_succ, List.foldl_cons]
    obtain ⟨h1, h2⟩ := ih (PoolHistory.step env h (.createBuffer vkHandle size usage))
    refine ⟨h1.trans rfl, ?_⟩
    rw [h2]
    simp only [PoolHistory.step, List.length_append, List.length_singleton]
    omega

/-- A buffer created, freed, and followed by as many creations as bring the `uint32_t` counter
round to its ID: the ID has been passed to `freeBuffer`, and `getBuffer` finds a buffer with
it. -/
theorem PoolHistory.freed_id_found_after_wrap (env : Env) (n : Nat)
    (hn : (n + 1) % idModulus = 0) :
    0 ∈ (PoolHistory.run env
        ([PoolOp.createBuffer 7 64 0, .freeBuffer 0 (.ok ())]
          ++ List.replicate n (.createBuffer 7 64 0) ++ [.createBuffer 7 64 0])).released ∧
    ∃ b, (PoolHistory.run env
        ([PoolOp.createBuffer 7 64 0, .freeBuffer 0 (.ok ())]
          ++ List.replicate n (.createBuffer 7 64 0)
          ++ [.createBuffer 7 64 0])).pool.getBuffer 0 = .ok b ∧ b.getID = 0 := by
  have hstart : PoolHistory.run env [PoolOp.createBuffer 7 64 0, .freeBuffer 0 (.ok ())]
      = { pool := { m_buffers := [], s_idCounter := 1 }, issued := [0], released := [0] } := by
    simp [PoolHistory.run, PoolHistory.step, BufferPool.createBuffer, BufferPool.freeBuffer,
      VulkanBuffer.new, VulkanBuffer.free, VulkanBuffer.getID, idModulus]
  have hmid : PoolHistory.run env ([PoolOp.createBuffer 7 64 0, .freeBuffer 0 (.ok ())]
        ++ List.replicate n (.createBuffer 7 64 0))
      = (List.replicate n (PoolOp.createBuffer 7 64 0)).foldl (PoolHistory.step env)
          (PoolHistory.run env [PoolOp.createBuffer 7 64 0, .freeBuffer 0 (.ok ())]) := by
    simp only [PoolHistory.run, List.foldl_append]
  obtain ⟨hrel, hlen⟩ := PoolHistory.foldl_replicate_create env n 7 64 0
    (PoolHistory.run env [PoolOp.createBuffer 7 64 0, .freeBuffer 0 (.ok ())])
  rw [← hmid, hstart] at hrel hlen
  have hcounter := (PoolHistory.run_ledger env ([PoolOp.createBuffer 7 64 0,
    .freeBuffer 0 (.ok ())] ++ List.replicate n (.createBuffer 7 64 0))).2.1
  have hzero : (PoolHistory.run env ([PoolOp.createBuffer 7 64 0, .freeBuffer 0 (.ok ())]
      ++ List.replicate n (.createBuffer 7 64 0))).pool.s_idCounter = 0 := by
    rw [hcounter, hlen]
    simpa [Nat.add_comm] using hn
  have hlast : PoolHistory.run env ([PoolOp.createBuffer 7 64 0, .freeBuffer 0 (.ok ())]
        ++ List.replicate n (.createBuffer 7 64 0) ++ [.createBuffer 7 64 0])
      = PoolHistory.step env (PoolHistory.run env ([PoolOp.createBuffer 7 64 0,
          .freeBuffer 0 (.ok ())] ++ List.replicate n (.createBuffer 7 64 0)))
          (.createBuffer 7 64 0) := by
    simp only [PoolHistory.run, List.foldl_append, List.foldl_cons, List.foldl_nil]
  rw [hlast]
  constructor
  · show (0 : Nat) ∈ (PoolHistory.run env ([PoolOp.createBuffer 7 64 0,
      .freeBuffer 0 (.ok ())] ++ List.replicate n (.createBuffer 7 64 0))).released
    rw [hrel]
    exact List.mem_singleton.2 rfl
  · have hpos : 0 < (PoolHistory.step env (PoolHistory.run env ([PoolOp.createBuffer 7 64 0,
        .freeBuffer 0 (.ok ())] ++ List.replicate n (.createBuffer 7 64 0)))
        (.createBuffer 7 64 0)).pool.m_buffers.countP (fun b => b.m_id == 0) := by
      simp only [PoolHistory.step, BufferPool.createBuffer, VulkanBuffer.new, hzero,
        List.countP_append, List.countP_cons, List.countP_nil]
      simp
    obtain ⟨b, h1, h2, _⟩ := (BufferPool.getBuffer_iff _ 0).2 hpos
    exact ⟨b, h1, h2⟩

/-- C15 as stated fails: the ID counter is a `uint32_t`.  A buffer is created and gets ID 0,
it is freed, and `2^32` more buffers are created, the last of which gets ID 0 again: ID 0 has
been passed to a `freeBuffer` that returned, and `getBuffer(0)` succeeds. -/
theorem BufferPool.freed_id_is_found_after_wrap :
    0 ∈ (PoolHistory.run sampleEnv
        ([PoolOp.createBuffer 7 64 0, .freeBuffer 0 (.ok ())]
          ++ List.replicate (2 ^ 32 - 1) (.createBuffer 7 64 0)
          ++ [.createBuffer 7 64 0])).released ∧
    ∃ b, (PoolHistory.run sampleEnv
        ([PoolOp.createBuffer 7 64 0, .freeBuffer 0 (.ok ())]
          ++ List.replicate (2 ^ 32 - 1) (.createBuffer 7 64 0)
          ++ [.createBuffer 7 64 0])).pool.getBuffer 0 = .ok b ∧ b.getID = 0 :=
  PoolHistory.freed_id_found_after_wrap sampleEnv (2 ^ 32 - 1) (Nat.mod_self (2 ^ 32))

/-- C15 (amended): after every sequence of `createBuffer` and `freeBuffer` calls on a device and for every
buffer ID, `getBuffer(id)` fails with `InvalidHandle` when the ID was never issued by
`createBuffer`, and when every issue of the ID has been followed by a `freeBuffer` of it that
returned (with at most `2^32` buffers created no ID is issued twice, and this reads: when the
ID has been passed to a `freeBuffer` that returned); otherwise it succeeds and returns a stored
buffer with that ID. -/
theorem BufferPool.getBuffer_lifecycle (env : Env) (ops : List PoolOp) (id : Nat) :
    (id ∉ (PoolHistory.run env ops).issued →
      (PoolHistory.run env ops).pool.getBuffer id = .error invalidHandleMessage) ∧
    ((PoolHistory.run env ops).issued.count id ≤ (PoolHistory.run env ops).released.count id →
      (PoolHistory.run env ops).pool.getBuffer id = .error invalidHandleMessage) ∧
    ((PoolHistory.run env ops).issued.length ≤ 2 ^ 32 →
      id ∈ (PoolHistory.run env ops).released →
      (PoolHistory.run env ops).pool.getBuffer id = .error invalidHandleMessage) ∧
    ((PoolHistory.run env ops).released.count id < (PoolHistory.run env ops).issued.count id →
      ∃ b, (PoolHistory.run env ops).pool.getBuffer id = .ok b ∧ b.getID = id ∧
        b ∈ (PoolHistory.run env ops).pool.m_buffers) ∧
    (id ∈ (PoolHistory.run env ops).issued → id ∉ (PoolHistory.run env ops).released →
      ∃ b, (PoolHistory.run env ops).pool.getBuffer id = .ok b ∧ b.getID = id ∧
        b ∈ (PoolHistory.run env ops).pool.m_buffers) := by
  obtain ⟨hledger, _, hissued⟩ := PoolHistory.run_ledger env ops
  have hget := BufferPool.getBuffer_iff (PoolHistory.run env ops).pool id
  have hl := hledger id
  have hfail : (PoolHistory.run env ops).issued.count id
      ≤ (PoolHistory.run env ops).released.count id →
      (PoolHistory.run env ops).pool.getBuffer id = .error invalidHandleMessage := by
    intro hle
    exact hget.1 (by omega)
  have hok : (PoolHistory.run env ops).released.count id
      < (PoolHistory.run env ops).issued.count id →
      ∃ b, (PoolHistory.run env ops).pool.getBuffer id = .ok b ∧ b.getID = id ∧
        b ∈ (PoolHistory.run env ops).pool.m_buffers := by
    intro hlt
    exact hget.2 (by omega)
  refine ⟨?_, hfail, ?_, hok, ?_⟩
  · intro hnot
    apply hfail
    rw [List.count_eq_zero_of_not_mem hnot]
    exact Nat.zero_le _
  · intro hlen hrel
    apply hfail
    have hnodup : (PoolHistory.run env ops).issued.Nodup := by
      rw [hissued]
      apply List.Nodup.map_on _ (List.nodup_range _)
      intro x hx y hy hxy
      have hx2 : x < (PoolHistory.run env ops).issued.length := List.mem_range.1 hx
      have hy2 : y < (PoolHistory.run env ops).issued.length := List.mem_range.1 hy
      have hm : idModulus = 2 ^ 32 := rfl
      simp only at hxy
      rw [Nat.mod_eq_of_lt (by omega), Nat.mod_eq_of_lt (by omega)] at hxy
      exact hxy
    have h1 : (PoolHistory.run env ops).issued.count id ≤ 1 :=
      List.nodup_iff_count_le_one.1 hnodup id
    have h2 : 0 < (PoolHistory.run env ops).released.count id := List.count_pos_iff.2 hrel
    omega
  · intro hin hnot
    apply hok
    rw [List.count_eq_zero_of_not_mem hnot]
    exact List.count_pos_iff.2 hin

/-- C15 (amended), at a concrete input: three buffers created, the second freed; looking up ID 1 fails,
looking up ID 9, never issued, fails, and looking up ID 2 returns the third buffer. -/
theorem BufferPool.getBuffer_lifecycle_witness :
    (PoolHistory.run sampleEnv [.createBuffer 7 64 0, .createBuffer 8 64 0,
        .createBuffer 9 64 0, .freeBuffer 1 (.ok ())]).issued = [0, 1, 2] ∧
    (PoolHistory.run sampleEnv [.createBuffer 7 64 0, .createBuffer 8 64 0,
        .createBuffer 9 64 0, .freeBuffer 1 (.ok ())]).released = [1] ∧
    (PoolHistory.run sampleEnv [.createBuffer 7 64 0, .createBuffer 8 64 0,
        .createBuffer 9 64 0, .freeBuffer 1 (.ok ())]).pool.getBuffer 1
      = .error invalidHandleMessage ∧
    (PoolHistory.run sampleEnv [.createBuffer 7 64 0, .createBuffer 8 64 0,
        .createBuffer 9 64 0, .freeBuffer 1 (.ok ())]).pool.getBuffer 9
      = .error invalidHandleMessage ∧
    (PoolHistory.run sampleEnv [.createBuffer 7 64 0, .createBuffer 8 64 0,
        .createBuffer 9 64 0, .freeBuffer 1 (.ok ())]).pool.getBuffer 2
      = .ok { m_id := 2, m_size := 64, m_vkHandle := 9 } :=
  ⟨rfl, rfl,
   (BufferPool.getBuffer_lifecycle sampleEnv [.createBuffer 7 64 0, .createBuffer 8 64 0,
      .createBuffer 9 64 0, .freeBuffer 1 (.ok ())] 1).2.2.1 (by decide) (by decide),
   (BufferPool.getBuffer_lifecycle sampleEnv [.createBuffer 7 64 0, .createBuffer 8 64 0,
      .createBuffer 9 64 0, .freeBuffer 1 (.ok ())] 9).1 (by decide),
   rfl⟩

/-! ### C16: the ID of a default-constructed buffer -/

/-- C16 as stated fails: the buffer in the staging slot of a device, default-constructed, and
the first buffer made by `createBuffer` are distinct objects, and both have the ID 0. -/
theorem staging_slot_shares_id_zero :
    ({} : StagingBufferInfo).stagingBuffer.getID = 0 ∧
    (PoolHistory.run sampleEnv [.createBuffer 7 64 0]).pool.m_buffers
      = [{ m_id := 0, m_size := 64, m_vkHandle := 7 }] ∧
    VulkanBuffer.getID { m_id := 0, m_size := 64, m_vkHandle := 7 } = 0 ∧
    ({} : StagingBufferInfo).stagingBuffer
      ≠ ({ m_id := 0, m_size := 64, m_vkHandle := 7 } : VulkanBuffer) := by
  refine ⟨rfl, rfl, rfl, ?_⟩
  decide

/-- C16 (amended): the IDs of the buffers built by the device-taking constructor are unique
among the first `2^32` of them: any two at different positions of the construction order have
different IDs, also after frees.  A default-constructed buffer, such as the one in the staging
slot before `configureStagingBuffer`, takes no ID from the counter: its ID is 0, the ID of the
first buffer constructed. -/
theorem constructed_buffer_ids_unique (ops : List BufferRegistryOp) (i j : Nat)
    (bi bj : VulkanBuffer) (hlen : (runBuffers ops).constructed.length ≤ 2 ^ 32)
    (hij : i ≠ j) (hi : (runBuffers ops).constructed[i]? = some bi)
    (hj : (runBuffers ops).constructed[j]? = some bj) :
    bi.getID ≠ bj.getID ∧
    ({} : StagingBufferInfo).stagingBuffer.getID = 0 ∧
    (∀ first, (runBuffers ops).constructed[0]? = some first →
      first.getID = ({} : StagingBufferInfo).stagingBuffer.getID) := by
  have hin := Registry.run_inOrder VulkanBuffer.construct VulkanBuffer.release VulkanBuffer.getID
    (fun _ _ => rfl) (fun _ _ => rfl) VulkanBuffer.release_id ops
  have hilt : i < (runBuffers ops).constructed.length := by
    by_contra hcon
    rw [List.getElem?_eq_none (by omega)] at hi
    cases hi
  have hjlt : j < (runBuffers ops).constructed.length := by
    by_contra hcon
    rw [List.getElem?_eq_none (by omega)] at hj
    cases hj
  have hm : idModulus = 2 ^ 32 := rfl
  refine ⟨?_, rfl, ?_⟩
  · rw [hin.2 i bi hi, hin.2 j bj hj, Nat.mod_eq_of_lt (by omega), Nat.mod_eq_of_lt (by omega)]
    exact hij
  · intro first hfirst
    rw [hin.2 0 first hfirst]
    rfl

/-- C16 (amended), at a concrete input: of three buffers constructed, the first freed, the
second and the third have different IDs. -/
theorem constructed_buffer_ids_unique_witness :
    (runBuffers [.construct (7, 64), .construct (8, 64), .free 0 (sampleEnv, .ok ()),
        .construct (9, 64)]).constructed.length ≤ 2 ^ 32 ∧
    VulkanBuffer.getID { m_id := 1, m_size := 64, m_vkHandle := 8 }
      ≠ VulkanBuffer.getID { m_id := 2, m_size := 64, m_vkHandle := 9 } :=
  ⟨by simp [runBuffers, Registry.run, Registry.step],
   (constructed_buffer_ids_unique
     [.construct (7, 64), .construct (8, 64), .free 0 (sampleEnv, .ok ()), .construct (9, 64)]
     1 2 { m_id := 1, m_size := 64, m_vkHandle := 8 } { m_id := 2, m_size := 64, m_vkHandle := 9 }
     (by simp [runBuffers, Registry.run, Registry.step]) (by decide) rfl rfl).1⟩

/-! ### C17: the fence wait -/

/-- C17: `VulkanFence::wait` returns after exactly one driver call, `vkWaitForFences` for one
fence, its own, waiting for all, with the timeout `2^64 - 1` (`UINT64_MAX`); and whatever method
of `VulkanFence` is called, every `vkWaitForFences` it issues is for that one fence with that
timeout. -/
theorem VulkanFence.wait_is_unbounded (device : VulkanDevice) (f : VulkanFence) :
    (VulkanFence.wait device f).trace
      = [Call.vkWaitForFences device.m_vkHandle 1 f.m_vkHandle VK_TRUE (2 ^ 64 - 1)] ∧
    (VulkanFence.wait device f).returned = true ∧
    (∀ (m : FenceMethod) (d n fence waitAll timeout : Nat),
      Call.vkWaitForFences d n fence waitAll timeout ∈ (VulkanFence.perform device f m).trace →
      timeout = 2 ^ 64 - 1 ∧ n = 1 ∧ fence = f.m_vkHandle) := by
  refine ⟨rfl, rfl, ?_⟩
  intro m d n fence waitAll timeout hmem
  cases m <;>
    simp [VulkanFence.perform, VulkanFence.reset, VulkanFence.wait, VulkanFence.free,
      UINT64_MAX] at hmem
  omega

/-! ### C18: the default chunk size -/

/-- C18: an allocator constructed without a chunk size has the default chunk size
`20 * 1024 * 1024 = 20 * 2^20 = 20971520` bytes, and one constructed with a size has that
size. -/
theorem VulkanMemoryAllocator.default_chunk_size (device : Nat)
    (memoryStructure : MemoryStructure) (size : Nat) :
    (VulkanMemoryAllocator.new device memoryStructure none).m_chunkSize = 20971520 ∧
    (20971520 : Nat) = 20 * 2 ^ 20 ∧
    defaultChunkSize = 20971520 ∧
    (VulkanMemoryAllocator.new device memoryStructure (some size)).m_chunkSize = size := by
  refine ⟨rfl, by decide, by decide, rfl⟩

/-! ### C19: the frame loop -/

/-- In a pass that does not skip the frame, the fence leaves with a submission pending. -/
theorem FrameLoop.iteration_submits (r : FrameResources) (st st1 : FrameLoop) (nextImage : Nat)
    (hframe : nextImage ≠ UINT32_MAX) (h : st.iteration r nextImage = .next st1) :
    st1.status.pending = true := by
  unfold FrameLoop.iteration at h
  cases hw : st.status.afterWait with
  | none => simp [hw] at h
  | some waited =>
    simp only [hw] at h
    have hne : ¬ (nextImage == UINT32_MAX) = true := by simpa using hframe
    rw [if_neg hne] at h
    cases hrec : recordFramebuffer st.graphicsBuffer with
    | error e => simp [hrec] at h
    | ok recorded =>
      simp only [hrec] at h
      split at h
      · cases h
      · simp only [Progress.next.injEq] at h
        rw [← h]
        rfl

/-- As long as no frame is skipped, the loop never calls `wait` on a fence that is neither
signaled nor named by a pending submission. -/
theorem FrameLoop.run_without_skip (r : FrameResources) (images : List Nat) (st : FrameLoop)
    (hst : st.status.signaled = true ∨ st.status.pending = true)
    (himages : ∀ image ∈ images, image ≠ UINT32_MAX) :
    ∀ stuck, FrameLoop.run r st images ≠ .waitsForever stuck := by
  induction images generalizing st with
  | nil =>
    intro stuck h
    simp [FrameLoop.run] at h
  | cons image rest ih =>
    intro stuck h
    unfold FrameLoop.run at h
    cases hit : st.iteration r image with
    | next st1 =>
      simp only [hit] at h
      have hp := FrameLoop.iteration_submits r st st1 image
        (himages image (List.mem_cons_self _ _)) hit
      exact ih st1 (Or.inr hp) (fun i hi => himages i (List.mem_cons_of_mem _ hi)) stuck h
    | waitsForever st1 =>
      unfold FrameLoop.iteration at hit
      have hw : st.status.afterWait = some { signaled := true, pending := false } := by
        unfold FenceStatus.afterWait
        rcases hst with hs | hs <;> simp [hs]
      simp only [hw] at hit
      split at hit
      · cases hit
      · split at hit
        · cases hit
        · split at hit <;> cases hit
    | throws e =>
      simp only [hit] at h
      cases h

/-- C19, the code at the failing input: the first pass of the loop skips its frame
(`acquireNextImage` returns `UINT32_MAX`).  It leaves the fence reset, with no submission
naming it, and the `wait()` of the second pass is called in that state: the fence is not
signaled, nothing is pending, and the unbounded wait never returns. -/
theorem FrameLoop.skipped_frame_blocks_next_wait :
    FrameLoop.initial.iteration sampleResources UINT32_MAX
      = .next { FrameLoop.initial with
                inFlightFence := { m_id := 0, m_isSignaled := false, m_vkHandle := 31 }
                status := { signaled := false, pending := false }
                frameCounter := 1 } ∧
    FrameLoop.run sampleResources FrameLoop.initial [UINT32_MAX, 0]
      = .waitsForever { FrameLoop.initial with
                        inFlightFence := { m_id := 0, m_isSignaled := false, m_vkHandle := 31 }
                        status := { signaled := false, pending := false }
                        frameCounter := 1 } := by
  constructor <;> decide

/-! ### C20: the recording flag -/

/-- C20: `beginRecording` throws if and only if the buffer is recording and otherwise leaves it
recording; `endRecording` throws if and only if the buffer is not recording and otherwise leaves
it not recording; a call that throws leaves the object, the flag included, as it was and issues
no driver call; a command buffer fresh from the constructor is not recording. -/
theorem VulkanCommandBuffer.recording_flag_machine (c : VulkanCommandBuffer) (flags : Nat)
    (counter commandBuffer : Nat) (isSecondary : Bool) (familyIndex threadID : Nat) :
    ((c.beginRecording flags).returned = false ↔ c.m_isRecording = true) ∧
    (c.m_isRecording = true →
      (c.beginRecording flags).thrown = some alreadyRecordingMessage ∧
      (c.beginRecording flags).self = c ∧ (c.beginRecording flags).trace = []) ∧
    (c.m_isRecording = false →
      (c.beginRecording flags).self = { c with m_isRecording := true } ∧
      (c.beginRecording flags).trace
        = [Call.vkBeginCommandBuffer c.m_vkHandle { flags := flags }]) ∧
    (c.endRecording.returned = false ↔ c.m_isRecording = false) ∧
    (c.m_isRecording = false →
      c.endRecording.thrown = some notRecordingMessage ∧
      c.endRecording.self = c ∧ c.endRecording.trace = []) ∧
    (c.m_isRecording = true →
      c.endRecording.self = { c with m_isRecording := false } ∧
      c.endRecording.trace = [Call.vkEndCommandBuffer c.m_vkHandle]) ∧
    (VulkanCommandBuffer.new counter commandBuffer isSecondary familyIndex threadID).1.m_isRecording
      = false ∧
    ({} : VulkanCommandBuffer).m_isRecording = false := by
  cases hrec : c.m_isRecording <;>
    simp [VulkanCommandBuffer.beginRecording, VulkanCommandBuffer.endRecording,
      VulkanCommandBuffer.new, Outcome.returned, Outcome.thrown, hrec]

/-- C20 at a concrete input: a fresh command buffer begins, refuses a second begin, ends, and
refuses a second end. -/
theorem VulkanCommandBuffer.recording_flag_machine_witness :
    ({ m_vkHandle := 5, m_isRecording := true } : VulkanCommandBuffer).m_isRecording = true ∧
    (VulkanCommandBuffer.beginRecording { m_vkHandle := 5, m_isRecording := true } 0).thrown
      = some alreadyRecordingMessage ∧
    ({ m_vkHandle := 5 } : VulkanCommandBuffer).m_isRecording = false ∧
    (VulkanCommandBuffer.endRecording { m_vkHandle := 5 }).thrown = some notRecordingMessage :=
  ⟨rfl,
   ((VulkanCommandBuffer.recording_flag_machine { m_vkHandle := 5, m_isRecording := true } 0
      0 5 false 0 0).2.1 rfl).1,
   rfl,
   ((VulkanCommandBuffer.recording_flag_machine { m_vkHandle := 5 } 0
      0 5 false 0 0).2.2.2.2.1 rfl).1⟩

/-! ### C21: submit and reset on a recording command buffer -/

/-- C21: `VulkanCommandBuffer::submit` and `VulkanCommandBuffer::reset` throw if and only if the
command buffer is recording, and the message is "Command buffer is still recording"; a
recording command buffer reaches neither `vkQueueSubmit` nor `vkResetCommandBuffer`, and one
that is not recording reaches exactly that one driver call. -/
theorem VulkanCommandBuffer.submit_reset_reject_while_recording (c : VulkanCommandBuffer)
    (queue : VulkanQueue) (waitSemaphoreData : List (Nat × Nat)) (signalSemaphores : List Nat)
    (fence : Option VulkanFence) :
    ((c.submit queue waitSemaphoreData signalSemaphores fence).returned = false
      ↔ c.m_isRecording = true) ∧
    ((c.submit queue waitSemaphoreData signalSemaphores fence).thrown
      = some stillRecordingMessage ↔ c.m_isRecording = true) ∧
    (c.reset.returned = false ↔ c.m_isRecording = true) ∧
    (c.reset.thrown = some stillRecordingMessage ↔ c.m_isRecording = true) ∧
    (c.m_isRecording = true →
      (c.submit queue waitSemaphoreData signalSemaphores fence).trace = [] ∧
      c.reset.trace = []) ∧
    (c.m_isRecording = false →
      (∃ submitInfo handle,
        (c.submit queue waitSemaphoreData signalSemaphores fence).trace
          = [Call.vkQueueSubmit queue.m_vkHandle 1 submitInfo handle]) ∧
      c.reset.trace = [Call.vkResetCommandBuffer c.m_vkHandle 0]) := by
  cases hrec : c.m_isRecording <;>
    simp [VulkanCommandBuffer.submit, VulkanCommandBuffer.reset, Outcome.returned,
      Outcome.thrown, hrec]

/-- C21 at a concrete input: a recording command buffer with handle 5 refuses `submit` and
`reset` without a driver call. -/
theorem VulkanCommandBuffer.submit_reset_reject_while_recording_witness :
    ({ m_vkHandle := 5, m_isRecording := true } : VulkanCommandBuffer).m_isRecording = true ∧
    (VulkanCommandBuffer.submit { m_vkHandle := 5, m_isRecording := true } { m_vkHandle := 3 }
        [(11, 1024)] [12] none).trace = [] ∧
    (VulkanCommandBuffer.reset { m_vkHandle := 5, m_isRecording := true }).trace = [] :=
  ⟨rfl,
   (VulkanCommandBuffer.submit_reset_reject_while_recording
      { m_vkHandle := 5, m_isRecording := true } { m_vkHandle := 3 } [(11, 1024)] [12]
      none).2.2.2.2.1 rfl⟩

/-! ### C22: repeated free -/

theorem VulkanBuffer.free_unbound (env : Env) (b : VulkanBuffer)
    (deallocated : Except String Unit) (h : b.m_memoryRegion.size = 0) :
    VulkanBuffer.free env b deallocated =
      { self := { b with m_vkHandle := VK_NULL_HANDLE }
        trace := [Call.vkDestroyBuffer env.device.m_vkHandle b.m_vkHandle]
        result := .ok () } := by
  simp [VulkanBuffer.free, h]

theorem VulkanBuffer.free_bound_ok (env : Env) (b : VulkanBuffer) (u : Unit)
    (h : 0 < b.m_memoryRegion.size) :
    VulkanBuffer.free env b (.ok u) =
      { self := { b with m_vkHandle := VK_NULL_HANDLE, m_memoryRegion := {} }
        trace := [Call.vkDestroyBuffer env.device.m_vkHandle b.m_vkHandle,
                  Call.deallocate b.m_memoryRegion true]
        result := .ok () } := by
  simp [VulkanBuffer.free, h]

theorem VulkanBuffer.free_bound_error (env : Env) (b : VulkanBuffer) (e : String)
    (h : 0 < b.m_memoryRegion.size) :
    VulkanBuffer.free env b (.error e) =
      { self := { b with m_vkHandle := VK_NULL_HANDLE }
        trace := [Call.vkDestroyBuffer env.device.m_vkHandle b.m_vkHandle,
                  Call.deallocate b.m_memoryRegion false]
        result := .error e } := by
  simp [VulkanBuffer.free, h]

/-- Consecutive frees of a buffer with no handle and no bound memory: each is one
`vkDestroyBuffer` on the null handle and changes nothing. -/
theorem VulkanBuffer.freeRepeatedly_released (env : Env) (b : VulkanBuffer)
    (deallocated : List (Except String Unit)) (hh : b.m_vkHandle = VK_NULL_HANDLE)
    (hr : b.m_memoryRegion.size = 0) :
    VulkanBuffer.freeRepeatedly env b deallocated =
      (b, List.replicate deallocated.length
        (Call.vkDestroyBuffer env.device.m_vkHandle VK_NULL_HANDLE)) := by
  have hb : ({ b with m_vkHandle := VK_NULL_HANDLE } : VulkanBuffer) = b := by
    cases b
    simp only [VulkanBuffer.mk.injEq, true_and, and_true]
    exact hh.symm
  induction deallocated with
  | nil => rfl
  | cons d rest ih =>
    simp only [VulkanBuffer.freeRepeatedly, VulkanBuffer.free_unbound env b d hr, hb, ih, hh,
      List.length_cons, List.replicate_succ, List.singleton_append]

/-- Consecutive frees of a buffer with no bound memory never reach `deallocate`. -/
theorem VulkanBuffer.freeRepeatedly_unbound (env : Env) (b : VulkanBuffer)
    (deallocated : List (Except String Unit)) (hr : b.m_memoryRegion.size = 0) :
    ∀ call ∈ (VulkanBuffer.freeRepeatedly env b deallocated).2, call.isDeallocate = false := by
  induction deallocated generalizing b with
  | nil => simp [VulkanBuffer.freeRepeatedly]
  | cons d rest ih =>
    intro call hcall
    simp only [VulkanBuffer.freeRepeatedly, VulkanBuffer.free_unbound env b d hr,
      List.mem_append, List.mem_singleton] at hcall
    rcases hcall with hcall | hcall
    · rw [hcall]; rfl
    · exact ih { b with m_vkHandle := VK_NULL_HANDLE } hr call hcall

/-- Consecutive frees pass only the buffer's own region to `deallocate`, and at most one of
those calls returns. -/
theorem VulkanBuffer.freeRepeatedly_deallocates (env : Env) (b : VulkanBuffer)
    (deallocated : List (Except String Unit)) :
    (∀ block completed,
      Call.deallocate block completed ∈ (VulkanBuffer.freeRepeatedly env b deallocated).2 →
      block = b.m_memoryRegion) ∧
    (VulkanBuffer.freeRepeatedly env b deallocated).2.count
      (Call.deallocate b.m_memoryRegion true) ≤ 1 := by
  induction deallocated generalizing b with
  | nil => simp [VulkanBuffer.freeRepeatedly]
  | cons d rest ih =>
    by_cases hb : 0 < b.m_memoryRegion.size
    · cases d with
      | error e =>
        have ih1 := ih { b with m_vkHandle := VK_NULL_HANDLE }
        simp only [VulkanBuffer.freeRepeatedly, VulkanBuffer.free_bound_error env b e hb]
        refine ⟨?_, ?_⟩
        · intro block completed hmem
          simp only [List.mem_append, List.mem_cons, List.mem_singleton, Call.deallocate.injEq,
            List.not_mem_nil, or_false, false_or, reduceCtorEq] at hmem
          rcases hmem with hmem | hmem
          · exact hmem.1
          · exact ih1.1 block completed hmem
        · rw [List.count_append]
          have h0 : List.count (Call.deallocate b.m_memoryRegion true)
              [Call.vkDestroyBuffer env.device.m_vkHandle b.m_vkHandle,
               Call.deallocate b.m_memoryRegion false] = 0 := by
            simp [List.count_cons]
          rw [h0]
          simpa using ih1.2
      | ok u =>
        have hz : ({ b with m_vkHandle := VK_NULL_HANDLE, m_memoryRegion := {} }
            : VulkanBuffer).m_memoryRegion.size = 0 := rfl
        have hnone := VulkanBuffer.freeRepeatedly_unbound env _ rest hz
        simp only [VulkanBuffer.freeRepeatedly, VulkanBuffer.free_bound_ok env b u hb]
        refine ⟨?_, ?_⟩
        · intro block completed hmem
          simp only [List.mem_append, List.mem_cons, List.mem_singleton, Call.deallocate.injEq,
            List.not_mem_nil, or_false, false_or, reduceCtorEq] at hmem
          rcases hmem with hmem | hmem
          · exact hmem.1
          · exact absurd (hnone _ hmem) (by simp [Call.isDeallocate])
        · rw [List.count_append]
          have h1 : List.count (Call.deallocate b.m_memoryRegion true)
              [Call.vkDestroyBuffer env.device.m_vkHandle b.m_vkHandle,
               Call.deallocate b.m_memoryRegion true] = 1 := by
            simp [List.count_cons]
          have h0 : List.count (Call.deallocate b.m_memoryRegion true)
              (VulkanBuffer.freeRepeatedly env
                { b with m_vkHandle := VK_NULL_HANDLE, m_memoryRegion := {} } rest).2 = 0 := by
            rw [List.count_eq_zero]
            intro hmem
            exact absurd (hnone _ hmem) (by simp [Call.isDeallocate])
          rw [h1, h0]
    · have hz : b.m_memoryRegion.size = 0 := by omega
      have hnone := VulkanBuffer.freeRepeatedly_unbound env b (d :: rest) hz
      refine ⟨?_, ?_⟩
      · intro block completed hmem
        exact absurd (hnone _ hmem) (by simp [Call.isDeallocate])
      · have h0 : List.count (Call.deallocate b.m_memoryRegion true)
            (VulkanBuffer.freeRepeatedly env b (d :: rest)).2 = 0 := by
          rw [List.count_eq_zero]
          intro hmem
          exact absurd (hnone _ hmem) (by simp [Call.isDeallocate])
        omega

/-- C22 as stated fails: when the allocator's `deallocate` throws, `free` passes the exception
on before it resets the region, so the next `free` passes the same block to `deallocate`
again.  Two consecutive frees of the bound sample buffer call `deallocate` twice with its
block. -/
theorem VulkanBuffer.free_offers_block_again_after_throw :
    (VulkanBuffer.freeRepeatedly sampleEnv boundBuffer
        [.error "no such chunk", .error "no such chunk"]).2
      = [Call.vkDestroyBuffer 1 7,
         Call.deallocate { size := 64, offset := 128, chunk := 2 } false,
         Call.vkDestroyBuffer 1 VK_NULL_HANDLE,
         Call.deallocate { size := 64, offset := 128, chunk := 2 } false] ∧
    (VulkanBuffer.freeRepeatedly sampleEnv boundBuffer
        [.error "no such chunk", .error "no such chunk"]).2.countP Call.isDeallocate = 2 ∧
    (VulkanBuffer.freeRepeatedly sampleEnv boundBuffer
        [.error "no such chunk", .error "no such chunk"]).1.m_memoryRegion
      = { size := 64, offset := 128, chunk := 2 } := by
  refine ⟨?_, ?_, ?_⟩ <;> decide

/-- C22 (amended): for every buffer and every run of consecutive `free` calls, whatever the
allocator's `deallocate` does each time it is reached: a `deallocate` call passes the buffer's
bound region and no other block, at most one such call returns, and an unbound buffer never
reaches `deallocate`.  Once the first `free` has returned, `deallocate` has been called once if
the buffer was bound and not at all otherwise, and every later `free` is one `vkDestroyBuffer`
on the null handle that leaves the buffer (handle, memory region and the rest) as it was and
makes no allocator call.  A `free` of a bound buffer whose `deallocate` throws does not return
and leaves the region bound. -/
theorem VulkanBuffer.free_deallocates_at_most_once (env : Env) (b : VulkanBuffer)
    (deallocated : List (Except String Unit)) :
    (∀ block completed,
      Call.deallocate block completed ∈ (VulkanBuffer.freeRepeatedly env b deallocated).2 →
      block = b.m_memoryRegion) ∧
    (VulkanBuffer.freeRepeatedly env b deallocated).2.count
      (Call.deallocate b.m_memoryRegion true) ≤ 1 ∧
    (b.m_memoryRegion.size = 0 →
      ∀ call ∈ (VulkanBuffer.freeRepeatedly env b deallocated).2, call.isDeallocate = false) ∧
    (∀ first rest, deallocated = first :: rest →
      (VulkanBuffer.free env b first).returned = true →
      (VulkanBuffer.free env b first).trace.filter Call.isDeallocate
        = (if 0 < b.m_memoryRegion.size then [Call.deallocate b.m_memoryRegion true] else []) ∧
      (VulkanBuffer.freeRepeatedly env b deallocated).2.filter Call.isDeallocate
        = (if 0 < b.m_memoryRegion.size then [Call.deallocate b.m_memoryRegion true] else []) ∧
      VulkanBuffer.freeRepeatedly env (VulkanBuffer.free env b first).self rest
        = ((VulkanBuffer.free env b first).self,
           List.replicate rest.length
             (Call.vkDestroyBuffer env.device.m_vkHandle VK_NULL_HANDLE))) ∧
    (∀ e, 0 < b.m_memoryRegion.size →
      (VulkanBuffer.free env b (.error e)).returned = false ∧
      (VulkanBuffer.free env b (.error e)).self.m_memoryRegion = b.m_memoryRegion) := by
  refine ⟨(VulkanBuffer.freeRepeatedly_deallocates env b deallocated).1,
    (VulkanBuffer.freeRepeatedly_deallocates env b deallocated).2,
    VulkanBuffer.freeRepeatedly_unbound env b deallocated, ?_, ?_⟩
  · intro first rest hd hret
    subst hd
    have hfilter : ∀ n : Nat, (List.replicate n
        (Call.vkDestroyBuffer env.device.m_vkHandle VK_NULL_HANDLE)).filter Call.isDeallocate
          = [] := by
      intro n
      rw [List.filter_eq_nil_iff]
      intro call hcall
      rw [List.eq_of_mem_replicate hcall]
      simp [Call.isDeallocate]
    by_cases hb : 0 < b.m_memoryRegion.size
    · cases first with
      | error e => simp [VulkanBuffer.free_bound_error env b e hb, Outcome.returned] at hret
      | ok u =>
        have hrel := VulkanBuffer.freeRepeatedly_released env
          { b with m_vkHandle := VK_NULL_HANDLE, m_memoryRegion := {} } rest rfl rfl
        simp only [VulkanBuffer.freeRepeatedly, VulkanBuffer.free_bound_ok env b u hb, hrel,
          List.filter_append, hfilter, hb, if_true, List.append_nil, and_true]
        simp [List.filter_cons, Call.isDeallocate]
    · have hz : b.m_memoryRegion.size = 0 := by omega
      have hrel := VulkanBuffer.freeRepeatedly_released env
        { b with m_vkHandle := VK_NULL_HANDLE } rest rfl hz
      simp only [VulkanBuffer.freeRepeatedly, VulkanBuffer.free_unbound env b first hz, hrel,
        List.filter_append, hfilter, hb, if_false, List.append_nil, and_true]
      simp [List.filter_cons, Call.isDeallocate]
  · intro e hb
    rw [VulkanBuffer.free_bound_error env b e hb]
    exact ⟨rfl, rfl⟩

/-- C22 (amended), at a concrete input: the bound sample buffer freed three times hands its
block to the allocator once. -/
theorem VulkanBuffer.free_deallocates_at_most_once_witness :
    (VulkanBuffer.free sampleEnv boundBuffer (.ok ())).returned = true ∧
    (VulkanBuffer.freeRepeatedly sampleEnv boundBuffer
        [.ok (), .ok (), .ok ()]).2.filter Call.isDeallocate
      = [Call.deallocate { size := 64, offset := 128, chunk := 2 } true] :=
  ⟨rfl,
   ((VulkanBuffer.free_deallocates_at_most_once sampleEnv boundBuffer
      [.ok (), .ok (), .ok ()]).2.2.2.1 (.ok ()) [.ok (), .ok ()] rfl rfl).2.1⟩

/-! ### C23: a rejected bind changes nothing -/

/-- C23: `VulkanBuffer::setBoundMemory` throws if and only if the buffer has a bound region of
non-zero size; when it does, the message is "Buffer already has memory bound to it!", the
buffer is as it was before the call (region with its size, offset and chunk, handle, mapped
pointer and the rest), and no driver call is made, `vkBindBufferMemory` in particular. -/
theorem VulkanBuffer.rejected_bind_is_atomic (env : Env) (b : VulkanBuffer)
    (memoryRegion : MemoryBlock) :
    ((VulkanBuffer.setBoundMemory env b memoryRegion).returned = false
      ↔ 0 < b.m_memoryRegion.size) ∧
    (0 < b.m_memoryRegion.size →
      (VulkanBuffer.setBoundMemory env b memoryRegion).thrown = some alreadyBoundMessage ∧
      (VulkanBuffer.setBoundMemory env b memoryRegion).self = b ∧
      (VulkanBuffer.setBoundMemory env b memoryRegion).self.m_memoryRegion.size
        = b.m_memoryRegion.size ∧
      (VulkanBuffer.setBoundMemory env b memoryRegion).self.m_memoryRegion.offset
        = b.m_memoryRegion.offset ∧
      (VulkanBuffer.setBoundMemory env b memoryRegion).self.m_memoryRegion.chunk
        = b.m_memoryRegion.chunk ∧
      (VulkanBuffer.setBoundMemory env b memoryRegion).self.m_vkHandle = b.m_vkHandle ∧
      (VulkanBuffer.setBoundMemory env b memoryRegion).self.m_mappedData = b.m_mappedData ∧
      (VulkanBuffer.setBoundMemory env b memoryRegion).trace = [] ∧
      ∀ call ∈ (VulkanBuffer.setBoundMemory env b memoryRegion).trace,
        call.isBind = false) := by
  by_cases hb : 0 < b.m_memoryRegion.size
  · simp [VulkanBuffer.setBoundMemory_bound env b memoryRegion hb, Outcome.returned,
      Outcome.thrown, hb]
  · have hz : b.m_memoryRegion.size = 0 := by omega
    simp [VulkanBuffer.setBoundMemory, hz, Outcome.returned]

/-- C23 at a concrete input: binding another block to the bound sample buffer is refused and
leaves its region in place. -/
theorem VulkanBuffer.rejected_bind_is_atomic_witness :
    0 < boundBuffer.m_memoryRegion.size ∧
    (VulkanBuffer.setBoundMemory sampleEnv boundBuffer
        { size := 64, offset := 192, chunk := 2 }).self = boundBuffer ∧
    (VulkanBuffer.setBoundMemory sampleEnv boundBuffer
        { size := 64, offset := 192, chunk := 2 }).trace = [] :=
  ⟨by decide,
   ((VulkanBuffer.rejected_bind_is_atomic sampleEnv boundBuffer
      { size := 64, offset := 192, chunk := 2 }).2 (by decide)).2.1,
   ((VulkanBuffer.rejected_bind_is_atomic sampleEnv boundBuffer
      { size := 64, offset := 192, chunk := 2 }).2 (by decide)).2.2.2.2.2.2.2.1⟩

/-! ### C24: what the recording methods, submit and reset leave alone -/

theorem VulkanCommandBuffer.whenRecording_self (c : VulkanCommandBuffer) (call : Call) :
    (VulkanCommandBuffer.whenRecording c call).self = c := by
  unfold VulkanCommandBuffer.whenRecording
  split <;> rfl

theorem VulkanCommandBuffer.record_self (c : VulkanCommandBuffer) (m : CmdMethod) :
    (c.record m).self = c := by
  cases m <;>
    simp [VulkanCommandBuffer.record, VulkanCommandBuffer.cmdBeginRenderPass,
      VulkanCommandBuffer.cmdEndRenderPass, VulkanCommandBuffer.cmdBindPipeline,
      VulkanCommandBuffer.cmdNextSubpass, VulkanCommandBuffer.cmdPipelineBarrier,
      VulkanCommandBuffer.cmdBindVertexBuffer, VulkanCommandBuffer.cmdBindVertexBuffers,
      VulkanCommandBuffer.cmdBindIndexBuffer, VulkanCommandBuffer.cmdCopyBuffer,
      VulkanCommandBuffer.cmdPushConstant, VulkanCommandBuffer.cmdSetViewport,
      VulkanCommandBuffer.cmdSetScissor, VulkanCommandBuffer.cmdDraw,
      VulkanCommandBuffer.cmdDrawIndexed, VulkanCommandBuffer.whenRecording_self]

theorem VulkanCommandBuffer.submit_self (c : VulkanCommandBuffer) (queue : VulkanQueue)
    (waitSemaphoreData : List (Nat × Nat)) (signalSemaphores : List Nat)
    (fence : Option VulkanFence) :
    (c.submit queue waitSemaphoreData signalSemaphores fence).self = c := by
  unfold VulkanCommandBuffer.submit
  split <;> rfl

theorem VulkanCommandBuffer.reset_self (c : VulkanCommandBuffer) : c.reset.self = c := by
  unfold VulkanCommandBuffer.reset
  split <;> rfl

/-- C24: each of the fourteen `cmd*` methods, `submit` and `reset`, whether it returns or
throws, leaves the command buffer as it was: the recording flag, the ID, the family index and
the thread ID (and the handle and the secondary flag) are unchanged. -/
theorem VulkanCommandBuffer.flag_changed_only_by_begin_end (c : VulkanCommandBuffer)
    (m : CmdMethod) (queue : VulkanQueue) (waitSemaphoreData : List (Nat × Nat))
    (signalSemaphores : List Nat) (fence : Option VulkanFence) :
    ((c.record m).self.m_isRecording = c.m_isRecording ∧
      (c.record m).self.m_id = c.m_id ∧
      (c.record m).self.m_familyIndex = c.m_familyIndex ∧
      (c.record m).self.m_threadID = c.m_threadID ∧
      (c.record m).self = c) ∧
    ((c.submit queue waitSemaphoreData signalSemaphores fence).self.m_isRecording
        = c.m_isRecording ∧
      (c.submit queue waitSemaphoreData signalSemaphores fence).self.m_id = c.m_id ∧
      (c.submit queue waitSemaphoreData signalSemaphores fence).self.m_familyIndex
        = c.m_familyIndex ∧
      (c.submit queue waitSemaphoreData signalSemaphores fence).self.m_threadID
        = c.m_threadID ∧
      (c.submit queue waitSemaphoreData signalSemaphores fence).self = c) ∧
    (c.reset.self.m_isRecording = c.m_isRecording ∧
      c.reset.self.m_id = c.m_id ∧
      c.reset.self.m_familyIndex = c.m_familyIndex ∧
      c.reset.self.m_threadID = c.m_threadID ∧
      c.reset.self = c) := by
  rw [VulkanCommandBuffer.record_self, VulkanCommandBuffer.submit_self,
    VulkanCommandBuffer.reset_self]
  simp

/-! ### C25: the signaled flag of a fence -/

/-- C25: a `VulkanFence` constructed with `isSignaled = b` reports `b`; after `reset()` it
reports false and after `wait()` true, whatever it reported before, and both calls return;
`free()` returns and changes neither the flag nor the ID. -/
theorem VulkanFence.signaled_flag_follows_calls (device : VulkanDevice) (f : VulkanFence)
    (s_idCounter fence : Nat) (b : Bool) :
    (VulkanFence.new s_idCounter fence b).1.isSignaled = b ∧
    (VulkanFence.reset device f).returned = true ∧
    (VulkanFence.reset device f).self.isSignaled = false ∧
    (VulkanFence.wait device f).returned = true ∧
    (VulkanFence.wait device f).self.isSignaled = true ∧
    (VulkanFence.free device f).returned = true ∧
    (VulkanFence.free device f).self.isSignaled = f.isSignaled ∧
    (VulkanFence.free device f).self.getID = f.getID :=
  ⟨rfl, rfl, rfl, rfl, rfl, rfl, rfl, rfl⟩

/-! ### Shared lemmas on `loadModel` -/

theorem Scalar.eq_true_iff (a b : Scalar) : a.eq b = true ↔ a = b ∧ a ≠ .nan := by
  cases a <;> cases b <;> simp [Scalar.eq]

theorem Vertex.eq_implies_same (a b : Vertex) (h : a.eq b = true) : a = b := by
  rcases a with ⟨⟨a1, a2, a3⟩, ⟨a4, a5⟩, ⟨a6, a7, a8⟩⟩
  rcases b with ⟨⟨b1, b2, b3⟩, ⟨b4, b5⟩, ⟨b6, b7, b8⟩⟩
  simp only [Vertex.eq, Vec3.eq, Vec2.eq, Bool.and_eq_true, Scalar.eq_true_iff] at h
  simp only [Vertex.mk.injEq, Vec3.mk.injEq, Vec2.mk.injEq]
  tauto

theorem Vertex.eq_symmetric (a b : Vertex) (h : a.eq b = true) : b.eq a = true := by
  have := Vertex.eq_implies_same a b h
  subst this
  exact h

theorem Vertex.eq_transitive (a b c : Vertex) (h1 : a.eq b = true) (h2 : b.eq c = true) :
    a.eq c = true := by
  have := Vertex.eq_implies_same a b h1
  subst this
  exact h2


theorem VertexMap.assign_absent (m : VertexMap) (key : Vertex) (value : Nat)
    (h : m.contains key = false) : m.assign key value = m ++ [(key, value)] := by
  induction m with
  | nil => rfl
  | cons e rest ih =>
    simp only [VertexMap.contains, List.any_cons, Bool.or_eq_false_iff] at h
    simp only [VertexMap.assign, h.1, Bool.false_eq_true, if_false, List.cons_append]
    rw [ih h.2]

theorem VertexMap.subscript_absent (m : VertexMap) (key : Vertex)
    (h : m.contains key = false) : m.subscript key = (0, m ++ [(key, 0)]) := by
  have hfind : m.find? (fun e => e.1.eq key) = none := by
    rw [List.find?_eq_none]
    intro e he
    simp only [VertexMap.contains, List.any_eq_false] at h
    exact h e he
  simp [VertexMap.subscript, hfind]

theorem VertexMap.subscript_present (m : VertexMap) (key : Vertex)
    (h : m.contains key = true) :
    ∃ e ∈ m, e.1.eq key = true ∧ m.subscript key = (e.2, m) := by
  cases hfind : m.find? (fun e => e.1.eq key) with
  | none =>
    rw [List.find?_eq_none] at hfind
    simp only [VertexMap.contains, List.any_eq_true] at h
    obtain ⟨e, he, hk⟩ := h
    exact absurd hk (hfind e he)
  | some e =>
    have h1 := List.find?_some hfind
    have h2 := List.mem_of_find?_eq_some hfind
    exact ⟨e, h2, h1, by simp [VertexMap.subscript, hfind]⟩

theorem VertexMap.contains_append (m n : VertexMap) (key : Vertex) :
    VertexMap.contains (m ++ n) key = (m.contains key || VertexMap.contains n key) := by
  simp [VertexMap.contains]

/-- The loop body when no stored key equals the vertex and the vertex equals itself. -/
theorem addVertex_new (st : LoaderState) (v : Vertex)
    (h : st.uniqueVertices.contains v = false) (hv : v.eq v = true) :
    addVertex st v =
      { vertices := st.vertices ++ [v]
        indices := st.indices ++ [castU32 st.vertices.length]
        uniqueVertices := st.uniqueVertices ++ [(v, castU32 st.vertices.length)] } := by
  have hc : VertexMap.contains (st.uniqueVertices ++ [(v, castU32 st.vertices.length)]) v
      = true := by
    simp [VertexMap.contains, hv]
  obtain ⟨e, he, hk, hs⟩ := VertexMap.subscript_present _ v hc
  have he2 : e.2 = castU32 st.vertices.length := by
    rcases List.mem_append.1 he with h1 | h1
    · simp only [VertexMap.contains, List.any_eq_false] at h
      exact absurd hk (h e h1)
    · simp only [List.mem_singleton] at h1
      rw [h1]
  simp only [addVertex, h, Bool.not_false, if_true, VertexMap.assign_absent _ _ _ h, hs, he2]

/-- The loop body when no stored key equals the vertex and the vertex does not equal itself:
the read `uniqueVertices[vertex]` finds no key either and yields 0. -/
theorem addVertex_unequal (st : LoaderState) (v : Vertex)
    (h : st.uniqueVertices.contains v = false) (hv : v.eq v = false) :
    addVertex st v =
      { vertices := st.vertices ++ [v]
        indices := st.indices ++ [0]
        uniqueVertices :=
          st.uniqueVertices ++ [(v, castU32 st.vertices.length)] ++ [(v, 0)] } := by
  have hc : VertexMap.contains (st.uniqueVertices ++ [(v, castU32 st.vertices.length)]) v
      = false := by
    rw [VertexMap.contains_append, h]
    simp [VertexMap.contains, hv]
  simp only [addVertex, h, Bool.not_false, if_true, VertexMap.assign_absent _ _ _ h,
    VertexMap.subscript_absent _ _ hc]

/-- The loop body when a stored key equals the vertex. -/
theorem addVertex_known (st : LoaderState) (v : Vertex)
    (h : st.uniqueVertices.contains v = true) :
    ∃ e ∈ st.uniqueVertices, e.1.eq v = true ∧
      addVertex st v = { st with indices := st.indices ++ [e.2] } := by
  obtain ⟨e, he, hk, hs⟩ := VertexMap.subscript_present _ v h
  exact ⟨e, he, hk, by simp [addVertex, h, hs]⟩

theorem foldl_addVertex_induction (P : LoaderState → List Vertex → Prop) (vs : List Vertex)
    (st0 : LoaderState) (h0 : P st0 [])
    (hstep : ∀ st done v rest, vs = done ++ v :: rest → P st done →
      P (addVertex st v) (done ++ [v])) :
    P (vs.foldl addVertex st0) vs := by
  have key : ∀ (rest done : List Vertex) (st : LoaderState), vs = done ++ rest → P st done →
      P (rest.foldl addVertex st) vs := by
    intro rest
    induction rest with
    | nil =>
      intro done st hvs hP
      simp only [List.append_nil] at hvs
      subst hvs
      exact hP
    | cons v rest ih =>
      intro done st hvs hP
      exact ih (done ++ [v]) (addVertex st v) (by simp [hvs]) (hstep st done v rest hvs hP)
  exact key vs [] st0 rfl h0


theorem castU32_le (n : Nat) : castU32 n ≤ n := Nat.mod_le _ _

theorem castU32_small (n : Nat) (h : n < 2 ^ 32) : castU32 n = n := Nat.mod_eq_of_lt h

/-- Whatever the vertices are, every index written is in range and one index is written per
vertex visited. -/
theorem foldl_addVertex_bounds (vs : List Vertex) :
    (vs.foldl addVertex {}).indices.length = vs.length ∧
    ∀ i ∈ (vs.foldl addVertex {}).indices, i < (vs.foldl addVertex {}).vertices.length := by
  have h := foldl_addVertex_induction
    (fun st done => st.indices.length = done.length ∧
      (∀ i ∈ st.indices, i < st.vertices.length) ∧
      (∀ e ∈ st.uniqueVertices, e.2 < st.vertices.length)) vs {}
    ⟨rfl, by simp, by simp⟩
    (by
      intro st done v rest _ hP
      obtain ⟨h1, h2, h3⟩ := hP
      cases hc : st.uniqueVertices.contains v with
      | true =>
        obtain ⟨e, he, _, heq⟩ := addVertex_known st v hc
        rw [heq]
        refine ⟨by simp [h1], ?_, h3⟩
        intro i hi
        rcases List.mem_append.1 hi with hi | hi
        · exact h2 i hi
        · simp only [List.mem_singleton] at hi
          rw [hi]
          exact h3 e he
      | false =>
        have hlen := castU32_le st.vertices.length
        cases hv : v.eq v with
        | true =>
          rw [addVertex_new st v hc hv]
          refine ⟨by simp [h1], ?_, ?_⟩
          · intro i hi
            simp only [List.length_append, List.length_singleton]
            rcases List.mem_append.1 hi with hi | hi
            · have := h2 i hi
              omega
            · simp only [List.mem_singleton] at hi
              omega
          · intro e he
            simp only [List.length_append, List.length_singleton]
            rcases List.mem_append.1 he with he | he
            · have := h3 e he
              omega
            · simp only [List.mem_singleton] at he
              rw [he]
              show castU32 st.vertices.length < _
              omega
        | false =>
          rw [addVertex_unequal st v hc hv]
          refine ⟨by simp [h1], ?_, ?_⟩
          · intro i hi
            simp only [List.length_append, List.length_singleton]
            rcases List.mem_append.1 hi with hi | hi
            · have := h2 i hi
              omega
            · simp only [List.mem_singleton] at hi
              omega
          · intro e he
            simp only [List.length_append, List.length_singleton]
            rcases List.mem_append.1 he with he | he
            · rcases List.mem_append.1 he with he | he
              · have := h3 e he
                omega
              · simp only [List.mem_singleton] at he
                rw [he]
                show castU32 st.vertices.length < _
                omega
            · simp only [List.mem_singleton] at he
              rw [he]
              show 0 < _
              omega)
  exact ⟨h.1, h.2.1⟩

theorem firstOccurrencesAfter_concat (seen xs : List Vertex) (v : Vertex) :
    firstOccurrencesAfter seen (xs ++ [v]) =
      firstOccurrencesAfter seen xs ++
        (if (seen ++ xs).any (fun u => u.eq v) then [] else [v]) := by
  induction xs generalizing seen with
  | nil => simp [firstOccurrencesAfter]
  | cons x rest ih =>
    have hassoc : seen ++ [x] ++ rest = seen ++ x :: rest := by simp
    simp only [List.cons_append, firstOccurrencesAfter, List.append_eq]
    rw [ih (seen ++ [x]), hassoc]
    split <;> rfl

theorem firstOccurrences_concat (done : List Vertex) (v : Vertex) :
    firstOccurrences (done ++ [v]) =
      firstOccurrences done ++ (if done.any (fun u => u.eq v) then [] else [v]) := by
  simpa [firstOccurrences] using firstOccurrencesAfter_concat [] done v

theorem mem_firstOccurrencesAfter (seen xs : List Vertex) (a : Vertex)
    (h : a ∈ firstOccurrencesAfter seen xs) : a ∈ xs := by
  induction xs generalizing seen with
  | nil => simp [firstOccurrencesAfter] at h
  | cons x rest ih =>
    simp only [firstOccurrencesAfter] at h
    split at h
    · exact List.mem_cons_of_mem _ (ih _ h)
    · rcases List.mem_cons.1 h with h | h
      · rw [h]
        exact List.mem_cons_self _ _
      · exact List.mem_cons_of_mem _ (ih _ h)

theorem firstOccurrences_pairwise (vs : List Vertex) :
    (firstOccurrences vs).Pairwise (fun a b => a.eq b = false) := by
  induction vs using List.reverseRecOn with
  | nil => simp [firstOccurrences, firstOccurrencesAfter]
  | append_singleton done v ih =>
    rw [firstOccurrences_concat]
    cases hany : done.any (fun u => u.eq v) with
    | true => simpa using ih
    | false =>
      simp only [Bool.false_eq_true, if_false]
      rw [List.pairwise_append]
      refine ⟨ih, List.pairwise_singleton _ _, ?_⟩
      intro a ha b hb
      simp only [List.mem_singleton] at hb
      rw [hb]
      rw [List.any_eq_false] at hany
      simpa using hany a (mem_firstOccurrencesAfter [] done a ha)

/-- The vertices stored are the first occurrences of the vertices visited, and a key is found
in the map exactly when a visited vertex equals it. -/
theorem foldl_addVertex_vertices (vs : List Vertex) :
    (vs.foldl addVertex {}).vertices = firstOccurrences vs := by
  have h := foldl_addVertex_induction
    (fun st done => (∀ x, st.uniqueVertices.contains x = done.any (fun u => u.eq x)) ∧
      st.vertices = firstOccurrences done) vs {}
    ⟨by intro x; rfl, rfl⟩
    (by
      intro st done v rest _ hP
      obtain ⟨h1, h2⟩ := hP
      have hcv := h1 v
      rw [firstOccurrences_concat]
      cases hc : st.uniqueVertices.contains v with
      | true =>
        obtain ⟨e, _, _, heq⟩ := addVertex_known st v hc
        rw [hc] at hcv
        rw [heq, ← hcv]
        refine ⟨?_, by simpa using h2⟩
        intro x
        show st.uniqueVertices.contains x = _
        rw [h1 x, List.any_append]
        cases hvx : v.eq x with
        | false => simp [hvx]
        | true =>
          obtain ⟨u, hu, huv⟩ := List.any_eq_true.1 hcv.symm
          have : done.any (fun u => u.eq x) = true :=
            List.any_eq_true.2 ⟨u, hu, Vertex.eq_transitive u v x huv hvx⟩
          simp [this]
      | false =>
        rw [hc] at hcv
        rw [← hcv]
        cases hv : v.eq v with
        | true =>
          rw [addVertex_new st v hc hv]
          refine ⟨?_, by simp [h2]⟩
          intro x
          show VertexMap.contains (st.uniqueVertices ++ _) x = _
          rw [VertexMap.contains_append, h1 x, List.any_append]
          simp [VertexMap.contains]
        | false =>
          rw [addVertex_unequal st v hc hv]
          refine ⟨?_, by simp [h2]⟩
          intro x
          show VertexMap.contains (st.uniqueVertices ++ _ ++ _) x = _
          rw [VertexMap.contains_append, VertexMap.contains_append, h1 x, List.any_append]
          simp [VertexMap.contains])
  exact h.2


theorem getElem?_append_of_some {α : Type} (l l2 : List α) (i : Nat) (a : α)
    (h : l[i]? = some a) : (l ++ l2)[i]? = some a := by
  obtain ⟨hi, _⟩ := List.getElem?_eq_some.1 h
  rw [List.getElem?_append_left hi, h]

theorem getElem?_concat_self {α : Type} (l : List α) (a : α) :
    (l ++ [a])[l.length]? = some a := by
  simp

/-- When every vertex visited equals itself and at most `2 ^ 32` are visited, reading
`vertices` at the indices written gives back the vertices visited. -/
theorem foldl_addVertex_reads (vs : List Vertex) (hrefl : ∀ v ∈ vs, v.eq v = true)
    (hlen : vs.length ≤ 2 ^ 32) :
    (vs.foldl addVertex {}).indices.map (fun i => (vs.foldl addVertex {}).vertices[i]?)
      = vs.map some := by
  have h := foldl_addVertex_induction
    (fun st done => st.indices.map (fun i => st.vertices[i]?) = done.map some ∧
      (∀ e ∈ st.uniqueVertices, st.vertices[e.2]? = some e.1) ∧
      st.vertices.length ≤ done.length) vs {}
    ⟨rfl, by simp, by simp⟩
    (by
      intro st done v rest hvs hP
      obtain ⟨h1, h2, h3⟩ := hP
      cases hc : st.uniqueVertices.contains v with
      | true =>
        obtain ⟨e, he, hk, heq⟩ := addVertex_known st v hc
        have hev : e.1 = v := Vertex.eq_implies_same e.1 v hk
        rw [heq]
        refine ⟨?_, h2, by simp only [List.length_append, List.length_singleton]; omega⟩
        simp only [List.map_append, List.map_cons, List.map_nil, h1, h2 e he, hev]
      | false =>
        have hv : v.eq v = true := hrefl v (by rw [hvs]; simp)
        have hdone : done.length < vs.length := by rw [hvs]; simp
        have hcast : castU32 st.vertices.length = st.vertices.length :=
          castU32_small _ (by omega)
        have hold : ∀ i ∈ st.indices,
            (st.vertices ++ [v])[i]? = st.vertices[i]? := by
          intro i hi
          have hmem : st.vertices[i]? ∈ st.indices.map (fun i => st.vertices[i]?) :=
            List.mem_map_of_mem _ hi
          rw [h1] at hmem
          obtain ⟨u, _, hu⟩ := List.mem_map.1 hmem
          rw [← hu]
          exact getElem?_append_of_some _ _ _ _ hu.symm
        rw [addVertex_new st v hc hv, hcast]
        refine ⟨?_, ?_, by simp only [List.length_append, List.length_singleton]; omega⟩
        · simp only [List.map_append, List.map_cons, List.map_nil, getElem?_concat_self]
          rw [List.map_congr_left hold, h1]
        · intro e he
          rcases List.mem_append.1 he with he | he
          · exact getElem?_append_of_some _ _ _ _ (h2 e he)
          · simp only [List.mem_singleton] at he
            rw [he]
            exact getElem?_concat_self _ _)
  exact h.1

theorem buildVertex_isSome (oneMinus : Scalar → Scalar) (attrib : attrib_t) (index : index_t) :
    (buildVertex oneMinus attrib index).isSome = index.inRange attrib := by
  unfold buildVertex index_t.inRange
  cases readFloat attrib.vertices (3 * index.vertex_index + 0) <;>
  cases readFloat attrib.vertices (3 * index.vertex_index + 1) <;>
  cases readFloat attrib.vertices (3 * index.vertex_index + 2) <;>
  cases readFloat attrib.texcoords (2 * index.texcoord_index + 0) <;>
  cases readFloat attrib.texcoords (2 * index.texcoord_index + 1) <;>
  cases readFloat attrib.normals (3 * index.normal_index + 0) <;>
  cases readFloat attrib.normals (3 * index.normal_index + 1) <;>
  cases readFloat attrib.normals (3 * index.normal_index + 2) <;> rfl

theorem foldl_visitIndex_none (oneMinus : Scalar → Scalar) (attrib : attrib_t)
    (l : List index_t) : l.foldl (visitIndex oneMinus attrib) none = none := by
  induction l with
  | nil => rfl
  | cons index rest ih => exact ih

theorem foldl_visitIndex_inRange (oneMinus : Scalar → Scalar) (attrib : attrib_t)
    (l : List index_t) (st : LoaderState) (h : ∀ index ∈ l, index.inRange attrib = true) :
    l.foldl (visitIndex oneMinus attrib) (some st)
      = some ((l.filterMap (buildVertex oneMinus attrib)).foldl addVertex st) := by
  induction l generalizing st with
  | nil => rfl
  | cons index rest ih =>
    have hi : (buildVertex oneMinus attrib index).isSome = true := by
      rw [buildVertex_isSome]
      exact h index (List.mem_cons_self _ _)
    obtain ⟨v, hv⟩ := Option.isSome_iff_exists.1 hi
    have hstep : visitIndex oneMinus attrib (some st) index = some (addVertex st v) := by
      simp [visitIndex, hv]
    rw [List.foldl_cons, hstep, ih _ (fun i hi => h i (List.mem_cons_of_mem _ hi)),
      List.filterMap_cons_some hv, List.foldl_cons]

theorem map_buildVertex_inRange (oneMinus : Scalar → Scalar) (attrib : attrib_t)
    (l : List index_t) (h : ∀ index ∈ l, index.inRange attrib = true) :
    l.map (buildVertex oneMinus attrib)
      = (l.filterMap (buildVertex oneMinus attrib)).map some := by
  induction l with
  | nil => rfl
  | cons index rest ih =>
    have hi : (buildVertex oneMinus attrib index).isSome = true := by
      rw [buildVertex_isSome]
      exact h index (List.mem_cons_self _ _)
    obtain ⟨v, hv⟩ := Option.isSome_iff_exists.1 hi
    rw [List.map_cons, List.filterMap_cons_some hv, List.map_cons,
      ih (fun i hi => h i (List.mem_cons_of_mem _ hi)), hv]

theorem foldl_visitIndex_undefined (oneMinus : Scalar → Scalar) (attrib : attrib_t)
    (l : List index_t) (st : Option LoaderState) (index : index_t) (hmem : index ∈ l)
    (h : index.inRange attrib = false) :
    l.foldl (visitIndex oneMinus attrib) st = none := by
  induction l generalizing st with
  | nil => simp at hmem
  | cons head rest ih =>
    rcases List.mem_cons.1 hmem with hhead | hrest
    · have hb : buildVertex oneMinus attrib head = none := by
        have := buildVertex_isSome oneMinus attrib head
        rw [← hhead, h] at this
        simpa [hhead] using this
      have hstep : visitIndex oneMinus attrib st head = none := by
        cases st <;> simp [visitIndex, hb]
      rw [List.foldl_cons, hstep]
      exact foldl_visitIndex_none oneMinus attrib rest
    · rw [List.foldl_cons]
      exact ih _ hrest

theorem loadShapes_none (oneMinus : Scalar → Scalar) (attrib : attrib_t)
    (shapes : List shape_t) : loadShapes oneMinus attrib shapes none = none := by
  induction shapes with
  | nil => rfl
  | cons shape rest ih =>
    have hstep : loadShapes oneMinus attrib (shape :: rest) none
        = loadShapes oneMinus attrib rest
            (shape.mesh.indices.foldl (visitIndex oneMinus attrib) none) := rfl
    rw [hstep, foldl_visitIndex_none, ih]

/-- With every read inside the arrays, the loops end in the state that `addVertex` reaches over
the vertices built, in order. -/
theorem loadShapes_inRange (oneMinus : Scalar → Scalar) (attrib : attrib_t)
    (shapes : List shape_t) (st : LoaderState)
    (h : ∀ index ∈ meshIndices shapes, index.inRange attrib = true) :
    loadShapes oneMinus attrib shapes (some st)
      = some ((meshVertices oneMinus attrib shapes).foldl addVertex st) := by
  induction shapes generalizing st with
  | nil => rfl
  | cons shape rest ih =>
    have hstep : loadShapes oneMinus attrib (shape :: rest) (some st)
        = loadShapes oneMinus attrib rest
            (shape.mesh.indices.foldl (visitIndex oneMinus attrib) (some st)) := rfl
    have hsplit : meshIndices (shape :: rest) = shape.mesh.indices ++ meshIndices rest := by
      simp [meshIndices]
    rw [hsplit] at h
    rw [hstep, foldl_visitIndex_inRange oneMinus attrib _ st
        (fun i hi => h i (List.mem_append_left _ hi)),
      ih _ (fun i hi => h i (List.mem_append_right _ hi))]
    simp only [meshVertices, hsplit, List.filterMap_append, List.foldl_append]

/-- A mesh index with a read outside the arrays leaves `loadModel` without defined
behaviour. -/
theorem loadModel_undefined_out_of_range (oneMinus : Scalar → Scalar) (data : ModelData)
    (attrib : attrib_t) (shapes : List shape_t) (index : index_t)
    (hmem : index ∈ meshIndices shapes) (h : index.inRange attrib = false) :
    loadModel oneMinus data (.ok (attrib, shapes)) = .undefined := by
  have hgen : ∀ (shapes : List shape_t) (st : Option LoaderState),
      index ∈ meshIndices shapes → loadShapes oneMinus attrib shapes st = none := by
    intro shapes
    induction shapes with
    | nil =>
      intro st hm
      simp [meshIndices] at hm
    | cons shape rest ih =>
      intro st hm
      have hstep : loadShapes oneMinus attrib (shape :: rest) st
          = loadShapes oneMinus attrib rest
              (shape.mesh.indices.foldl (visitIndex oneMinus attrib) st) := rfl
      have hsplit : meshIndices (shape :: rest) = shape.mesh.indices ++ meshIndices rest := by
        simp [meshIndices]
      rw [hsplit] at hm
      rw [hstep]
      rcases List.mem_append.1 hm with hm | hm
      · rw [foldl_visitIndex_undefined oneMinus attrib _ st index hm h]
        exact loadShapes_none oneMinus attrib rest
      · exact ih _ hm
  simp only [loadModel, hgen shapes _ hmem]

theorem loadModel_inRange (oneMinus : Scalar → Scalar) (attrib : attrib_t)
    (shapes : List shape_t)
    (h : ∀ index ∈ meshIndices shapes, index.inRange attrib = true) :
    loadModel oneMinus {} (.ok (attrib, shapes)) = .returned
      { vertices := ((meshVertices oneMinus attrib shapes).foldl addVertex {}).vertices
        indices := ((meshVertices oneMinus attrib shapes).foldl addVertex {}).indices } := by
  have hload := loadShapes_inRange oneMinus attrib shapes {} h
  have hunfold : loadModel oneMinus {} (.ok (attrib, shapes))
      = match loadShapes oneMinus attrib shapes (some {}) with
        | some st => .returned { vertices := st.vertices, indices := st.indices }
        | none => .undefined := rfl
  rw [hunfold, hload]

/-! ### C26 and C27: loadModel -/

/-- C26 as stated fails: when a built vertex has a NaN coordinate, `uniqueVertices[vertex]`
finds no key equal to it and reads 0, so the second index names the first vertex stored, which
is not the vertex built from the second mesh index.  Every read of this mesh lies inside its
arrays. -/
theorem loadModel_nan_vertex_misindexed :
    (∀ index ∈ meshIndices nanShapes, index.inRange nanAttrib = true) ∧
    loadModel sampleOneMinus {} (.ok (nanAttrib, nanShapes)) = .returned
      { vertices :=
          [{ pos := { x := .finite 0, y := .finite 0, z := .finite 0 }
             texCoord := { x := .finite 0, y := .finite 1 }
             normal := { x := .finite 0, y := .finite 0, z := .finite 1 } },
           { pos := { x := .nan, y := .finite 0, z := .finite 0 }
             texCoord := { x := .finite 0, y := .finite 1 }
             normal := { x := .finite 0, y := .finite 0, z := .finite 1 } }]
        indices := [0, 0] } ∧
    (meshIndices nanShapes).map (buildVertex sampleOneMinus nanAttrib) =
      [some { pos := { x := .finite 0, y := .finite 0, z := .finite 0 }
              texCoord := { x := .finite 0, y := .finite 1 }
              normal := { x := .finite 0, y := .finite 0, z := .finite 1 } },
       some { pos := { x := .nan, y := .finite 0, z := .finite 0 }
              texCoord := { x := .finite 0, y := .finite 1 }
              normal := { x := .finite 0, y := .finite 0, z := .finite 1 } }] ∧
    Vertex.eq
      { pos := { x := .finite 0, y := .finite 0, z := .finite 0 }
        texCoord := { x := .finite 0, y := .finite 1 }
        normal := { x := .finite 0, y := .finite 0, z := .finite 1 } }
      { pos := { x := .nan, y := .finite 0, z := .finite 0 }
        texCoord := { x := .finite 0, y := .finite 1 }
        normal := { x := .finite 0, y := .finite 0, z := .finite 1 } } = false :=
  ⟨by decide, rfl, rfl, rfl⟩

/-- C26 (amended): for every loaded file whose mesh indices point inside the attribute arrays,
and whatever the float subtraction yields: starting from empty `vertices` and `indices`,
`loadModel` returns; `indices` has one entry per mesh index of the shapes and every entry is
less than `vertices.size()`; and when no built vertex has a NaN component and there are at most
`2 ^ 32` mesh indices, reading `vertices` at the entries of `indices`, in order, gives exactly
the vertices built from the mesh indices, in order. -/
theorem loadModel_preserves_mesh (oneMinus : Scalar → Scalar) (attrib : attrib_t)
    (shapes : List shape_t)
    (hrange : ∀ index ∈ meshIndices shapes, index.inRange attrib = true) :
    ∃ data, loadModel oneMinus {} (.ok (attrib, shapes)) = .returned data ∧
      data.indices.length = (meshIndices shapes).length ∧
      (∀ i ∈ data.indices, i < data.vertices.length) ∧
      ((∀ v ∈ meshVertices oneMinus attrib shapes, v.eq v = true) →
        (meshIndices shapes).length ≤ 2 ^ 32 →
        data.indices.map (fun i => data.vertices[i]?)
          = (meshIndices shapes).map (buildVertex oneMinus attrib)) := by
  have hbuilt := map_buildVertex_inRange oneMinus attrib (meshIndices shapes) hrange
  have hlen : (meshVertices oneMinus attrib shapes).length = (meshIndices shapes).length := by
    have := congrArg List.length hbuilt
    simpa [meshVertices] using this.symm
  refine ⟨_, loadModel_inRange oneMinus attrib shapes hrange, ?_, ?_, ?_⟩
  · show ((meshVertices oneMinus attrib shapes).foldl addVertex {}).indices.length = _
    rw [(foldl_addVertex_bounds _).1, hlen]
  · exact (foldl_addVertex_bounds _).2
  · intro hrefl hsize
    show ((meshVertices oneMinus attrib shapes).foldl addVertex {}).indices.map
      (fun i => ((meshVertices oneMinus attrib shapes).foldl addVertex {}).vertices[i]?) = _
    rw [foldl_addVertex_reads _ hrefl (by rw [hlen]; exact hsize), hbuilt]
    rfl

/-- C26 (amended), at a concrete input: the unit square, whose six mesh indices name four
vertices without NaN. -/
theorem loadModel_preserves_mesh_witness :
    (∀ index ∈ meshIndices quadShapes, index.inRange quadAttrib = true) ∧
    (∀ v ∈ meshVertices sampleOneMinus quadAttrib quadShapes, v.eq v = true) ∧
    (meshIndices quadShapes).length ≤ 2 ^ 32 ∧
    ∃ data, loadModel sampleOneMinus {} (.ok (quadAttrib, quadShapes)) = .returned data ∧
      data.indices.map (fun i => data.vertices[i]?)
        = (meshIndices quadShapes).map (buildVertex sampleOneMinus quadAttrib) :=
  ⟨by decide, by decide, by decide,
   (loadModel_preserves_mesh sampleOneMinus quadAttrib quadShapes (by decide)).elim
     (fun data h => ⟨data, h.1, h.2.2.2 (by decide) (by decide)⟩)⟩

/-- C27: for every loaded file whose mesh indices point inside the attribute arrays, and
whatever the float subtraction yields: starting from empty `vertices`, `loadModel` returns with
`vertices` equal to the built vertices that no earlier built vertex equals under
`Vertex::operator==`, in the order the mesh indices give them (one vertex is built per mesh
index); and no two entries of `vertices` are equal under `Vertex::operator==`. -/
theorem loadModel_stores_distinct_vertices (oneMinus : Scalar → Scalar) (attrib : attrib_t)
    (shapes : List shape_t)
    (hrange : ∀ index ∈ meshIndices shapes, index.inRange attrib = true) :
    ∃ data, loadModel oneMinus {} (.ok (attrib, shapes)) = .returned data ∧
      (meshIndices shapes).map (buildVertex oneMinus attrib)
        = (meshVertices oneMinus attrib shapes).map some ∧
      data.vertices = firstOccurrences (meshVertices oneMinus attrib shapes) ∧
      ∀ (i j : Nat) (a b : Vertex), i ≠ j → data.vertices[i]? = some a →
        data.vertices[j]? = some b → a.eq b = false := by
  have hv : ((meshVertices oneMinus attrib shapes).foldl addVertex {}).vertices
      = firstOccurrences (meshVertices oneMinus attrib shapes) :=
    foldl_addVertex_vertices _
  refine ⟨_, loadModel_inRange oneMinus attrib shapes hrange,
    map_buildVertex_inRange oneMinus attrib (meshIndices shapes) hrange, hv, ?_⟩
  show ∀ (i j : Nat) (a b : Vertex), i ≠ j →
    ((meshVertices oneMinus attrib shapes).foldl addVertex {}).vertices[i]? = some a →
    ((meshVertices oneMinus attrib shapes).foldl addVertex {}).vertices[j]? = some b →
    a.eq b = false
  rw [hv]
  have hp := firstOccurrences_pairwise (meshVertices oneMinus attrib shapes)
  rw [List.pairwise_iff_getElem] at hp
  intro i j a b hij hi hj
  obtain ⟨hi1, hi2⟩ := List.getElem?_eq_some.1 hi
  obtain ⟨hj1, hj2⟩ := List.getElem?_eq_some.1 hj
  rcases Nat.lt_or_gt_of_ne hij with hlt | hgt
  · have := hp i j hi1 hj1 hlt
    rw [hi2, hj2] at this
    exact this
  · have := hp j i hj1 hi1 hgt
    rw [hi2, hj2] at this
    cases hab : a.eq b with
    | false => rfl
    | true => rw [Vertex.eq_symmetric a b hab] at this; exact absurd this (by simp)

/-- C27 at a concrete input: the unit square yields its four corners in order of first
occurrence, and the first two are unequal. -/
theorem loadModel_stores_distinct_vertices_witness :
    (∀ index ∈ meshIndices quadShapes, index.inRange quadAttrib = true) ∧
    ∃ data, loadModel sampleOneMinus {} (.ok (quadAttrib, quadShapes)) = .returned data ∧
      data.vertices = [quadVertex 0 0, quadVertex 1 0, quadVertex 0 1, quadVertex 1 1] ∧
      (quadVertex 0 0).eq (quadVertex 1 0) = false :=
  ⟨by decide,
   (loadModel_stores_distinct_vertices sampleOneMinus quadAttrib quadShapes (by decide)).elim
     (fun data h => ⟨data, h.1, h.2.2.1.trans (by decide),
       h.2.2.2 0 1 (quadVertex 0 0) (quadVertex 1 0) (by decide)
         (by rw [h.2.2.1]; decide) (by rw [h.2.2.1]; decide)⟩)⟩

/-! ### C28: what submit passes to the driver -/

theorem VulkanCommandBuffer.splitWaitData_eq (waitSemaphoreData : List (Nat × Nat)) :
    VulkanCommandBuffer.splitWaitData waitSemaphoreData
      = (waitSemaphoreData.map Prod.fst, waitSemaphoreData.map Prod.snd) := by
  unfold VulkanCommandBuffer.splitWaitData
  refine Prod.ext ?_ ?_
  · apply List.ext_getElem
    · simp
    · intro i h1 h2
      simp only [List.length_map, List.length_range] at h1
      simp [List.getD_eq_getElem?_getD, List.getElem?_eq_getElem h1]
  · apply List.ext_getElem
    · simp
    · intro i h1 h2
      simp only [List.length_map, List.length_range] at h1
      simp [List.getD_eq_getElem?_getD, List.getElem?_eq_getElem h1]

/-- C28: on a command buffer that is not recording, `submit` returns after one `vkQueueSubmit`
of one submission on the given queue.  The wait semaphores and the stage masks passed are the
first and the second components of the given pairs, entry by entry and in the same number; the
signal semaphores are the given list; the one command buffer is this one; the two counts are
the list sizes as `uint32_t`; and the fence passed is the handle of the given fence, or the
null handle when none is given. -/
theorem VulkanCommandBuffer.submit_passes_lists_in_order (c : VulkanCommandBuffer)
    (queue : VulkanQueue) (waitSemaphoreData : List (Nat × Nat)) (signalSemaphores : List Nat)
    (fence : Option VulkanFence) (h : c.m_isRecording = false) :
    (c.submit queue waitSemaphoreData signalSemaphores fence).returned = true ∧
    ∃ submitInfo handle,
      (c.submit queue waitSemaphoreData signalSemaphores fence).trace
        = [Call.vkQueueSubmit queue.m_vkHandle 1 submitInfo handle] ∧
      submitInfo.pWaitSemaphores = waitSemaphoreData.map Prod.fst ∧
      submitInfo.pWaitDstStageMask = waitSemaphoreData.map Prod.snd ∧
      submitInfo.pWaitSemaphores.length = waitSemaphoreData.length ∧
      submitInfo.pWaitDstStageMask.length = waitSemaphoreData.length ∧
      (∀ (i : Nat) (pair : Nat × Nat), waitSemaphoreData[i]? = some pair →
        submitInfo.pWaitSemaphores[i]? = some pair.1 ∧
        submitInfo.pWaitDstStageMask[i]? = some pair.2) ∧
      submitInfo.waitSemaphoreCount = waitSemaphoreData.length % 2 ^ 32 ∧
      submitInfo.pSignalSemaphores = signalSemaphores ∧
      submitInfo.signalSemaphoreCount = signalSemaphores.length % 2 ^ 32 ∧
      submitInfo.commandBufferCount = 1 ∧
      submitInfo.pCommandBuffers = [c.m_vkHandle] ∧
      (∀ f, fence = some f → handle = f.m_vkHandle) ∧
      (fence = none → handle = VK_NULL_HANDLE) := by
  refine ⟨by simp [VulkanCommandBuffer.submit, h, Outcome.returned],
    { commandBufferCount := 1
      pCommandBuffers := [c.m_vkHandle]
      waitSemaphoreCount := castU32 (waitSemaphoreData.map Prod.fst).length
      pWaitSemaphores := waitSemaphoreData.map Prod.fst
      pWaitDstStageMask := waitSemaphoreData.map Prod.snd
      signalSemaphoreCount := castU32 signalSemaphores.length
      pSignalSemaphores := signalSemaphores },
    (match fence with
     | some f => f.m_vkHandle
     | none => VK_NULL_HANDLE), ?_, rfl, rfl, by simp, by simp, ?_, ?_, rfl, rfl, rfl, rfl,
    ?_, ?_⟩
  · simp only [VulkanCommandBuffer.submit, h, Bool.false_eq_true, if_false,
      VulkanCommandBuffer.splitWaitData_eq]
  · intro i pair hp
    simp [List.getElem?_map, hp]
  · simp only [List.length_map]
    rfl
  · intro f hf
    rw [hf]
  · intro hf
    rw [hf]

/-- C28 at a concrete input: two wait pairs, one signal semaphore and a fence with handle 21. -/
theorem VulkanCommandBuffer.submit_passes_lists_in_order_witness :
    ({ m_vkHandle := 5 } : VulkanCommandBuffer).m_isRecording = false ∧
    ∃ submitInfo handle,
      (VulkanCommandBuffer.submit { m_vkHandle := 5 } { m_vkHandle := 3 }
          [(11, 1024), (13, 1)] [12] (some { m_id := 0, m_vkHandle := 21 })).trace
        = [Call.vkQueueSubmit 3 1 submitInfo handle] ∧
      submitInfo.pWaitSemaphores = [11, 13] ∧
      submitInfo.pWaitDstStageMask = [1024, 1] ∧
      handle = 21 :=
  ⟨rfl,
   (VulkanCommandBuffer.submit_passes_lists_in_order { m_vkHandle := 5 } { m_vkHandle := 3 }
      [(11, 1024), (13, 1)] [12] (some { m_id := 0, m_vkHandle := 21 }) rfl).2.elim
     (fun submitInfo hs => hs.elim (fun handle hh =>
       ⟨submitInfo, handle, hh.1, hh.2.1.trans rfl, hh.2.2.1.trans rfl,
        hh.2.2.2.2.2.2.2.2.2.2.2.1 _ rfl⟩))⟩

end VkPlayground
